import Mathlib

/-!
# muprof: instrument fan-out and command-line session driver

A shallow embedding of `Source/ThirdParty/muprof/src/sysprof-instrument.c` and
`Source/ThirdParty/muprof/src/main.c`, followed by the fence accessors of
`Source/WebKit/WPEPlatform/wpe/WPEBufferAndroid.cpp` and the class of
`Source/WebKit/UIProcess/API/glib/WebKitIconLoadingClient.cpp`.

Conventions of the embedding:

* a C pointer that is tested with a GObject type-check macro is a `GPointer`
  (`null`, a non-null pointer to something of another type, or an object);
* `g_assert` aborts the process: a function that can reach a failing assertion
  returns `Option`, `none` standing for the abort;
* `g_return_val_if_fail (cond, NULL)` returns the `NULL` future, written `none`
  in the returned `Option DexFuture`;
* effects are explicit: the instrument functions thread a `World` holding the
  state the virtual methods may touch (`ext`) and a log of the per-instrument
  dispatches (`calls`), which the virtual methods cannot reach; `main` and its
  callbacks thread a `Cli` holding the static and global variables and the
  trace of what they did to the outside, in program order;
* what `main` gets from outside (option parser, file system, environment, the
  callbacks the main context dispatches) is the `Host` of a run.
-/

namespace Muprof

/-! ## GLib / libdex data -/

/-- A `GError`: domain quark, code and message. -/
structure GError where
  domain : Nat
  code : Int
  message : String
deriving DecidableEq, Repr

/-- A C pointer as the GObject type-check macros see it. -/
inductive GPointer (α : Type) where
  | null
  | foreign (addr : Nat)
  | object (a : α)
deriving DecidableEq, Repr

/-- A `SysprofRecording` object, known by its identity. -/
structure SysprofRecording where
  id : Nat
deriving DecidableEq, Repr

/-- A `GCancellable` object, known by its identity. -/
structure GCancellable where
  id : Nat
deriving DecidableEq, Repr

/-- The macro `SYSPROF_IS_RECORDING (p)`. -/
def SYSPROF_IS_RECORDING : GPointer SysprofRecording → Bool
  | .object _ => true
  | _ => false

/-- The macro `G_IS_CANCELLABLE (p)`. -/
def G_IS_CANCELLABLE : GPointer GCancellable → Bool
  | .object _ => true
  | _ => false

/-- The C test `!p` on a pointer. -/
def GPointer.isNull {α : Type} : GPointer α → Bool
  | .null => true
  | _ => false

/-- A `DexFuture` as a term: the constructors the code uses
(`dex_future_new_for_boolean`, `dex_future_new_for_error`, `dex_future_allv`)
and `pending`, a future still in flight that a virtual method handed back. -/
inductive DexFuture where
  | for_boolean (b : Bool)
  | for_error (e : GError)
  | pending (id : Nat)
  | allv (fs : List DexFuture)
deriving Repr

/-- The libdex constructor `dex_future_new_for_boolean`. -/
def dex_future_new_for_boolean (b : Bool) : DexFuture := .for_boolean b

/-- The libdex constructor `dex_future_new_for_error`. -/
def dex_future_new_for_error (e : GError) : DexFuture := .for_error e

/-- The libdex constructor `dex_future_allv (futures, n_futures)`, over the
first `n` entries of the array. -/
def dex_future_allv (futures : Array DexFuture) (n : Nat) : DexFuture :=
  .allv (futures.toList.take n)

/-- The function `g_assert (cond)`: continue when the condition holds, abort otherwise. -/
def g_assert (cond : Bool) : Option Unit :=
  if cond then some () else none

/-! ## The instrument class -/

/-- One dispatch through a `_sysprof_instrument_*` wrapper, with the arguments
it was given. `self` is the identity of the instrument. -/
inductive Call where
  | prepare (self : Nat) (recording : GPointer SysprofRecording)
  | record (self : Nat) (recording : GPointer SysprofRecording)
      (cancellable : GPointer GCancellable)
  | augment (self : Nat) (recording : GPointer SysprofRecording)
  | process_started (self : Nat) (recording : GPointer SysprofRecording)
      (pid : Int) (comm : Option String)
deriving DecidableEq, Repr

/-- The state the functions run in. -/
structure World (σ : Type) where
  calls : List Call
  ext : σ

/-- The virtual-method table `SysprofInstrumentClass`. A slot is `none` when the
function pointer is `NULL`. A virtual method receives the identity of `self`,
its arguments and the state, and either aborts or returns a future. -/
structure SysprofInstrumentClass (σ : Type) where
  list_required_policy : Option (Nat → Option (Option (List String)))
  prepare : Option (Nat → GPointer SysprofRecording → σ → Option (DexFuture × σ))
  record : Option (Nat → GPointer SysprofRecording → GPointer GCancellable → σ →
    Option (DexFuture × σ))
  augment : Option (Nat → GPointer SysprofRecording → σ → Option (DexFuture × σ))
  process_started : Option (Nat → GPointer SysprofRecording → Int → Option String → σ →
    Option (DexFuture × σ))

/-- An instance of a (sub)class of `SysprofInstrument`. -/
structure SysprofInstrument (σ : Type) where
  id : Nat
  klass : SysprofInstrumentClass σ

/-- The macro `SYSPROF_IS_INSTRUMENT (p)`: the members of the collection are
instruments by their type. -/
def SYSPROF_IS_INSTRUMENT {σ : Type} (_ : SysprofInstrument σ) : Bool := true

/-- The macro `SYSPROF_IS_INSTRUMENT (p)` on the identity a virtual method
receives. -/
def SYSPROF_IS_INSTRUMENT_ID (_ : Nat) : Bool := true

/-- The function `sysprof_instrument_real_list_required_policy`: returns `NULL`. -/
def sysprof_instrument_real_list_required_policy (instrument : Nat) :
    Option (Option (List String)) :=
  match g_assert (SYSPROF_IS_INSTRUMENT_ID instrument) with
  | none => none
  | some () => some none

/-- The function `sysprof_instrument_real_prepare`. -/
def sysprof_instrument_real_prepare {σ : Type} (instrument : Nat)
    (recording : GPointer SysprofRecording) (s : σ) : Option (DexFuture × σ) :=
  match g_assert (SYSPROF_IS_INSTRUMENT_ID instrument) with
  | none => none
  | some () =>
    match g_assert (SYSPROF_IS_RECORDING recording) with
    | none => none
    | some () => some (dex_future_new_for_boolean true, s)

/-- The function `sysprof_instrument_real_record`. -/
def sysprof_instrument_real_record {σ : Type} (instrument : Nat)
    (recording : GPointer SysprofRecording) (cancellable : GPointer GCancellable) (s : σ) :
    Option (DexFuture × σ) :=
  match g_assert (SYSPROF_IS_INSTRUMENT_ID instrument) with
  | none => none
  | some () =>
    match g_assert (SYSPROF_IS_RECORDING recording) with
    | none => none
    | some () =>
      match g_assert (cancellable.isNull || G_IS_CANCELLABLE cancellable) with
      | none => none
      | some () => some (dex_future_new_for_boolean true, s)

/-- The class structure as GObject hands it to `class_init`: zero-filled. -/
def zeroed_class (σ : Type) : SysprofInstrumentClass σ :=
  { list_required_policy := none, prepare := none, record := none,
    augment := none, process_started := none }

/-- The function `sysprof_instrument_class_init`. -/
def sysprof_instrument_class_init {σ : Type} (klass : SysprofInstrumentClass σ) :
    SysprofInstrumentClass σ :=
  { klass with
    list_required_policy := some sysprof_instrument_real_list_required_policy
    prepare := some sysprof_instrument_real_prepare
    record := some sysprof_instrument_real_record }

/-- Run a virtual method on the `ext` part of the world. -/
def World.call {σ : Type} (w : World σ) (hook : σ → Option (DexFuture × σ)) :
    Option (DexFuture × World σ) :=
  match hook w.ext with
  | none => none
  | some (f, s) => some (f, { w with ext := s })

/-- Note one dispatch in the log. -/
def World.note {σ : Type} (w : World σ) (c : Call) : World σ :=
  { w with calls := w.calls ++ [c] }

/-- The function `_sysprof_instrument_prepare`. -/
def _sysprof_instrument_prepare {σ : Type} (self : SysprofInstrument σ)
    (recording : GPointer SysprofRecording) (w : World σ) : Option (DexFuture × World σ) :=
  match g_assert (SYSPROF_IS_INSTRUMENT self) with
  | none => none
  | some () =>
    match g_assert (SYSPROF_IS_RECORDING recording) with
    | none => none
    | some () =>
      let w := w.note (.prepare self.id recording)
      match self.klass.prepare with
      | some prepare => w.call (prepare self.id recording)
      | none => some (dex_future_new_for_boolean true, w)

/-- The function `_sysprof_instrument_record`. -/
def _sysprof_instrument_record {σ : Type} (self : SysprofInstrument σ)
    (recording : GPointer SysprofRecording) (cancellable : GPointer GCancellable)
    (w : World σ) : Option (DexFuture × World σ) :=
  match g_assert (SYSPROF_IS_INSTRUMENT self) with
  | none => none
  | some () =>
    match g_assert (SYSPROF_IS_RECORDING recording) with
    | none => none
    | some () =>
      match g_assert (G_IS_CANCELLABLE cancellable) with
      | none => none
      | some () =>
        let w := w.note (.record self.id recording cancellable)
        match self.klass.record with
        | some record => w.call (record self.id recording cancellable)
        | none => some (dex_future_new_for_boolean true, w)

/-- The function `_sysprof_instrument_augment`. -/
def _sysprof_instrument_augment {σ : Type} (self : SysprofInstrument σ)
    (recording : GPointer SysprofRecording) (w : World σ) : Option (DexFuture × World σ) :=
  match g_assert (SYSPROF_IS_INSTRUMENT self) with
  | none => none
  | some () =>
    match g_assert (SYSPROF_IS_RECORDING recording) with
    | none => none
    | some () =>
      let w := w.note (.augment self.id recording)
      match self.klass.augment with
      | some augment => w.call (augment self.id recording)
      | none => some (dex_future_new_for_boolean true, w)

/-- The function `_sysprof_instrument_process_started`. -/
def _sysprof_instrument_process_started {σ : Type} (self : SysprofInstrument σ)
    (recording : GPointer SysprofRecording) (pid : Int) (comm : Option String)
    (w : World σ) : Option (DexFuture × World σ) :=
  match g_assert (SYSPROF_IS_INSTRUMENT self) with
  | none => none
  | some () =>
    match g_assert (SYSPROF_IS_RECORDING recording) with
    | none => none
    | some () =>
      let w := w.note (.process_started self.id recording pid comm)
      match self.klass.process_started with
      | some process_started => w.call (process_started self.id recording pid comm)
      | none => some (dex_future_new_for_boolean true, w)

/-! ## The fan-outs -/

/-- The loop shared by the four fan-outs,
`for (guint i = ...; i < instruments->len; i++) g_ptr_array_add (futures, op (instrument))`,
entered at index `i`. `fuel` bounds the number of iterations; the fan-outs pass
`instruments->len`, which the loop cannot exceed. -/
def fan_out_loop {σ : Type} (instruments : Array (SysprofInstrument σ))
    (op : SysprofInstrument σ → World σ → Option (DexFuture × World σ)) :
    (fuel : Nat) → (i : Nat) → Array DexFuture → World σ →
      Option (Array DexFuture × World σ)
  | 0, _, futures, w => some (futures, w)
  | fuel + 1, i, futures, w =>
    if h : i < instruments.size then
      let instrument := instruments[i]
      match op instrument w with
      | none => none
      | some (future, w) => fan_out_loop instruments op fuel (i + 1) (futures.push future) w
    else
      some (futures, w)

/-- The tail shared by the four fan-outs: the already-resolved future for an
empty array, `dex_future_allv` otherwise. -/
def fan_out_join (futures : Array DexFuture) : DexFuture :=
  if futures.size = 0 then
    dex_future_new_for_boolean true
  else
    dex_future_allv futures futures.size

/-- The function `_sysprof_instruments_prepare`. -/
def _sysprof_instruments_prepare {σ : Type}
    (instruments : Option (Array (SysprofInstrument σ)))
    (recording : GPointer SysprofRecording) (w : World σ) :
    Option (Option DexFuture × World σ) :=
  match instruments with
  | none => some (none, w)
  | some instruments =>
    if !SYSPROF_IS_RECORDING recording then some (none, w) else
    match fan_out_loop instruments (fun instrument =>
        _sysprof_instrument_prepare instrument recording) instruments.size 0 #[] w with
    | none => none
    | some (futures, w) => some (some (fan_out_join futures), w)

/-- The function `_sysprof_instruments_record`. -/
def _sysprof_instruments_record {σ : Type}
    (instruments : Option (Array (SysprofInstrument σ)))
    (recording : GPointer SysprofRecording) (cancellable : GPointer GCancellable)
    (w : World σ) : Option (Option DexFuture × World σ) :=
  match instruments with
  | none => some (none, w)
  | some instruments =>
    if !SYSPROF_IS_RECORDING recording then some (none, w) else
    if !(cancellable.isNull || G_IS_CANCELLABLE cancellable) then some (none, w) else
    match fan_out_loop instruments (fun instrument =>
        _sysprof_instrument_record instrument recording cancellable)
        instruments.size 0 #[] w with
    | none => none
    | some (futures, w) => some (some (fan_out_join futures), w)

/-- The function `_sysprof_instruments_augment`. -/
def _sysprof_instruments_augment {σ : Type}
    (instruments : Option (Array (SysprofInstrument σ)))
    (recording : GPointer SysprofRecording) (w : World σ) :
    Option (Option DexFuture × World σ) :=
  match instruments with
  | none => some (none, w)
  | some instruments =>
    if !SYSPROF_IS_RECORDING recording then some (none, w) else
    match fan_out_loop instruments (fun instrument =>
        _sysprof_instrument_augment instrument recording) instruments.size 0 #[] w with
    | none => none
    | some (futures, w) => some (some (fan_out_join futures), w)

/-- The function `_sysprof_instruments_process_started`. -/
def _sysprof_instruments_process_started {σ : Type}
    (instruments : Option (Array (SysprofInstrument σ)))
    (recording : GPointer SysprofRecording) (pid : Int) (comm : Option String)
    (w : World σ) : Option (Option DexFuture × World σ) :=
  match instruments with
  | none => some (none, w)
  | some instruments =>
    if !SYSPROF_IS_RECORDING recording then some (none, w) else
    match fan_out_loop instruments (fun instrument =>
        _sysprof_instrument_process_started instrument recording pid comm)
        instruments.size 0 #[] w with
    | none => none
    | some (futures, w) => some (some (fan_out_join futures), w)

/-! ## Settling of futures -/

/-- What an observer sees of a future: still in flight, resolved with a value,
or rejected with an error. -/
inductive FutureStatus where
  | pending
  | resolved
  | rejected (e : GError)
deriving DecidableEq, Repr

mutual
/-- Modelled from the spec: the libdex combinator behind `dex_future_allv` is
not part of the sources at hand. The spec describes an all-complete join: the
joined future settles only once every member has settled, resolves when all of
them resolved and otherwise rejects with the error of a rejected member (the
first one in array order). `env` gives the state of the futures in flight. -/
def DexFuture.status (env : Nat → FutureStatus) : DexFuture → FutureStatus
  | .for_boolean _ => .resolved
  | .for_error e => .rejected e
  | .pending id => env id
  | .allv fs => DexFuture.statusAll env fs
/-- Modelled from the spec: the all-complete join over a list of futures, see
`DexFuture.status`. -/
def DexFuture.statusAll (env : Nat → FutureStatus) : List DexFuture → FutureStatus
  | [] => .resolved
  | f :: fs =>
    match DexFuture.status env f, DexFuture.statusAll env fs with
    | .pending, _ => .pending
    | _, .pending => .pending
    | .rejected e, _ => .rejected e
    | .resolved, r => r
end

/-- Whether a status is a rejection. -/
def FutureStatus.isRejected : FutureStatus → Bool
  | .rejected _ => true
  | _ => false

/-! ## Specification vocabulary for the fan-outs -/

/-- The instruments of the list were dispatched one after the other, each once:
`op` ran on the first instrument in world `w`, on the second in the world the
first left behind, and so on; `fs` are the futures they returned, position by
position, and `w2` is the world after the last one. -/
def InOrder {σ : Type} (op : SysprofInstrument σ → World σ → Option (DexFuture × World σ)) :
    List (SysprofInstrument σ) → World σ → List DexFuture → World σ → Prop
  | [], w, fs, w2 => fs = [] ∧ w2 = w
  | x :: xs, w, fs, w2 =>
    ∃ f rest w1, fs = f :: rest ∧ op x w = some (f, w1) ∧ InOrder op xs w1 rest w2

/-- What a fan-out over `instruments` that started in world `w` has to return:
the join of one future per instrument, obtained in collection order, and a log
that grew by one dispatch per instrument, in collection order. -/
def FansOut {σ : Type} (op : SysprofInstrument σ → World σ → Option (DexFuture × World σ))
    (call : Nat → Call) (instruments : Array (SysprofInstrument σ)) (w : World σ)
    (result : Option (Option DexFuture × World σ)) : Prop :=
  ∃ futures w2, result = some (some (fan_out_join futures), w2) ∧
    futures.size = instruments.size ∧
    InOrder op instruments.toList w futures.toList w2 ∧
    w2.calls = w.calls ++ instruments.toList.map (fun x => call x.id)

/-- No virtual method of the collection aborts the process on these arguments. -/
def HooksReturn {σ : Type} (instruments : Array (SysprofInstrument σ))
    (recording : GPointer SysprofRecording) (cancellable : GPointer GCancellable)
    (pid : Int) (comm : Option String) : Prop :=
  ∀ x ∈ instruments.toList,
    (∀ hook, x.klass.prepare = some hook → ∀ s, (hook x.id recording s).isSome = true) ∧
    (∀ hook, x.klass.record = some hook →
      ∀ s, (hook x.id recording cancellable s).isSome = true) ∧
    (∀ hook, x.klass.augment = some hook → ∀ s, (hook x.id recording s).isSome = true) ∧
    (∀ hook, x.klass.process_started = some hook →
      ∀ s, (hook x.id recording pid comm s).isSome = true)

/-- The joined future behaves as an all-complete join over `futures`: it is in
flight exactly while some member is, it resolves exactly when every member
resolved, a rejection carries the error of a rejected member, and once all
members have settled with one of them rejected it is rejected. -/
def AllCompleteJoin (env : Nat → FutureStatus) (joined : DexFuture)
    (futures : List DexFuture) : Prop :=
  (joined.status env = .pending ↔ ∃ f ∈ futures, f.status env = .pending) ∧
  (joined.status env = .resolved ↔ ∀ f ∈ futures, f.status env = .resolved) ∧
  (∀ e, joined.status env = .rejected e → ∃ f ∈ futures, f.status env = .rejected e) ∧
  ((∀ f ∈ futures, f.status env ≠ .pending) →
    (∃ f ∈ futures, (f.status env).isRejected = true) →
    ∃ e, joined.status env = .rejected e ∧ ∃ f ∈ futures, f.status env = .rejected e)

/-- What a fan-out over a non-empty collection has to return: a future that is
the all-complete join of the futures the instruments returned, in whatever way
the futures in flight settle. -/
def JoinsAll {σ : Type} (op : SysprofInstrument σ → World σ → Option (DexFuture × World σ))
    (instruments : Array (SysprofInstrument σ)) (w : World σ)
    (result : Option (Option DexFuture × World σ)) : Prop :=
  ∃ futures w2 joined, result = some (some joined, w2) ∧
    futures.length = instruments.size ∧
    InOrder op instruments.toList w futures w2 ∧
    ∀ env, AllCompleteJoin env joined futures

/-! ## The command-line driver (`main.c`): data -/

/-- The two signals `main` watches. -/
inductive Signal where
  | SIGINT
  | SIGTERM
deriving DecidableEq, Repr

/-- The `open(2)` flags that matter here. -/
inductive OpenFlag where
  | O_CREAT
  | O_RDWR
  | O_CLOEXEC
  | O_EXCL
  | O_TRUNC
deriving DecidableEq, Repr

/-- A `SysprofDiagnostic`: a domain and a message. -/
structure SysprofDiagnostic where
  domain : String
  message : String
deriving DecidableEq, Repr

/-- Modelled from the spec: the spawn configuration (`SysprofSpawnable`) is an
external collaborator; it holds a working directory, an argument vector and an
environment, kept here as (name, value) pairs. -/
structure SysprofSpawnable where
  cwd : Option String
  argv : List String
  environ : List (String × String)
deriving DecidableEq, Repr

/-- Everything `main` and its callbacks do to the outside, in program order. -/
inductive Event where
  | printerr (text : String)
  | stop_async (recording : Option SysprofRecording)
  | main_loop_quit
  | file_test (filename : String)
  | g_open (filename : String) (flags : List OpenFlag) (mode : Nat) (fd : Int)
  | writer_new_from_fd (fd : Int) (buffer_size : Nat)
  | set_spawnable (spawnable : SysprofSpawnable)
  | record_async
  | unix_signal_add (sig : Signal)
  | main_loop_run
  | writer_flush
  | signal_connect_items_changed
  | wait_async (recording : SysprofRecording)
deriving DecidableEq, Repr

/-- The process state the callbacks share: the function-static `count` of
`sigint_handler`, the global `active_recording` (`none` is `NULL`), whether the
main loop is still asked to run, and the trace of effects so far. -/
structure Cli where
  count : Int
  active_recording : Option SysprofRecording
  running : Bool
  trace : List Event
deriving DecidableEq, Repr

/-- The function `g_printerr`. -/
def Cli.g_printerr (st : Cli) (text : String) : Cli :=
  { st with trace := st.trace ++ [.printerr text] }

/-- Append one effect to the trace. -/
def Cli.emit (st : Cli) (e : Event) : Cli :=
  { st with trace := st.trace ++ [e] }

/-- The function `g_main_loop_quit (main_loop)`. -/
def Cli.g_main_loop_quit (st : Cli) : Cli :=
  { st with running := false, trace := st.trace ++ [.main_loop_quit] }

/-- The return value `G_SOURCE_CONTINUE`. -/
def G_SOURCE_CONTINUE : Bool := true

/-- The return value `G_SOURCE_REMOVE`. -/
def G_SOURCE_REMOVE : Bool := false

/-- The quark `G_SPAWN_EXIT_ERROR`. Quarks are interned at run time; the
embedding fixes a number for this one. -/
def G_SPAWN_EXIT_ERROR : Nat := 101

/-- The exit status `EXIT_SUCCESS`. -/
def EXIT_SUCCESS : Int := 0

/-- The exit status `EXIT_FAILURE`. -/
def EXIT_FAILURE : Int := 1

/-! ## The command-line driver: callbacks -/

/-- The function `sigint_handler`, the source function of both signal sources. -/
def sigint_handler (st : Cli) : Bool × Cli :=
  if st.count ≥ 2 then
    (G_SOURCE_REMOVE, st.g_main_loop_quit)
  else
    let st := st.g_printerr "\n"
    let st :=
      if st.count = 0 then
        let st := st.g_printerr "Stopping profiler. Press twice more ^C to force exit.\n"
        st.emit (.stop_async st.active_recording)
      else st
    let st := { st with count := st.count + 1 }
    (G_SOURCE_CONTINUE, st)

/-- The text `diagnostics_items_changed_cb` prints for one item; a `NULL` item
(position out of range) makes both getters return `NULL`, which `g_printerr`
renders as `(null)`. -/
def diagnostic_line : Option SysprofDiagnostic → String
  | some d => d.domain ++ ": " ++ d.message ++ "\n"
  | none => "(null): (null)\n"

/-- The loop of `diagnostics_items_changed_cb`, entered at index `i` with
`fuel` iterations allowed; `position + i` is `guint` arithmetic. -/
def diagnostics_items_changed_loop (model : List SysprofDiagnostic) (position added : Nat) :
    (fuel : Nat) → (i : Nat) → Cli → Cli
  | 0, _, st => st
  | fuel + 1, i, st =>
    if i < added then
      let diagnostic := model[(position + i) % 2 ^ 32]?
      diagnostics_items_changed_loop model position added fuel (i + 1)
        (st.g_printerr (diagnostic_line diagnostic))
    else st

/-- The function `diagnostics_items_changed_cb (model, position, removed, added,
NULL)`; `removed` is not used. -/
def diagnostics_items_changed_cb (model : List SysprofDiagnostic)
    (position _removed added : Nat) (st : Cli) : Cli :=
  diagnostics_items_changed_loop model position added added 0 st

/-- The function `sysprof_cli_wait_cb`; `result` is what
`sysprof_recording_wait_finish` reports. -/
def sysprof_cli_wait_cb (result : Except GError Unit) (st : Cli) : Cli :=
  let st :=
    match result with
    | .ok () => st
    | .error error =>
      if error.domain ≠ G_SPAWN_EXIT_ERROR then
        st.g_printerr ("Failed to complete recording: " ++ error.message ++ "\n")
      else st
  st.g_main_loop_quit

/-- The function `sysprof_cli_record_cb`; `result` is what
`sysprof_profiler_record_finish` reports and `diagnostics` the content of the recording's diagnostics model at
that time. `g_error` aborts the process (`none`). -/
def sysprof_cli_record_cb (result : Except GError SysprofRecording)
    (diagnostics : List SysprofDiagnostic) (st : Cli) : Option Cli :=
  match result with
  | .error error =>
    let _st := st.g_printerr ("Failed to start profiling session: " ++ error.message)
    none
  | .ok recording =>
    let st := st.emit .signal_connect_items_changed
    let st := diagnostics_items_changed_cb diagnostics 0 0 diagnostics.length st
    let st := st.emit (.wait_async recording)
    some { st with active_recording := some recording }

/-- One callback the main context dispatches. -/
inductive Callback where
  | signal (sig : Signal)
  | record_finished (result : Except GError SysprofRecording)
      (diagnostics : List SysprofDiagnostic)
  | wait_finished (result : Except GError Unit)
  | items_changed (model : List SysprofDiagnostic) (position removed added : Nat)

/-- The source function of the signal source that `main` adds for `sig` with
`g_unix_signal_add (sig, sigint_handler, main_loop)`: the same handler and the
same main loop for both signals. -/
def signal_source (_sig : Signal) (st : Cli) : Bool × Cli :=
  sigint_handler st

/-- Deliver the signals of the list one after the other, each to its signal
source; returns the state after the last one. -/
def deliver_signals : List Signal → Cli → Cli
  | [], st => st
  | sig :: rest, st => deliver_signals rest (signal_source sig st).2

/-- Dispatch one callback; `none` when the callback aborts the process. -/
def dispatch (cb : Callback) (st : Cli) : Option Cli :=
  match cb with
  | .signal sig => some (signal_source sig st).2
  | .record_finished result diagnostics => sysprof_cli_record_cb result diagnostics st
  | .wait_finished result => some (sysprof_cli_wait_cb result st)
  | .items_changed model position removed added =>
    some (diagnostics_items_changed_cb model position removed added st)

/-- Whether an effect opens the capture file. -/
def Event.opensSink : Event → Bool
  | .g_open _ _ _ _ => true
  | _ => false

/-- Whether an effect goes to the capture writer or starts the profiler. -/
def Event.startsCapture : Event → Bool
  | .writer_new_from_fd _ _ => true
  | .writer_flush => true
  | .record_async => true
  | _ => false

/-- The trace holds no opening of the capture file, nothing that reaches the
capture writer and no start of the profiler. -/
def NoSinkActivity (trace : List Event) : Prop :=
  ∀ e ∈ trace, e.opensSink = false ∧ e.startsCapture = false

/-- How a run of `main` ends. -/
inductive Outcome where
  | exited (code : Int)
  | aborted
  | blocked
deriving DecidableEq, Repr

/-- The function `g_main_loop_run`: dispatch callbacks until one of them quits
the loop. Returns the callbacks not yet dispatched; `blocked` when the callbacks run out
with the loop still running, `aborted` when a callback aborts. -/
def g_main_loop_run : List Callback → Cli → Except Outcome (List Callback × Cli)
  | [], _ => .error .blocked
  | cb :: rest, st =>
    match dispatch cb st with
    | none => .error .aborted
    | some st => if st.running then g_main_loop_run rest st else .ok (rest, st)

/-- The drain loop `while (g_main_context_pending (ctx)) g_main_context_iteration
(ctx, FALSE)` over the callbacks that are pending then. -/
def drain_pending : List Callback → Cli → Option Cli
  | [], st => some st
  | cb :: rest, st =>
    match dispatch cb st with
    | none => none
    | some st => drain_pending rest st

/-! ## The command-line driver: `main` -/

/-- A node of the file system: a regular file with its bytes, or a directory
(which `open` refuses to open for writing). -/
inductive Node where
  | regular (content : List Nat)
  | directory
deriving DecidableEq, Repr

/-- The file system: what is at a path, if anything. -/
abbrev FileSystem := String → Option Node

/-- Put a node at a path. -/
def FileSystem.put (fs : FileSystem) (path : String) (node : Node) : FileSystem :=
  fun p => if p = path then some node else fs p

/-- The function `g_file_test (filename, G_FILE_TEST_EXISTS)`. -/
def g_file_test_exists (fs : FileSystem) (filename : String) : Bool :=
  (fs filename).isSome

/-- The function `g_open (filename, flags, mode)`, after POSIX `open(2)`.
`refused` holds the paths the system turns down for reasons of its own: a
missing or unsearchable directory on the way, missing permissions, a read-only
file system, no descriptor left. Of the others, a path that exists is refused
under `O_CREAT | O_EXCL`, a directory is refused for writing, a regular file is
emptied only under `O_TRUNC`; a path that does not exist is created empty under
`O_CREAT`. Returns the descriptor, `-1` on failure, and the file system
afterwards; a failed open leaves the file system as it was. -/
def g_open (refused : String → Bool) (fs : FileSystem) (filename : String)
    (flags : List OpenFlag) : Int × FileSystem :=
  if refused filename then (-1, fs)
  else
    match fs filename with
    | some node =>
      if OpenFlag.O_CREAT ∈ flags ∧ OpenFlag.O_EXCL ∈ flags then (-1, fs)
      else
        match node with
        | .directory => (-1, fs)
        | .regular _ =>
          if OpenFlag.O_TRUNC ∈ flags then (3, fs.put filename (.regular [])) else (3, fs)
    | none =>
      if OpenFlag.O_CREAT ∈ flags then (3, fs.put filename (.regular [])) else (-1, fs)

/-- Modelled from the spec: the capture writer, with
`sysprof_capture_writer_new_from_fd`, is not among the sources. The spec has a
sink that is opened with override truncate or recreate its target; `main` opens
the target without `O_TRUNC` and removes nothing, so the emptying is the
writer's: creating the writer on a descriptor empties the regular file the
descriptor is open on. `target` is the path `fd` was opened on; with the
invalid descriptor `-1`, or a target that is no regular file, nothing is
changed. The bytes the writer appends afterwards are not followed. -/
def sysprof_capture_writer_new_from_fd (fs : FileSystem) (target : String) (fd : Int) :
    FileSystem :=
  if fd = -1 then fs
  else
    match fs target with
    | some (.regular _) => fs.put target (.regular [])
    | _ => fs

/-- The function `sysprof_spawnable_new`. -/
def sysprof_spawnable_new : SysprofSpawnable :=
  { cwd := none, argv := [], environ := [] }

/-- The function `sysprof_spawnable_set_cwd`. -/
def sysprof_spawnable_set_cwd (spawnable : SysprofSpawnable) (cwd : String) :
    SysprofSpawnable :=
  { spawnable with cwd := some cwd }

/-- The function `sysprof_spawnable_append_args`. -/
def sysprof_spawnable_append_args (spawnable : SysprofSpawnable) (args : List String) :
    SysprofSpawnable :=
  { spawnable with argv := spawnable.argv ++ args }

/-- The function `sysprof_spawnable_set_environ`. -/
def sysprof_spawnable_set_environ (spawnable : SysprofSpawnable)
    (environ : List (String × String)) : SysprofSpawnable :=
  { spawnable with environ := environ }

/-- Modelled from the spec: `sysprof_spawnable_setenv` is not part of the
sources at hand. The spec layers each pair on top of the environment: the
variable gets the new value, whatever it held before, and no other variable
changes. -/
def sysprof_spawnable_setenv (spawnable : SysprofSpawnable) (key value : String) :
    SysprofSpawnable :=
  { spawnable with
    environ := spawnable.environ.filter (fun kv => kv.1 ≠ key) ++ [(key, value)] }

/-- The value of a variable in the environment of the spawnable. -/
def SysprofSpawnable.getenv (spawnable : SysprofSpawnable) (key : String) : Option String :=
  (spawnable.environ.find? (fun kv => kv.1 = key)).map (fun kv => kv.2)

/-- The function `strchr (s, c)` on the characters of `s`: the offset of the
first `c`, `none` for `NULL`. -/
def strchr_from : List Char → Char → Option Nat
  | [], _ => none
  | x :: xs, c => if x = c then some 0 else (strchr_from xs c).map (fun n => n + 1)

/-- The function `strchr (s, c)` on a string. -/
def strchr (s : String) (c : Char) : Option Nat := strchr_from s.data c

/-- The function `g_strndup (s, n)`. -/
def g_strndup (s : String) (n : Nat) : String := ⟨s.data.take n⟩

/-- The C string that starts `n` characters into `s` (the pointer `s + n`). -/
def str_offset (s : String) (n : Nat) : String := ⟨s.data.drop n⟩

/-- The body of the loop over `envs` in `main`, for one entry. -/
def apply_env_entry (spawnable : SysprofSpawnable) (entry : String) : SysprofSpawnable :=
  match strchr entry '=' with
  | none => sysprof_spawnable_setenv spawnable entry ""
  | some eq =>
    let key := g_strndup entry eq
    sysprof_spawnable_setenv spawnable key (str_offset entry (eq + 1))

/-- The loop `for (guint i = ...; envs[i]; i++)` of `main` over the
`NULL`-terminated vector `envs`. -/
def apply_envs : List String → SysprofSpawnable → SysprofSpawnable
  | [], spawnable => spawnable
  | entry :: rest, spawnable => apply_envs rest (apply_env_entry spawnable entry)

/-- The name an entry of `envs` stands for: what `main` passes to
`sysprof_spawnable_setenv` as the key. -/
def env_entry_name (entry : String) : String :=
  match strchr entry '=' with
  | none => entry
  | some eq => g_strndup entry eq

/-- The value an entry of `envs` stands for: what `main` passes to
`sysprof_spawnable_setenv` as the value. -/
def env_entry_value (entry : String) : String :=
  match strchr entry '=' with
  | none => ""
  | some eq => str_offset entry (eq + 1)

/-- What `g_option_context_parse` leaves behind on success: the arguments it
did not consume (with `argv[0]`), and the variables of `main_entries`. -/
structure Options where
  argv : List String
  envs : Option (List String)
  force : Bool
  version : Bool

/-- The surroundings of one run of `main`. -/
structure Host where
  /-- The parser `g_option_context_parse` with `main_entries`. -/
  parse : List String → Except GError Options
  /-- The macro `PACKAGE_VERSION`. -/
  package_version : String
  /-- The value of `sysprof_getpagesize ()`. -/
  pagesize : Nat
  /-- The file system when `main` starts: the one `g_file_test` sees, and the
  one `g_open` sees when `--force` skips the test. -/
  fs : FileSystem
  /-- What other processes do to the file system between `g_file_test` and
  `g_open`. -/
  interfere : FileSystem → FileSystem
  /-- The paths `open(2)` turns down for reasons of its own (a missing or
  unsearchable directory, permissions, a read-only file system). -/
  open_refused : String → Bool
  /-- The value of `g_get_environ ()`. -/
  environ : List (String × String)
  /-- The value of `g_get_current_dir ()`. -/
  cwd : String
  /-- The callbacks the main context dispatches during `g_main_loop_run`. -/
  callbacks : List Callback
  /-- The callbacks pending when the drain loop runs. -/
  pending : List Callback

/-- The result of a run of `main`: how it ended, the final state of the
callbacks (with the trace) and the file system as the open of the target and
the creation of the capture writer left it. The bytes of the new capture, which
the writer appends through its descriptor, are not followed here. -/
structure Run where
  outcome : Outcome
  st : Cli
  fs : FileSystem

/-- The search for `"--"` at the start of `main`: given `argv[i ..]`, the index
in `argv` of the first `"--"`; `main` starts it at index 1. -/
def find_separator : List String → Nat → Option Nat
  | [], _ => none
  | arg :: rest, i => if arg = "--" then some i else find_separator rest (i + 1)

/-- The file `main` captures to: `argv[1]` when `argc == 2` after option
parsing, `"capture.syscap"` otherwise. -/
def capture_filename (argv : List String) : String :=
  if argv.length = 2 then argv.getD 1 "capture.syscap" else "capture.syscap"

/-- The flags `main` opens the capture file with:
`O_CREAT | O_RDWR | O_CLOEXEC`, and `O_EXCL` on top unless `force` is set. -/
def open_flags (force : Bool) : List OpenFlag :=
  let flags := [OpenFlag.O_CREAT, OpenFlag.O_RDWR, OpenFlag.O_CLOEXEC]
  if !force then flags ++ [OpenFlag.O_EXCL] else flags

/-- The block of `main` that sets up the spawnable and its environment. -/
def setup_spawnable (cwd : String) (current_env : List (String × String))
    (child_argv : List String) (envs : Option (List String)) : SysprofSpawnable :=
  let spawnable := sysprof_spawnable_new
  let spawnable := sysprof_spawnable_set_cwd spawnable cwd
  let spawnable := sysprof_spawnable_append_args spawnable child_argv
  let spawnable := sysprof_spawnable_set_environ spawnable current_env
  match envs with
  | some envs => apply_envs envs spawnable
  | none => spawnable

/-- The macro `DEFAULT_BUFFER_SIZE`. -/
def DEFAULT_BUFFER_SIZE : Nat := 1024 * 1024 * 8

/-- The state of the process when `main` starts. -/
def Cli.initial : Cli :=
  { count := 0, active_recording := none, running := false, trace := [] }

/-- The end of `main`, from `g_main_loop_run` to the final `return`; `fs` is the
file system as the start of `main` left it. -/
def main_loop_and_shutdown (host : Host) (filename : String) (fs : FileSystem) (st : Cli) :
    Run :=
  let st := st.emit .main_loop_run
  match g_main_loop_run host.callbacks { st with running := true } with
  | .error outcome => { outcome := outcome, st := st, fs := fs }
  | .ok (_, st) =>
    let st := st.g_printerr ("Saving capture to " ++ filename ++ "... ")
    let st := st.emit .writer_flush
    match drain_pending host.pending st with
    | none => { outcome := .aborted, st := st, fs := fs }
    | some st =>
      let st := st.emit .writer_flush
      let st := st.g_printerr "done!\n"
      { outcome := .exited EXIT_SUCCESS, st := st, fs := fs }

/-- The function `main`; its last part is `main_loop_and_shutdown`. -/
def main (argv : List String) (host : Host) : Run :=
  let st := Cli.initial
  let n_buffer_pages := DEFAULT_BUFFER_SIZE / host.pagesize
  match find_separator (argv.drop 1) 1 with
  | none =>
    let st := st.g_printerr "No child command passed"
    { outcome := .exited EXIT_FAILURE, st := st, fs := host.fs }
  | some i =>
    let child_argv := argv.drop (i + 1)
    let argv := argv.take i
    match host.parse argv with
    | .error error =>
      let st := st.g_printerr (error.message ++ "\n")
      { outcome := .exited EXIT_FAILURE, st := st, fs := host.fs }
    | .ok opts =>
      let argv := opts.argv
      let argc := argv.length
      if opts.version then
        let st := st.g_printerr (host.package_version ++ "\n")
        { outcome := .exited EXIT_SUCCESS, st := st, fs := host.fs }
      else if argc > 2 then
        let st := st.g_printerr "Too many arguments were passed to muprof:"
        let st := (argv.drop 2).foldl (fun st arg => st.g_printerr (" " ++ arg)) st
        let st := st.g_printerr "\n"
        { outcome := .exited EXIT_FAILURE, st := st, fs := host.fs }
      else
        let filename := capture_filename argv
        let flags := open_flags opts.force
        let st := if !opts.force then st.emit (.file_test filename) else st
        if !opts.force && g_file_test_exists host.fs filename then
          let st := st.g_printerr (filename ++ " exists. Use --force to overwrite\n")
          { outcome := .exited EXIT_FAILURE, st := st, fs := host.fs }
        else
          let fs := if !opts.force then host.interfere host.fs else host.fs
          let (fd, fs) := g_open host.open_refused fs filename flags
          let st := st.emit (.g_open filename flags 0o640 fd)
          if fd = -1 then
            let st := st.g_printerr ("Failed to open " ++ filename ++ "\n")
            { outcome := .exited EXIT_FAILURE, st := st, fs := fs }
          else
            let fs := sysprof_capture_writer_new_from_fd fs filename fd
            let st := st.emit (.writer_new_from_fd fd (n_buffer_pages * host.pagesize))
            let spawnable := setup_spawnable host.cwd host.environ child_argv opts.envs
            let st := st.emit (.set_spawnable spawnable)
            let st := st.emit .record_async
            let st := st.emit (.unix_signal_add .SIGINT)
            let st := st.emit (.unix_signal_add .SIGTERM)
            let st := st.g_printerr "Recording, press ^C to exit\n"
            main_loop_and_shutdown host filename fs st

/-- The run of `main` passes its start-up: the command line has a `"--"`, the
options parse, no version was asked for, at most one positional argument is
left, the target does not exist unless `--force` was given, and `g_open`
returns a descriptor. From there on `main` starts the profiler and runs the
main loop. -/
def StartsRecording (argv : List String) (host : Host) : Prop :=
  ∃ i opts, find_separator (argv.drop 1) 1 = some i ∧
    host.parse (argv.take i) = .ok opts ∧
    opts.version = false ∧
    opts.argv.length ≤ 2 ∧
    (opts.force = true ∨ g_file_test_exists host.fs (capture_filename opts.argv) = false) ∧
    (g_open host.open_refused (if !opts.force then host.interfere host.fs else host.fs)
      (capture_filename opts.argv) (open_flags opts.force)).1 ≠ -1

/-! ## Policy acquisition -/

/-- A `GDBusConnection` object, known by its identity. -/
structure GDBusConnection where
  id : Nat
deriving DecidableEq, Repr

/-- The function `_sysprof_instruments_acquire_policy`. `bus_get` stands for
`dex_await_object (dex_bus_get (G_BUS_TYPE_SYSTEM), &error)`: run on the state,
it yields the connection, or the error the connect failed with (the pointer is
`NULL` then). -/
def _sysprof_instruments_acquire_policy {σ : Type}
    (bus_get : σ → Except GError GDBusConnection × σ)
    (instruments : Option (Array (SysprofInstrument σ)))
    (recording : GPointer SysprofRecording) (w : World σ) : Option DexFuture × World σ :=
  match instruments with
  | none => (none, w)
  | some _ =>
    if !SYSPROF_IS_RECORDING recording then (none, w) else
    match bus_get w.ext with
    | (.error error, s) => (some (dex_future_new_for_error error), { w with ext := s })
    | (.ok _connection, s) => (some (dex_future_new_for_boolean true), { w with ext := s })

/-! ## Vocabulary for the callbacks -/

/-- Dispatch the callbacks of the list one after the other; `none` as soon as
one of them aborts the process. -/
def dispatch_all : List Callback → Cli → Option Cli
  | [], st => some st
  | cb :: rest, st =>
    match dispatch cb st with
    | none => none
    | some st => dispatch_all rest st

/-- Whether a callback is the delivery of a signal. -/
def Callback.isSignal : Callback → Bool
  | .signal _ => true
  | _ => false

/-- Whether a callback is the end of `sysprof_profiler_record_async`, the one
that stores the active recording. -/
def Callback.isRecordFinished : Callback → Bool
  | .record_finished _ _ => true
  | _ => false

/-- The recordings (`none` is `NULL`) that `sysprof_recording_stop_async` was
called on, in the order of the calls. -/
def stop_requests : List Event → List (Option SysprofRecording)
  | [] => []
  | .stop_async recording :: rest => recording :: stop_requests rest
  | _ :: rest => stop_requests rest

/-- The line `diagnostics_items_changed_cb` prints for an entry of the model. -/
def diagnostic_report (d : SysprofDiagnostic) : Event :=
  .printerr (d.domain ++ ": " ++ d.message ++ "\n")

/-! ## WPEBufferAndroid: the fences (`WPEBufferAndroid.cpp`) -/

/-- Modelled from the spec: the class `UnixFileDescriptor`
(`wtf/unix/UnixFileDescriptor.h`) is not part of the sources at hand, and the
spec is silent about it. The model follows what the documentation of the fence
accessors in `WPEBufferAndroid.cpp` says of the descriptor they hold: it is
owned, it reads `-1` when none is set, and the caller of `take` becomes its
owner. An owner that lets go of a descriptor closes it. -/
structure UnixFileDescriptor where
  m_value : Int
deriving DecidableEq, Repr

/-- Modelled from the spec: the default constructor of `UnixFileDescriptor`,
no descriptor. -/
def UnixFileDescriptor.empty : UnixFileDescriptor := { m_value := -1 }

/-- Modelled from the spec: the constructor
`UnixFileDescriptor { fd, UnixFileDescriptor::Adopt }`, which takes the
descriptor over as it is. -/
def UnixFileDescriptor.adopt (fd : Int) : UnixFileDescriptor := { m_value := fd }

/-- Modelled from the spec: the accessor `value ()` of `UnixFileDescriptor`. -/
def UnixFileDescriptor.value (self : UnixFileDescriptor) : Int := self.m_value

/-- Modelled from the spec: the member `release ()` of `UnixFileDescriptor`,
which hands the descriptor to the caller without closing it and leaves `-1`
behind. -/
def UnixFileDescriptor.release (self : UnixFileDescriptor) : Int × UnixFileDescriptor :=
  (self.m_value, { m_value := -1 })

/-- Modelled from the spec: move assignment to a `UnixFileDescriptor`. The
descriptor held so far is closed when there is one, and the one of `other` is
taken over. `closed` lists the descriptors closed so far. -/
def UnixFileDescriptor.assign (self other : UnixFileDescriptor) (closed : List Int) :
    UnixFileDescriptor × List Int :=
  (other, if self.m_value ≥ 0 then closed ++ [self.m_value] else closed)

/-- The structure `_WPEBufferAndroidPrivate`; the hardware buffer and the EGL
image are handles. -/
structure WPEBufferAndroidPrivate where
  ahb : Nat
  eglImage : Nat
  renderingFence : UnixFileDescriptor
  releaseFence : UnixFileDescriptor
deriving DecidableEq, Repr

/-- A `WPEBufferAndroid` object. -/
structure WPEBufferAndroid where
  priv : WPEBufferAndroidPrivate
deriving DecidableEq, Repr

/-- The macro `WPE_IS_BUFFER_ANDROID (p)`. -/
def WPE_IS_BUFFER_ANDROID : GPointer WPEBufferAndroid → Bool
  | .object _ => true
  | _ => false

/-- The constant `EGL_NO_IMAGE`. -/
def EGL_NO_IMAGE : Nat := 0

/-- A buffer as `wpe_buffer_android_new_take` returns it: the private data
zero-initialised with default-constructed fences, `wpe_buffer_android_init`
run, and the hardware buffer stored. -/
def wpe_buffer_android_new_take (ahb : Nat) : WPEBufferAndroid :=
  { priv :=
    { ahb := ahb, eglImage := EGL_NO_IMAGE, renderingFence := UnixFileDescriptor.empty,
      releaseFence := UnixFileDescriptor.empty } }

/-- The function `wpe_buffer_android_set_rendering_fence`; returns the buffer
after the call and the descriptors closed so far. -/
def wpe_buffer_android_set_rendering_fence (buffer : GPointer WPEBufferAndroid) (fd : Int)
    (closed : List Int) : GPointer WPEBufferAndroid × List Int :=
  match buffer with
  | .object b =>
    if b.priv.renderingFence.value = fd then (buffer, closed)
    else
      let (fence, closed) :=
        b.priv.renderingFence.assign (UnixFileDescriptor.adopt fd) closed
      (.object { b with priv := { b.priv with renderingFence := fence } }, closed)
  | _ => (buffer, closed)

/-- The function `wpe_buffer_android_get_rendering_fence`. -/
def wpe_buffer_android_get_rendering_fence (buffer : GPointer WPEBufferAndroid) : Int :=
  match buffer with
  | .object b => b.priv.renderingFence.value
  | _ => -1

/-- The function `wpe_buffer_android_take_rendering_fence`; returns the
descriptor and the buffer after the call. -/
def wpe_buffer_android_take_rendering_fence (buffer : GPointer WPEBufferAndroid) :
    Int × GPointer WPEBufferAndroid :=
  match buffer with
  | .object b =>
    let (fd, fence) := b.priv.renderingFence.release
    (fd, .object { b with priv := { b.priv with renderingFence := fence } })
  | _ => (-1, buffer)

/-- The function `wpe_buffer_android_set_release_fenc` (the name is the one in
the source); returns the buffer after the call and the descriptors closed so
far. -/
def wpe_buffer_android_set_release_fenc (buffer : GPointer WPEBufferAndroid) (fd : Int)
    (closed : List Int) : GPointer WPEBufferAndroid × List Int :=
  match buffer with
  | .object b =>
    if b.priv.releaseFence.value = fd then (buffer, closed)
    else
      let (fence, closed) :=
        b.priv.releaseFence.assign (UnixFileDescriptor.adopt fd) closed
      (.object { b with priv := { b.priv with releaseFence := fence } }, closed)
  | _ => (buffer, closed)

/-- The function `wpe_buffer_android_get_release_fence`. -/
def wpe_buffer_android_get_release_fence (buffer : GPointer WPEBufferAndroid) : Int :=
  match buffer with
  | .object b => b.priv.releaseFence.value
  | _ => -1

/-- The function `wpe_buffer_android_take_release_fence`; returns the
descriptor and the buffer after the call. -/
def wpe_buffer_android_take_release_fence (buffer : GPointer WPEBufferAndroid) :
    Int × GPointer WPEBufferAndroid :=
  match buffer with
  | .object b =>
    let (fd, fence) := b.priv.releaseFence.release
    (fd, .object { b with priv := { b.priv with releaseFence := fence } })
  | _ => (-1, buffer)

/-! ## IconLoadingClient (`WebKitIconLoadingClient.cpp`) -/

/-- A `WebKit::CallbackID`, an identifier. -/
abbrev CallbackID := Nat

/-- A `WebCore::LinkIcon`, as far as the client looks at it: its URL. -/
structure LinkIcon where
  url : String
deriving DecidableEq, Repr

/-- What the client does to the outside: the log lines, the calls into the web
view, and the call of a completion handler (known by a number) with a set of
identifiers. -/
inductive IconEvent where
  | log (text : String)
  | webkitWebViewGetLoadDecisionForIcons (webView : Nat) (icons : List (CallbackID × LinkIcon))
      (completionHandler : Nat)
  | webkitWebViewSetIcon (webView : Nat) (icon : LinkIcon) (iconData : Nat)
  | webkitWebViewUpdatePageIcons (webView : Nat)
  | completionHandler (handler : Nat) (loadIdentifiers : Finset CallbackID)
deriving DecidableEq

/-- The class `IconLoadingClient`: its two members, and the trace of what it
did so far. -/
structure IconLoadingClient where
  m_pendingIcons : Finset CallbackID
  m_webView : Nat
  trace : List IconEvent
deriving DecidableEq

/-- Append one effect to the trace. -/
def IconLoadingClient.emit (self : IconLoadingClient) (e : IconEvent) : IconLoadingClient :=
  { self with trace := self.trace ++ [e] }

/-- The member function `finishedLoadingIcons`. -/
def IconLoadingClient.finishedLoadingIcons (self : IconLoadingClient) : IconLoadingClient :=
  let self := self.emit (.log "WKILC::finishedLoadingIcons!")
  self.emit (.webkitWebViewUpdatePageIcons self.m_webView)

/-- The member function `getLoadDecisionForIcons`: it clears the pending set
and hands the decision to the web view, together with the callback
`loadDecisionCallback`, which holds the completion handler. -/
def IconLoadingClient.getLoadDecisionForIcons (self : IconLoadingClient)
    (icons : List (CallbackID × LinkIcon)) (completionHandler : Nat) : IconLoadingClient :=
  let self := { self with m_pendingIcons := ∅ }
  self.emit (.webkitWebViewGetLoadDecisionForIcons self.m_webView icons completionHandler)

/-- The lambda that `getLoadDecisionForIcons` passes to the web view, called
with the decided identifiers; `weakWebView` tells whether the weak pointer to
the web view still holds it. -/
def IconLoadingClient.loadDecisionCallback (self : IconLoadingClient) (completionHandler : Nat)
    (weakWebView : Bool) (loadIdentifiers : Finset CallbackID) : IconLoadingClient :=
  if !weakWebView then
    self.emit (.log "WKILC: weakWebView disappeared!")
  else
    let self :=
      if loadIdentifiers = ∅ then self.finishedLoadingIcons
      else { self with m_pendingIcons := loadIdentifiers }
    self.emit (.completionHandler completionHandler loadIdentifiers)

/-- The member function `iconLoaded`. -/
def IconLoadingClient.iconLoaded (self : IconLoadingClient) (loadIdentifier : CallbackID)
    (icon : LinkIcon) (iconData : Nat) : IconLoadingClient :=
  let self := self.emit (.log ("WKILC::iconLoaded: url=" ++ icon.url))
  let self := self.emit (.webkitWebViewSetIcon self.m_webView icon iconData)
  let self := { self with m_pendingIcons := self.m_pendingIcons.erase loadIdentifier }
  if self.m_pendingIcons = ∅ then self.finishedLoadingIcons else self

/-- A sequence of calls of `iconLoaded`, one per entry. -/
def IconLoadingClient.iconsLoaded (self : IconLoadingClient) :
    List (CallbackID × LinkIcon × Nat) → IconLoadingClient
  | [] => self
  | (loadIdentifier, icon, iconData) :: rest =>
    (self.iconLoaded loadIdentifier icon iconData).iconsLoaded rest

/-- How often `finishedLoadingIcons` ran: the number of
`webkitWebViewUpdatePageIcons` calls in a trace. -/
def finished_count : List IconEvent → Nat
  | [] => 0
  | .webkitWebViewUpdatePageIcons _ :: rest => finished_count rest + 1
  | _ :: rest => finished_count rest

/-- The completion handler calls of a trace: handler and identifiers. -/
def completion_calls : List IconEvent → List (Nat × Finset CallbackID)
  | [] => []
  | .completionHandler handler loadIdentifiers :: rest =>
    (handler, loadIdentifiers) :: completion_calls rest
  | _ :: rest => completion_calls rest

/-- A load decision as a whole: `getLoadDecisionForIcons`, and then the
callback it registered, called with the decided identifiers. -/
def IconLoadingClient.loadDecision (self : IconLoadingClient)
    (icons : List (CallbackID × LinkIcon)) (completionHandler : Nat) (weakWebView : Bool)
    (loadIdentifiers : Finset CallbackID) : IconLoadingClient :=
  (self.getLoadDecisionForIcons icons completionHandler).loadDecisionCallback
    completionHandler weakWebView loadIdentifiers

/-! ## Sample inputs -/

/-- The error the sample instrument `A` fails with. -/
def sample_error : GError := { domain := 1, code := 13, message := "no access" }

/-- The class of sample instrument `A`: every phase it overrides fails. -/
def failing_class : SysprofInstrumentClass Nat :=
  { sysprof_instrument_class_init (zeroed_class Nat) with
    prepare := some (fun _ _ s => some (dex_future_new_for_error sample_error, s))
    record := some (fun _ _ _ s => some (dex_future_new_for_error sample_error, s))
    augment := some (fun _ _ s => some (dex_future_new_for_error sample_error, s))
    process_started := some (fun _ _ _ _ s => some (dex_future_new_for_error sample_error, s)) }

/-- The class of sample instrument `B`: every phase succeeds and counts its
work in the state. -/
def counting_class : SysprofInstrumentClass Nat :=
  { sysprof_instrument_class_init (zeroed_class Nat) with
    prepare := some (fun _ _ s => some (dex_future_new_for_boolean true, s + 1))
    record := some (fun _ _ _ s => some (DexFuture.pending 0, s + 1))
    augment := some (fun _ _ s => some (dex_future_new_for_boolean true, s + 1))
    process_started := some (fun _ _ _ _ s => some (dex_future_new_for_boolean true, s + 1)) }

/-- The collection `[A, B]`. -/
def sample_instruments : Array (SysprofInstrument Nat) :=
  #[{ id := 1, klass := failing_class }, { id := 2, klass := counting_class }]

/-- An instrument of a class that overrides nothing. -/
def plain_instrument : SysprofInstrument Nat :=
  { id := 3, klass := sysprof_instrument_class_init (zeroed_class Nat) }

/-- A valid recording. -/
def sample_recording : GPointer SysprofRecording := .object { id := 7 }

/-- A valid cancellable. -/
def sample_cancellable : GPointer GCancellable := .object { id := 9 }

/-- The world before anything ran. -/
def sample_world : World Nat := { calls := [], ext := 0 }

/-- The callbacks' state with the main loop running and a recording active,
before any signal. -/
def sample_cli : Cli :=
  { count := 0, active_recording := some { id := 7 }, running := true, trace := [] }

/-- An error of a domain other than `G_SPAWN_EXIT_ERROR`. -/
def sample_session_error : GError := { domain := 5, code := 1, message := "boom" }

/-- A small stand-in for `g_option_context_parse` with the entries of `main`:
`-f`/`--force`, `--version`, `-e NAME=VALUE`/`--env NAME=VALUE`; anything else
that starts with a dash is an error, the rest stays in `argv`. -/
def sample_parse_args : List String → Options → Except GError Options
  | [], opts => .ok opts
  | arg :: rest, opts =>
    if arg = "-f" ∨ arg = "--force" then sample_parse_args rest { opts with force := true }
    else if arg = "--version" then sample_parse_args rest { opts with version := true }
    else if arg = "-e" ∨ arg = "--env" then
      match rest with
      | [] => .error { domain := 7, code := 0, message := "Missing argument for " ++ arg }
      | value :: rest =>
        sample_parse_args rest { opts with envs := some (opts.envs.getD [] ++ [value]) }
    else if arg.data.head? = some '-' then
      .error { domain := 7, code := 1, message := "Unknown option " ++ arg }
    else sample_parse_args rest { opts with argv := opts.argv ++ [arg] }

/-- The stand-in parser on a whole argument vector. -/
def sample_parse (argv : List String) : Except GError Options :=
  sample_parse_args (argv.drop 1)
    { argv := argv.take 1, envs := none, force := false, version := false }

/-- A file system that holds an earlier capture of three bytes. -/
def sample_fs : FileSystem :=
  FileSystem.put (fun _ => none) "capture.syscap" (.regular [1, 2, 3])

/-- A host with an empty file system and nothing to dispatch. -/
def sample_host : Host :=
  { parse := sample_parse
    package_version := "1.0"
    pagesize := 4096
    fs := fun _ => none
    interfere := id
    open_refused := fun _ => false
    environ := [("HOME", "/root")]
    cwd := "/"
    callbacks := []
    pending := [] }

/-- A host whose file system holds an earlier capture. -/
def sample_host_with_capture : Host :=
  { sample_host with fs := sample_fs }

/-- A host whose file system holds an earlier capture that the system does not
let the user open, for want of write permission, say. -/
def sample_host_with_refused_capture : Host :=
  { sample_host with fs := sample_fs, open_refused := fun path => path = "capture.syscap" }

/-- A host in which the target appears between the existence test and the
open. -/
def sample_host_with_race : Host :=
  { sample_host with interfere := fun _ => sample_fs }

/-- A host in which the recording starts and `wait()` then fails with a
genuine session error. -/
def sample_host_with_failed_wait : Host :=
  { sample_host with
    callbacks := [.record_finished (.ok { id := 7 }) [], .wait_finished (.error sample_session_error)] }

/-- The error a failing connect to the system bus reports. -/
def sample_bus_error : GError := { domain := 9, code := 2, message := "no system bus" }

/-- A system bus that cannot be reached; the attempt is counted in the state. -/
def failing_bus_get (s : Nat) : Except GError GDBusConnection × Nat :=
  (.error sample_bus_error, s + 1)

/-- A system bus that can be reached; the attempt is counted in the state. -/
def working_bus_get (s : Nat) : Except GError GDBusConnection × Nat :=
  (.ok { id := 4 }, s + 1)

/-- A diagnostics feed of three entries. -/
def sample_diagnostics : List SysprofDiagnostic :=
  [{ domain := "domainA", message := "ok" }, { domain := "perf", message := "no access" },
    { domain := "domainB", message := "late" }]

/-- A run in which the first signal arrives before the recording has started:
a signal, the start of the recording, two more signals. -/
def sample_early_signal : List Callback :=
  [.signal .SIGINT, .record_finished (.ok { id := 7 }) [], .signal .SIGINT, .signal .SIGTERM]

/-- A buffer whose rendering fence holds descriptor 7. -/
def sample_fenced_buffer : WPEBufferAndroid :=
  { priv :=
    { ahb := 1, eglImage := EGL_NO_IMAGE, renderingFence := UnixFileDescriptor.adopt 7,
      releaseFence := UnixFileDescriptor.empty } }

/-- A client of web view 1 that has done nothing yet. -/
def sample_icon_client : IconLoadingClient :=
  { m_pendingIcons := ∅, m_webView := 1, trace := [] }

/-- Two icons of a page. -/
def sample_icons : List (CallbackID × LinkIcon) :=
  [(1, { url := "https://example.org/a.png" }), (2, { url := "https://example.org/b.ico" })]

/-- The state at the end of `sample_early_signal`, dispatched from the start of
the process. -/
def sample_early_signal_end : Cli :=
  { count := 2
    active_recording := some { id := 7 }
    running := false
    trace :=
      [.printerr "\n", .printerr "Stopping profiler. Press twice more ^C to force exit.\n",
        .stop_async none, .signal_connect_items_changed, .wait_async { id := 7 },
        .printerr "\n", .main_loop_quit] }

/-- The identifiers the sample decision asks to load. -/
def sample_decided : Finset CallbackID := {1, 2}

/-- The loads that follow the sample decision, the second icon first. -/
def sample_loads : List (CallbackID × LinkIcon × Nat) :=
  [(2, { url := "https://example.org/b.ico" }, 0), (1, { url := "https://example.org/a.png" }, 0)]

/-! ## Theorems -/

/-! ### The instrument fan-outs -/

/-- A virtual method run through `World.call` leaves the log alone. -/
theorem World.call_calls {σ : Type} (w : World σ) (hook : σ → Option (DexFuture × σ))
    (f : DexFuture) (w2 : World σ) (h : w.call hook = some (f, w2)) : w2.calls = w.calls := by
  unfold World.call at h
  split at h
  · simp at h
  · simp only [Option.some.injEq, Prod.mk.injEq] at h
    rw [← h.2]

/-- A virtual method that returns makes `World.call` return. -/
theorem World.call_isSome {σ : Type} (w : World σ) (hook : σ → Option (DexFuture × σ))
    (h : (hook w.ext).isSome = true) : ∃ f w2, w.call hook = some (f, w2) := by
  unfold World.call
  cases hh : hook w.ext with
  | none => simp [hh] at h
  | some p => exact ⟨p.1, _, rfl⟩

/-- The loop from index `i` with enough fuel dispatches the rest of the
collection in order and appends one future per instrument. -/
theorem fan_out_loop_spec {σ : Type} (instruments : Array (SysprofInstrument σ))
    (op : SysprofInstrument σ → World σ → Option (DexFuture × World σ)) (call : Nat → Call)
    (hop : ∀ x ∈ instruments.toList, ∀ w, ∃ f w2, op x w = some (f, w2) ∧
      w2.calls = w.calls ++ [call x.id]) :
    ∀ (fuel i : Nat) (futures : Array DexFuture) (w : World σ),
      instruments.size - i ≤ fuel →
      ∃ fs w2, fan_out_loop instruments op fuel i futures w = some (fs, w2) ∧
        InOrder op (instruments.toList.drop i) w (fs.toList.drop futures.size) w2 ∧
        fs.toList.take futures.size = futures.toList ∧
        fs.size = futures.size + (instruments.size - i) ∧
        w2.calls = w.calls ++ (instruments.toList.drop i).map (fun x => call x.id) := by
  intro fuel
  induction fuel with
  | zero =>
    intro i futures w hfuel
    have hi : instruments.toList.length ≤ i := by
      have : instruments.toList.length = instruments.size := rfl
      omega
    refine ⟨futures, w, rfl, ?_, ?_, ?_, ?_⟩
    · rw [List.drop_of_length_le hi]
      have : futures.toList.drop futures.size = [] := List.drop_length _
      simp [InOrder, this]
    · exact List.take_length _
    · omega
    · rw [List.drop_of_length_le hi]; simp
  | succ fuel ih =>
    intro i futures w hfuel
    by_cases h : i < instruments.size
    · have hmem : instruments[i] ∈ instruments.toList := by
        rw [Array.getElem_eq_getElem_toList]; exact List.getElem_mem _
      obtain ⟨f, w1, hf, hcalls⟩ := hop _ hmem w
      obtain ⟨fs, w2, hloop, hin, htake, hsize, hlog⟩ :=
        ih (i + 1) (futures.push f) w1 (by omega)
      have hdrop : instruments.toList.drop i = instruments[i] :: instruments.toList.drop (i + 1) := by
        rw [Array.getElem_eq_getElem_toList]; exact List.drop_eq_getElem_cons h
      have hpush : (futures.push f).size = futures.size + 1 := Array.size_push _ _
      have hlen : fs.toList.length = fs.size := rfl
      have hflen : futures.toList.length = futures.size := rfl
      rw [hpush] at hin htake hsize
      rw [Array.push_toList] at htake
      have hlt : futures.size < fs.toList.length := by omega
      have hget : fs.toList[futures.size] = f := by
        have h1 : (fs.toList.take (futures.size + 1))[futures.size]? = some f := by
          rw [htake]; simp [hflen]
        rw [List.getElem?_take] at h1
        simp at h1
        rw [List.getElem?_eq_getElem hlt] at h1
        exact Option.some.inj h1
      refine ⟨fs, w2, ?_, ?_, ?_, ?_, ?_⟩
      · simp only [fan_out_loop, h, dite_true, hf]
        exact hloop
      · rw [hdrop, List.drop_eq_getElem_cons hlt, hget]
        exact ⟨f, _, w1, rfl, hf, hin⟩
      · have h2 : fs.toList.take futures.size =
            (fs.toList.take (futures.size + 1)).take futures.size := by
          rw [List.take_take]; simp
        rw [h2, htake]
        simp [hflen]
      · omega
      · rw [hlog, hcalls, hdrop]; simp
    · have hi : instruments.toList.length ≤ i := by
        have : instruments.toList.length = instruments.size := rfl
        omega
      refine ⟨futures, w, ?_, ?_, ?_, ?_, ?_⟩
      · simp [fan_out_loop, h]
      · rw [List.drop_of_length_le hi]
        have : futures.toList.drop futures.size = [] := List.drop_length _
        simp [InOrder, this]
      · exact List.take_length _
      · omega
      · rw [List.drop_of_length_le hi]; simp

/-- A whole run of the loop, as the fan-outs start it. -/
theorem fan_out_loop_run {σ : Type} (instruments : Array (SysprofInstrument σ))
    (op : SysprofInstrument σ → World σ → Option (DexFuture × World σ)) (call : Nat → Call)
    (hop : ∀ x ∈ instruments.toList, ∀ w, ∃ f w2, op x w = some (f, w2) ∧
      w2.calls = w.calls ++ [call x.id]) (w : World σ) :
    ∃ futures w2, fan_out_loop instruments op instruments.size 0 #[] w = some (futures, w2) ∧
      futures.size = instruments.size ∧
      InOrder op instruments.toList w futures.toList w2 ∧
      w2.calls = w.calls ++ instruments.toList.map (fun x => call x.id) := by
  obtain ⟨fs, w2, hloop, hin, _, hsize, hlog⟩ :=
    fan_out_loop_spec instruments op call hop instruments.size 0 #[] w (by omega)
  refine ⟨fs, w2, hloop, ?_, ?_, ?_⟩
  · simpa using hsize
  · simpa using hin
  · simpa using hlog

/-- With a valid recording, `_sysprof_instrument_prepare` returns and notes one
dispatch, provided the virtual method returns. -/
theorem instrument_prepare_returns {σ : Type} (x : SysprofInstrument σ)
    (recording : GPointer SysprofRecording) (hrec : SYSPROF_IS_RECORDING recording = true)
    (hook : ∀ hook, x.klass.prepare = some hook → ∀ s, (hook x.id recording s).isSome = true)
    (w : World σ) :
    ∃ f w2, _sysprof_instrument_prepare x recording w = some (f, w2) ∧
      w2.calls = w.calls ++ [Call.prepare x.id recording] := by
  simp only [_sysprof_instrument_prepare, g_assert, SYSPROF_IS_INSTRUMENT, hrec, if_true]
  cases hk : x.klass.prepare with
  | none => exact ⟨_, _, rfl, rfl⟩
  | some h =>
    obtain ⟨f, w2, hcall⟩ := World.call_isSome (w.note (.prepare x.id recording))
      (h x.id recording) (hook h hk _)
    exact ⟨f, w2, hcall, World.call_calls _ _ _ _ hcall⟩

/-- With a valid recording and a valid cancellable, `_sysprof_instrument_record`
returns and notes one dispatch, provided the virtual method returns. -/
theorem instrument_record_returns {σ : Type} (x : SysprofInstrument σ)
    (recording : GPointer SysprofRecording) (cancellable : GPointer GCancellable)
    (hrec : SYSPROF_IS_RECORDING recording = true)
    (hcan : G_IS_CANCELLABLE cancellable = true)
    (hook : ∀ hook, x.klass.record = some hook →
      ∀ s, (hook x.id recording cancellable s).isSome = true)
    (w : World σ) :
    ∃ f w2, _sysprof_instrument_record x recording cancellable w = some (f, w2) ∧
      w2.calls = w.calls ++ [Call.record x.id recording cancellable] := by
  simp only [_sysprof_instrument_record, g_assert, SYSPROF_IS_INSTRUMENT, hrec, hcan, if_true]
  cases hk : x.klass.record with
  | none => exact ⟨_, _, rfl, rfl⟩
  | some h =>
    obtain ⟨f, w2, hcall⟩ := World.call_isSome (w.note (.record x.id recording cancellable))
      (h x.id recording cancellable) (hook h hk _)
    exact ⟨f, w2, hcall, World.call_calls _ _ _ _ hcall⟩

/-- With a valid recording, `_sysprof_instrument_augment` returns and notes one
dispatch, provided the virtual method returns. -/
theorem instrument_augment_returns {σ : Type} (x : SysprofInstrument σ)
    (recording : GPointer SysprofRecording) (hrec : SYSPROF_IS_RECORDING recording = true)
    (hook : ∀ hook, x.klass.augment = some hook → ∀ s, (hook x.id recording s).isSome = true)
    (w : World σ) :
    ∃ f w2, _sysprof_instrument_augment x recording w = some (f, w2) ∧
      w2.calls = w.calls ++ [Call.augment x.id recording] := by
  simp only [_sysprof_instrument_augment, g_assert, SYSPROF_IS_INSTRUMENT, hrec, if_true]
  cases hk : x.klass.augment with
  | none => exact ⟨_, _, rfl, rfl⟩
  | some h =>
    obtain ⟨f, w2, hcall⟩ := World.call_isSome (w.note (.augment x.id recording))
      (h x.id recording) (hook h hk _)
    exact ⟨f, w2, hcall, World.call_calls _ _ _ _ hcall⟩

/-- With a valid recording, `_sysprof_instrument_process_started` returns and
notes one dispatch, provided the virtual method returns. -/
theorem instrument_process_started_returns {σ : Type} (x : SysprofInstrument σ)
    (recording : GPointer SysprofRecording) (pid : Int) (comm : Option String)
    (hrec : SYSPROF_IS_RECORDING recording = true)
    (hook : ∀ hook, x.klass.process_started = some hook →
      ∀ s, (hook x.id recording pid comm s).isSome = true)
    (w : World σ) :
    ∃ f w2, _sysprof_instrument_process_started x recording pid comm w = some (f, w2) ∧
      w2.calls = w.calls ++ [Call.process_started x.id recording pid comm] := by
  simp only [_sysprof_instrument_process_started, g_assert, SYSPROF_IS_INSTRUMENT, hrec,
    if_true]
  cases hk : x.klass.process_started with
  | none => exact ⟨_, _, rfl, rfl⟩
  | some h =>
    obtain ⟨f, w2, hcall⟩ :=
      World.call_isSome (w.note (.process_started x.id recording pid comm))
        (h x.id recording pid comm) (hook h hk _)
    exact ⟨f, w2, hcall, World.call_calls _ _ _ _ hcall⟩

/-- The prepare fan-out dispatches every instrument once, in order. -/
theorem prepare_fans_out {σ : Type}
    (instruments : Array (SysprofInstrument σ)) (recording : GPointer SysprofRecording)
    (cancellable : GPointer GCancellable) (pid : Int) (comm : Option String) (w : World σ)
    (hrec : SYSPROF_IS_RECORDING recording = true)
    (hooks : HooksReturn instruments recording cancellable pid comm) :
    FansOut (fun x => _sysprof_instrument_prepare x recording)
        (fun id => Call.prepare id recording) instruments w
        (_sysprof_instruments_prepare (some instruments) recording w) := by
  obtain ⟨futures, w2, hloop, hsize, hin, hlog⟩ := fan_out_loop_run instruments
    (fun x => _sysprof_instrument_prepare x recording) (fun id => Call.prepare id recording)
    (fun x hx w => instrument_prepare_returns x recording hrec (hooks x hx).1 w) w
  refine ⟨futures, w2, ?_, hsize, hin, hlog⟩
  simp only [_sysprof_instruments_prepare, hrec, hloop]
  rfl

/-- The record fan-out dispatches every instrument once, in order. -/
theorem record_fans_out {σ : Type}
    (instruments : Array (SysprofInstrument σ)) (recording : GPointer SysprofRecording)
    (cancellable : GPointer GCancellable) (pid : Int) (comm : Option String) (w : World σ)
    (hrec : SYSPROF_IS_RECORDING recording = true)
    (hcan : G_IS_CANCELLABLE cancellable = true)
    (hooks : HooksReturn instruments recording cancellable pid comm) :
    FansOut (fun x => _sysprof_instrument_record x recording cancellable)
        (fun id => Call.record id recording cancellable) instruments w
        (_sysprof_instruments_record (some instruments) recording cancellable w) := by
  obtain ⟨futures, w2, hloop, hsize, hin, hlog⟩ := fan_out_loop_run instruments
    (fun x => _sysprof_instrument_record x recording cancellable)
    (fun id => Call.record id recording cancellable)
    (fun x hx w =>
      instrument_record_returns x recording cancellable hrec hcan (hooks x hx).2.1 w) w
  refine ⟨futures, w2, ?_, hsize, hin, hlog⟩
  simp only [_sysprof_instruments_record, hrec, hcan, hloop, Bool.or_true]
  rfl

/-- The augment fan-out dispatches every instrument once, in order. -/
theorem augment_fans_out {σ : Type}
    (instruments : Array (SysprofInstrument σ)) (recording : GPointer SysprofRecording)
    (cancellable : GPointer GCancellable) (pid : Int) (comm : Option String) (w : World σ)
    (hrec : SYSPROF_IS_RECORDING recording = true)
    (hooks : HooksReturn instruments recording cancellable pid comm) :
    FansOut (fun x => _sysprof_instrument_augment x recording)
        (fun id => Call.augment id recording) instruments w
        (_sysprof_instruments_augment (some instruments) recording w) := by
  obtain ⟨futures, w2, hloop, hsize, hin, hlog⟩ := fan_out_loop_run instruments
    (fun x => _sysprof_instrument_augment x recording) (fun id => Call.augment id recording)
    (fun x hx w => instrument_augment_returns x recording hrec (hooks x hx).2.2.1 w) w
  refine ⟨futures, w2, ?_, hsize, hin, hlog⟩
  simp only [_sysprof_instruments_augment, hrec, hloop]
  rfl

/-- The process-started fan-out dispatches every instrument once, in order. -/
theorem process_started_fans_out {σ : Type}
    (instruments : Array (SysprofInstrument σ)) (recording : GPointer SysprofRecording)
    (cancellable : GPointer GCancellable) (pid : Int) (comm : Option String) (w : World σ)
    (hrec : SYSPROF_IS_RECORDING recording = true)
    (hooks : HooksReturn instruments recording cancellable pid comm) :
    FansOut (fun x => _sysprof_instrument_process_started x recording pid comm)
        (fun id => Call.process_started id recording pid comm) instruments w
        (_sysprof_instruments_process_started (some instruments) recording pid comm w) := by
  obtain ⟨futures, w2, hloop, hsize, hin, hlog⟩ := fan_out_loop_run instruments
    (fun x => _sysprof_instrument_process_started x recording pid comm)
    (fun id => Call.process_started id recording pid comm)
    (fun x hx w =>
      instrument_process_started_returns x recording pid comm hrec (hooks x hx).2.2.2 w) w
  refine ⟨futures, w2, ?_, hsize, hin, hlog⟩
  simp only [_sysprof_instruments_process_started, hrec, hloop]
  rfl

/-- C1: with a valid recording (and, for record, a valid cancellable, which the
assertion of the record wrapper asks for) and virtual methods that return, each
of the four fan-outs dispatches the
corresponding operation to every instrument of the collection exactly once and
in collection order, with the same arguments for all: the i-th future is the
one the i-th instrument returned, there are as many futures as instruments, and
the log grows by exactly one dispatch per instrument. Nothing depends on what
kind of future an earlier instrument returned, so a failed one does not stop
the loop. -/
theorem C1_fan_out_dispatches_every_instrument_in_order {σ : Type}
    (instruments : Array (SysprofInstrument σ)) (recording : GPointer SysprofRecording)
    (cancellable : GPointer GCancellable) (pid : Int) (comm : Option String) (w : World σ)
    (hrec : SYSPROF_IS_RECORDING recording = true)
    (hooks : HooksReturn instruments recording cancellable pid comm) :
    FansOut (fun x => _sysprof_instrument_prepare x recording)
        (fun id => Call.prepare id recording) instruments w
        (_sysprof_instruments_prepare (some instruments) recording w) ∧
    (G_IS_CANCELLABLE cancellable = true →
      FansOut (fun x => _sysprof_instrument_record x recording cancellable)
        (fun id => Call.record id recording cancellable) instruments w
        (_sysprof_instruments_record (some instruments) recording cancellable w)) ∧
    FansOut (fun x => _sysprof_instrument_augment x recording)
        (fun id => Call.augment id recording) instruments w
        (_sysprof_instruments_augment (some instruments) recording w) ∧
    FansOut (fun x => _sysprof_instrument_process_started x recording pid comm)
        (fun id => Call.process_started id recording pid comm) instruments w
        (_sysprof_instruments_process_started (some instruments) recording pid comm w) :=
  ⟨prepare_fans_out instruments recording cancellable pid comm w hrec hooks,
    fun hcan => record_fans_out instruments recording cancellable pid comm w hrec hcan hooks,
    augment_fans_out instruments recording cancellable pid comm w hrec hooks,
    process_started_fans_out instruments recording cancellable pid comm w hrec hooks⟩

/-- The virtual methods of the sample collection return. -/
theorem sample_hooks_return (recording : GPointer SysprofRecording)
    (cancellable : GPointer GCancellable) (pid : Int) (comm : Option String) :
    HooksReturn sample_instruments recording cancellable pid comm := by
  intro x hx
  simp only [sample_instruments, List.mem_cons, List.mem_singleton, List.not_mem_nil,
    or_false] at hx
  rcases hx with rfl | rfl
  · refine ⟨?_, ?_, ?_, ?_⟩ <;> intro hook hk s <;>
      simp only [failing_class, Option.some.injEq] at hk <;> subst hk <;> rfl
  · refine ⟨?_, ?_, ?_, ?_⟩ <;> intro hook hk s <;>
      simp only [counting_class, Option.some.injEq] at hk <;> subst hk <;> rfl

/-- C1 at the collection `[A, B]`, where the prepare of `A` fails and the one
of `B` succeeds: the prepare of `B` has run (the state counts it, the log holds
both dispatches in order). -/
theorem C1_fan_out_dispatches_every_instrument_in_order_witness :
    SYSPROF_IS_RECORDING sample_recording = true ∧
    HooksReturn sample_instruments sample_recording sample_cancellable 42 (some "target") ∧
    (FansOut (fun x => _sysprof_instrument_prepare x sample_recording)
        (fun id => Call.prepare id sample_recording) sample_instruments sample_world
        (_sysprof_instruments_prepare (some sample_instruments) sample_recording
          sample_world) ∧
      (G_IS_CANCELLABLE sample_cancellable = true →
        FansOut (fun x => _sysprof_instrument_record x sample_recording sample_cancellable)
          (fun id => Call.record id sample_recording sample_cancellable) sample_instruments
          sample_world
          (_sysprof_instruments_record (some sample_instruments) sample_recording
            sample_cancellable sample_world)) ∧
      FansOut (fun x => _sysprof_instrument_augment x sample_recording)
        (fun id => Call.augment id sample_recording) sample_instruments sample_world
        (_sysprof_instruments_augment (some sample_instruments) sample_recording
          sample_world) ∧
      FansOut (fun x => _sysprof_instrument_process_started x sample_recording 42
          (some "target"))
        (fun id => Call.process_started id sample_recording 42 (some "target"))
        sample_instruments sample_world
        (_sysprof_instruments_process_started (some sample_instruments) sample_recording 42
          (some "target") sample_world)) ∧
    _sysprof_instruments_prepare (some sample_instruments) sample_recording sample_world =
      some (some (DexFuture.allv [DexFuture.for_error sample_error, DexFuture.for_boolean true]),
        { calls := [Call.prepare 1 sample_recording, Call.prepare 2 sample_recording],
          ext := 1 }) ∧
    G_IS_CANCELLABLE sample_cancellable = true ∧
    _sysprof_instruments_record (some sample_instruments) sample_recording sample_cancellable
        sample_world =
      some (some (DexFuture.allv [DexFuture.for_error sample_error, DexFuture.pending 0]),
        { calls := [Call.record 1 sample_recording sample_cancellable,
            Call.record 2 sample_recording sample_cancellable],
          ext := 1 }) :=
  ⟨rfl, sample_hooks_return _ _ _ _,
    C1_fan_out_dispatches_every_instrument_in_order sample_instruments sample_recording
      sample_cancellable 42 (some "target") sample_world rfl (sample_hooks_return _ _ _ _),
    rfl, rfl, rfl⟩

/-- C2: for an empty collection, a valid recording and (for record) a token
the fan-out accepts (`NULL` or a cancellable), each of the four fan-outs returns the already-resolved
future `dex_future_new_for_boolean (TRUE)` and leaves the world as it was (no
dispatch in the log, no state change); the returned future is not a
`dex_future_allv` join. -/
theorem C2_empty_collection_resolves_at_once {σ : Type}
    (instruments : Array (SysprofInstrument σ)) (recording : GPointer SysprofRecording)
    (cancellable : GPointer GCancellable) (pid : Int) (comm : Option String) (w : World σ)
    (hempty : instruments.size = 0)
    (hrec : SYSPROF_IS_RECORDING recording = true) :
    _sysprof_instruments_prepare (some instruments) recording w =
      some (some (dex_future_new_for_boolean true), w) ∧
    ((cancellable.isNull || G_IS_CANCELLABLE cancellable) = true →
      _sysprof_instruments_record (some instruments) recording cancellable w =
        some (some (dex_future_new_for_boolean true), w)) ∧
    _sysprof_instruments_augment (some instruments) recording w =
      some (some (dex_future_new_for_boolean true), w) ∧
    _sysprof_instruments_process_started (some instruments) recording pid comm w =
      some (some (dex_future_new_for_boolean true), w) ∧
    ∀ futures n, dex_future_new_for_boolean true ≠ dex_future_allv futures n := by
  refine ⟨?_, ?_, ?_, ?_, ?_⟩
  · simp only [_sysprof_instruments_prepare, hrec, hempty, fan_out_loop]
    rfl
  · intro hcan
    simp only [_sysprof_instruments_record, hrec, hcan, hempty, fan_out_loop]
    rfl
  · simp only [_sysprof_instruments_augment, hrec, hempty, fan_out_loop]
    rfl
  · simp only [_sysprof_instruments_process_started, hrec, hempty, fan_out_loop]
    rfl
  · intro futures n h
    simp [dex_future_new_for_boolean, dex_future_allv] at h

/-- C2 at the empty collection with a `NULL` cancellable, and the value the
record fan-out returns there. -/
theorem C2_empty_collection_resolves_at_once_witness :
    (#[] : Array (SysprofInstrument Nat)).size = 0 ∧
    SYSPROF_IS_RECORDING sample_recording = true ∧
    (_sysprof_instruments_prepare (some #[]) sample_recording sample_world =
        some (some (dex_future_new_for_boolean true), sample_world) ∧
      (((GPointer.null : GPointer GCancellable).isNull || G_IS_CANCELLABLE GPointer.null) =
          true →
        _sysprof_instruments_record (some #[]) sample_recording GPointer.null sample_world =
          some (some (dex_future_new_for_boolean true), sample_world)) ∧
      _sysprof_instruments_augment (some #[]) sample_recording sample_world =
        some (some (dex_future_new_for_boolean true), sample_world) ∧
      _sysprof_instruments_process_started (some #[]) sample_recording 42 none sample_world =
        some (some (dex_future_new_for_boolean true), sample_world) ∧
      ∀ futures n, dex_future_new_for_boolean true ≠ dex_future_allv futures n) ∧
    _sysprof_instruments_record (some (#[] : Array (SysprofInstrument Nat))) sample_recording
        GPointer.null sample_world =
      some (some (DexFuture.for_boolean true), sample_world) :=
  ⟨rfl, rfl,
    C2_empty_collection_resolves_at_once #[] sample_recording GPointer.null 42 none
      sample_world rfl rfl,
    rfl⟩

/-- The all-complete join is in flight exactly while some member is. -/
theorem statusAll_pending_iff (env : Nat → FutureStatus) (fs : List DexFuture) :
    DexFuture.statusAll env fs = .pending ↔ ∃ f ∈ fs, f.status env = .pending := by
  induction fs with
  | nil => simp [DexFuture.statusAll]
  | cons f fs ih =>
    rw [DexFuture.statusAll]
    cases hf : DexFuture.status env f <;> cases hfs : DexFuture.statusAll env fs <;>
      simp_all

/-- The all-complete join resolves exactly when every member resolved. -/
theorem statusAll_resolved_iff (env : Nat → FutureStatus) (fs : List DexFuture) :
    DexFuture.statusAll env fs = .resolved ↔ ∀ f ∈ fs, f.status env = .resolved := by
  induction fs with
  | nil => simp [DexFuture.statusAll]
  | cons f fs ih =>
    rw [DexFuture.statusAll]
    cases hf : DexFuture.status env f <;> cases hfs : DexFuture.statusAll env fs <;>
      simp_all

/-- A rejection of the all-complete join carries the error of a rejected
member. -/
theorem statusAll_rejected (env : Nat → FutureStatus) (fs : List DexFuture) (e : GError)
    (h : DexFuture.statusAll env fs = .rejected e) : ∃ f ∈ fs, f.status env = .rejected e := by
  induction fs with
  | nil => simp [DexFuture.statusAll] at h
  | cons f fs ih =>
    rw [DexFuture.statusAll] at h
    cases hf : DexFuture.status env f <;> cases hfs : DexFuture.statusAll env fs <;>
      simp_all

/-- The model of `dex_future_allv` over a whole array is an all-complete join
of its members. -/
theorem allv_all_complete (env : Nat → FutureStatus) (futures : Array DexFuture) :
    AllCompleteJoin env (dex_future_allv futures futures.size) futures.toList := by
  have htake : futures.toList.take futures.size = futures.toList := List.take_length _
  have hst : (dex_future_allv futures futures.size).status env =
      DexFuture.statusAll env futures.toList := by
    simp only [dex_future_allv, htake, DexFuture.status]
  rw [AllCompleteJoin, hst]
  refine ⟨statusAll_pending_iff env _, statusAll_resolved_iff env _,
    fun e h => statusAll_rejected env _ e h, ?_⟩
  intro hsettled hrej
  cases h : DexFuture.statusAll env futures.toList with
  | pending =>
    obtain ⟨f, hf, hp⟩ := (statusAll_pending_iff env _).1 h
    exact absurd hp (hsettled f hf)
  | resolved =>
    obtain ⟨f, hf, hr⟩ := hrej
    rw [(statusAll_resolved_iff env _).1 h f hf] at hr
    simp [FutureStatus.isRejected] at hr
  | rejected e => exact ⟨e, rfl, statusAll_rejected env _ e h⟩

/-- A fan-out that dispatched a non-empty collection returns the all-complete
join of the futures of its instruments. -/
theorem joins_all_of_fans_out {σ : Type}
    (op : SysprofInstrument σ → World σ → Option (DexFuture × World σ)) (call : Nat → Call)
    (instruments : Array (SysprofInstrument σ)) (w : World σ)
    (result : Option (Option DexFuture × World σ)) (hne : 0 < instruments.size)
    (h : FansOut op call instruments w result) : JoinsAll op instruments w result := by
  obtain ⟨futures, w2, hres, hsize, hin, _⟩ := h
  refine ⟨futures.toList, w2, dex_future_allv futures futures.size, ?_, hsize, hin,
    fun env => allv_all_complete env futures⟩
  rw [hres, fan_out_join, if_neg (by omega)]

/-- C3: for a non-empty collection (valid recording, for record a valid
cancellable, virtual methods that return), each of the four fan-outs returns a future that is the
all-complete join of the futures of all its instruments: it is a success
exactly when every instrument's future is, it stays in flight as long as any of
them is, and when one of them failed it is, once all have settled, a failure
carrying the error of a failing instrument. -/
theorem C3_joined_result_is_all_complete_join {σ : Type}
    (instruments : Array (SysprofInstrument σ)) (recording : GPointer SysprofRecording)
    (cancellable : GPointer GCancellable) (pid : Int) (comm : Option String) (w : World σ)
    (hne : 0 < instruments.size)
    (hrec : SYSPROF_IS_RECORDING recording = true)
    (hooks : HooksReturn instruments recording cancellable pid comm) :
    JoinsAll (fun x => _sysprof_instrument_prepare x recording) instruments w
        (_sysprof_instruments_prepare (some instruments) recording w) ∧
    (G_IS_CANCELLABLE cancellable = true →
      JoinsAll (fun x => _sysprof_instrument_record x recording cancellable) instruments w
        (_sysprof_instruments_record (some instruments) recording cancellable w)) ∧
    JoinsAll (fun x => _sysprof_instrument_augment x recording) instruments w
        (_sysprof_instruments_augment (some instruments) recording w) ∧
    JoinsAll (fun x => _sysprof_instrument_process_started x recording pid comm) instruments w
        (_sysprof_instruments_process_started (some instruments) recording pid comm w) :=
  ⟨joins_all_of_fans_out _ _ _ _ _ hne
      (prepare_fans_out instruments recording cancellable pid comm w hrec hooks),
    fun hcan => joins_all_of_fans_out _ _ _ _ _ hne
      (record_fans_out instruments recording cancellable pid comm w hrec hcan hooks),
    joins_all_of_fans_out _ _ _ _ _ hne
      (augment_fans_out instruments recording cancellable pid comm w hrec hooks),
    joins_all_of_fans_out _ _ _ _ _ hne
      (process_started_fans_out instruments recording cancellable pid comm w hrec hooks)⟩

/-- C3 at the collection `[A, B]`: the record of `A` has failed and the one of
`B` is in flight (future 0); the joined future is in flight while future 0 is,
and is rejected with the error of `A` once future 0 has resolved. -/
theorem C3_joined_result_is_all_complete_join_witness :
    0 < sample_instruments.size ∧
    SYSPROF_IS_RECORDING sample_recording = true ∧
    HooksReturn sample_instruments sample_recording sample_cancellable 42 (some "target") ∧
    (JoinsAll (fun x => _sysprof_instrument_prepare x sample_recording) sample_instruments
        sample_world
        (_sysprof_instruments_prepare (some sample_instruments) sample_recording
          sample_world) ∧
      (G_IS_CANCELLABLE sample_cancellable = true →
        JoinsAll (fun x => _sysprof_instrument_record x sample_recording sample_cancellable)
          sample_instruments sample_world
          (_sysprof_instruments_record (some sample_instruments) sample_recording
            sample_cancellable sample_world)) ∧
      JoinsAll (fun x => _sysprof_instrument_augment x sample_recording) sample_instruments
        sample_world
        (_sysprof_instruments_augment (some sample_instruments) sample_recording
          sample_world) ∧
      JoinsAll (fun x => _sysprof_instrument_process_started x sample_recording 42
          (some "target")) sample_instruments sample_world
        (_sysprof_instruments_process_started (some sample_instruments) sample_recording 42
          (some "target") sample_world)) ∧
    G_IS_CANCELLABLE sample_cancellable = true ∧
    _sysprof_instruments_record (some sample_instruments) sample_recording sample_cancellable
        sample_world =
      some (some (DexFuture.allv [DexFuture.for_error sample_error, DexFuture.pending 0]),
        { calls := [Call.record 1 sample_recording sample_cancellable,
            Call.record 2 sample_recording sample_cancellable],
          ext := 1 }) ∧
    (DexFuture.allv [DexFuture.for_error sample_error, DexFuture.pending 0]).status
        (fun _ => FutureStatus.pending) = FutureStatus.pending ∧
    (DexFuture.allv [DexFuture.for_error sample_error, DexFuture.pending 0]).status
        (fun _ => FutureStatus.resolved) = FutureStatus.rejected sample_error :=
  ⟨by decide, rfl, sample_hooks_return _ _ _ _,
    C3_joined_result_is_all_complete_join sample_instruments sample_recording
      sample_cancellable 42 (some "target") sample_world (by decide) rfl
      (sample_hooks_return _ _ _ _),
    rfl, rfl, rfl, rfl⟩

/-- C4: on valid arguments, an instrument whose class keeps the slots that
`sysprof_instrument_class_init` leaves behind gets a no-op success from every
wrapper: prepare and record through the base-class defaults, augment and
process-started through the `NULL` check of the wrapper; each returns
`dex_future_new_for_boolean (TRUE)` and changes nothing but the dispatch log.
The default `list_required_policy` returns `NULL`. An overridden slot is called
with the arguments of the wrapper, and the wrapper returns what it returns. -/
theorem C4_default_hooks_succeed_and_overrides_pass_through {σ : Type}
    (self : SysprofInstrument σ) (recording : GPointer SysprofRecording)
    (cancellable : GPointer GCancellable) (pid : Int) (comm : Option String) (w : World σ)
    (hrec : SYSPROF_IS_RECORDING recording = true) :
    (self.klass.prepare = (sysprof_instrument_class_init (zeroed_class σ)).prepare →
      _sysprof_instrument_prepare self recording w =
        some (dex_future_new_for_boolean true, w.note (.prepare self.id recording))) ∧
    (G_IS_CANCELLABLE cancellable = true →
      self.klass.record = (sysprof_instrument_class_init (zeroed_class σ)).record →
      _sysprof_instrument_record self recording cancellable w =
        some (dex_future_new_for_boolean true,
          w.note (.record self.id recording cancellable))) ∧
    (self.klass.augment = (sysprof_instrument_class_init (zeroed_class σ)).augment →
      _sysprof_instrument_augment self recording w =
        some (dex_future_new_for_boolean true, w.note (.augment self.id recording))) ∧
    (self.klass.process_started =
        (sysprof_instrument_class_init (zeroed_class σ)).process_started →
      _sysprof_instrument_process_started self recording pid comm w =
        some (dex_future_new_for_boolean true,
          w.note (.process_started self.id recording pid comm))) ∧
    ((sysprof_instrument_class_init (zeroed_class σ)).list_required_policy =
        some sysprof_instrument_real_list_required_policy ∧
      sysprof_instrument_real_list_required_policy self.id = some none) ∧
    ((sysprof_instrument_class_init (zeroed_class σ)).prepare =
        some sysprof_instrument_real_prepare ∧
      (sysprof_instrument_class_init (zeroed_class σ)).record =
        some sysprof_instrument_real_record ∧
      (sysprof_instrument_class_init (zeroed_class σ)).augment = none ∧
      (sysprof_instrument_class_init (zeroed_class σ)).process_started = none) ∧
    (∀ hook, self.klass.prepare = some hook →
      _sysprof_instrument_prepare self recording w =
        (w.note (.prepare self.id recording)).call (hook self.id recording)) ∧
    (∀ hook, G_IS_CANCELLABLE cancellable = true → self.klass.record = some hook →
      _sysprof_instrument_record self recording cancellable w =
        (w.note (.record self.id recording cancellable)).call
          (hook self.id recording cancellable)) ∧
    (∀ hook, self.klass.augment = some hook →
      _sysprof_instrument_augment self recording w =
        (w.note (.augment self.id recording)).call (hook self.id recording)) ∧
    (∀ hook, self.klass.process_started = some hook →
      _sysprof_instrument_process_started self recording pid comm w =
        (w.note (.process_started self.id recording pid comm)).call
          (hook self.id recording pid comm)) := by
  refine ⟨?_, ?_, ?_, ?_, ⟨rfl, rfl⟩, ⟨rfl, rfl, rfl, rfl⟩, ?_, ?_, ?_, ?_⟩
  · intro h
    simp only [_sysprof_instrument_prepare, g_assert, SYSPROF_IS_INSTRUMENT, hrec, if_true, h,
      sysprof_instrument_class_init, World.call, sysprof_instrument_real_prepare,
      SYSPROF_IS_INSTRUMENT_ID]
  · intro hcan h
    simp only [_sysprof_instrument_record, g_assert, SYSPROF_IS_INSTRUMENT, hrec, hcan,
      if_true, h, sysprof_instrument_class_init, World.call, sysprof_instrument_real_record,
      SYSPROF_IS_INSTRUMENT_ID, Bool.or_true]
  · intro h
    simp only [_sysprof_instrument_augment, g_assert, SYSPROF_IS_INSTRUMENT, hrec, if_true, h,
      sysprof_instrument_class_init, zeroed_class]
  · intro h
    simp only [_sysprof_instrument_process_started, g_assert, SYSPROF_IS_INSTRUMENT, hrec,
      if_true, h, sysprof_instrument_class_init, zeroed_class]
  · intro hook h
    simp only [_sysprof_instrument_prepare, g_assert, SYSPROF_IS_INSTRUMENT, hrec, if_true, h]
  · intro hook hcan h
    simp only [_sysprof_instrument_record, g_assert, SYSPROF_IS_INSTRUMENT, hrec, hcan,
      if_true, h]
  · intro hook h
    simp only [_sysprof_instrument_augment, g_assert, SYSPROF_IS_INSTRUMENT, hrec, if_true, h]
  · intro hook h
    simp only [_sysprof_instrument_process_started, g_assert, SYSPROF_IS_INSTRUMENT, hrec,
      if_true, h]

/-- C4 at an instrument that overrides nothing, with the values the wrappers
return for it, and the value the prepare wrapper returns for sample instrument
`B`, which overrides prepare. -/
theorem C4_default_hooks_succeed_and_overrides_pass_through_witness :
    SYSPROF_IS_RECORDING sample_recording = true ∧
    ((plain_instrument.klass.prepare =
          (sysprof_instrument_class_init (zeroed_class Nat)).prepare →
        _sysprof_instrument_prepare plain_instrument sample_recording sample_world =
          some (dex_future_new_for_boolean true,
            sample_world.note (.prepare plain_instrument.id sample_recording))) ∧
      (G_IS_CANCELLABLE sample_cancellable = true →
        plain_instrument.klass.record =
          (sysprof_instrument_class_init (zeroed_class Nat)).record →
        _sysprof_instrument_record plain_instrument sample_recording sample_cancellable
            sample_world =
          some (dex_future_new_for_boolean true,
            sample_world.note
              (.record plain_instrument.id sample_recording sample_cancellable))) ∧
      (plain_instrument.klass.augment =
          (sysprof_instrument_class_init (zeroed_class Nat)).augment →
        _sysprof_instrument_augment plain_instrument sample_recording sample_world =
          some (dex_future_new_for_boolean true,
            sample_world.note (.augment plain_instrument.id sample_recording))) ∧
      (plain_instrument.klass.process_started =
          (sysprof_instrument_class_init (zeroed_class Nat)).process_started →
        _sysprof_instrument_process_started plain_instrument sample_recording 42 none
            sample_world =
          some (dex_future_new_for_boolean true,
            sample_world.note
              (.process_started plain_instrument.id sample_recording 42 none))) ∧
      ((sysprof_instrument_class_init (zeroed_class Nat)).list_required_policy =
          some sysprof_instrument_real_list_required_policy ∧
        sysprof_instrument_real_list_required_policy plain_instrument.id = some none) ∧
      ((sysprof_instrument_class_init (zeroed_class Nat)).prepare =
          some sysprof_instrument_real_prepare ∧
        (sysprof_instrument_class_init (zeroed_class Nat)).record =
          some sysprof_instrument_real_record ∧
        (sysprof_instrument_class_init (zeroed_class Nat)).augment = none ∧
        (sysprof_instrument_class_init (zeroed_class Nat)).process_started = none) ∧
      (∀ hook, plain_instrument.klass.prepare = some hook →
        _sysprof_instrument_prepare plain_instrument sample_recording sample_world =
          (sample_world.note (.prepare plain_instrument.id sample_recording)).call
            (hook plain_instrument.id sample_recording)) ∧
      (∀ hook, G_IS_CANCELLABLE sample_cancellable = true →
        plain_instrument.klass.record = some hook →
        _sysprof_instrument_record plain_instrument sample_recording sample_cancellable
            sample_world =
          (sample_world.note
              (.record plain_instrument.id sample_recording sample_cancellable)).call
            (hook plain_instrument.id sample_recording sample_cancellable)) ∧
      (∀ hook, plain_instrument.klass.augment = some hook →
        _sysprof_instrument_augment plain_instrument sample_recording sample_world =
          (sample_world.note (.augment plain_instrument.id sample_recording)).call
            (hook plain_instrument.id sample_recording)) ∧
      (∀ hook, plain_instrument.klass.process_started = some hook →
        _sysprof_instrument_process_started plain_instrument sample_recording 42 none
            sample_world =
          (sample_world.note
              (.process_started plain_instrument.id sample_recording 42 none)).call
            (hook plain_instrument.id sample_recording 42 none))) ∧
    _sysprof_instrument_prepare plain_instrument sample_recording sample_world =
      some (DexFuture.for_boolean true,
        { calls := [Call.prepare 3 sample_recording], ext := 0 }) ∧
    _sysprof_instrument_record plain_instrument sample_recording sample_cancellable
        sample_world =
      some (DexFuture.for_boolean true,
        { calls := [Call.record 3 sample_recording sample_cancellable], ext := 0 }) ∧
    _sysprof_instrument_augment plain_instrument sample_recording sample_world =
      some (DexFuture.for_boolean true,
        { calls := [Call.augment 3 sample_recording], ext := 0 }) ∧
    _sysprof_instrument_prepare { id := 2, klass := counting_class } sample_recording
        sample_world =
      some (DexFuture.for_boolean true,
        { calls := [Call.prepare 2 sample_recording], ext := 1 }) :=
  ⟨rfl,
    C4_default_hooks_succeed_and_overrides_pass_through plain_instrument sample_recording
      sample_cancellable 42 none sample_world rfl,
    rfl, rfl, rfl, rfl⟩

/-! ### The signal handler -/

/-- The handler with `count < 2`: prints, requests stop when `count == 0`,
counts, and keeps the source. -/
theorem sigint_handler_below_two (st : Cli) (h : st.count < 2) :
    sigint_handler st =
      (G_SOURCE_CONTINUE,
        { st with
          count := st.count + 1
          trace := st.trace ++ (if st.count = 0 then
            [Event.printerr "\n",
              Event.printerr "Stopping profiler. Press twice more ^C to force exit.\n",
              Event.stop_async st.active_recording]
            else [Event.printerr "\n"]) }) := by
  have h2 : ¬ st.count ≥ 2 := by omega
  by_cases h0 : st.count = 0
  · simp [sigint_handler, h0, Cli.g_printerr, Cli.emit]
  · simp [sigint_handler, h2, h0, Cli.g_printerr, Cli.emit]

/-- The handler with `count >= 2`: quits the main loop and removes the source,
nothing else. -/
theorem sigint_handler_from_two (st : Cli) (h : 2 ≤ st.count) :
    sigint_handler st = (G_SOURCE_REMOVE, st.g_main_loop_quit) := by
  have h2 : st.count ≥ 2 := h
  simp [sigint_handler, h2]

/-- Delivering one more signal after a list of signals. -/
theorem deliver_signals_snoc (sigs : List Signal) (sig : Signal) (st : Cli) :
    deliver_signals (sigs ++ [sig]) st = (signal_source sig (deliver_signals sigs st)).2 := by
  induction sigs generalizing st with
  | nil => rfl
  | cons x xs ih => exact ih (signal_source x st).2

/-- The counter after a list of deliveries: it counts them up to two. -/
theorem deliver_signals_count (sigs : List Signal) (st : Cli) (h0 : 0 ≤ st.count)
    (h2 : st.count ≤ 2) :
    (deliver_signals sigs st).count = min (st.count + sigs.length) 2 := by
  induction sigs generalizing st with
  | nil => simp [deliver_signals]; omega
  | cons x xs ih =>
    simp only [deliver_signals, signal_source, List.length_cons]
    by_cases hlt : st.count < 2
    · rw [sigint_handler_below_two st hlt, ih _ (by simp; omega) (by simp; omega)]
      simp only [Nat.cast_add, Nat.cast_one]
      omega
    · rw [sigint_handler_from_two st (by omega), ih _ (by simpa [Cli.g_main_loop_quit] using h0)
        (by simpa [Cli.g_main_loop_quit] using h2)]
      simp only [Cli.g_main_loop_quit, Nat.cast_add, Nat.cast_one]
      omega

/-- As long as the counter stays within two, the deliveries neither quit the
main loop nor stop it. -/
theorem deliver_signals_no_quit (sigs : List Signal) (st : Cli) (h0 : 0 ≤ st.count)
    (h2 : st.count + sigs.length ≤ 2) :
    (deliver_signals sigs st).running = st.running ∧
      ∃ evs, (deliver_signals sigs st).trace = st.trace ++ evs ∧
        Event.main_loop_quit ∉ evs := by
  induction sigs generalizing st with
  | nil => exact ⟨rfl, [], by simp [deliver_signals], by simp⟩
  | cons x xs ih =>
    simp only [List.length_cons, Nat.cast_add, Nat.cast_one] at h2
    have hlt : st.count < 2 := by omega
    simp only [deliver_signals, signal_source]
    rw [sigint_handler_below_two st hlt]
    obtain ⟨hrun, evs, htrace, hquit⟩ := ih
      { st with
        count := st.count + 1
        trace := st.trace ++ (if st.count = 0 then
          [Event.printerr "\n",
            Event.printerr "Stopping profiler. Press twice more ^C to force exit.\n",
            Event.stop_async st.active_recording]
          else [Event.printerr "\n"]) } (by simp; omega) (by simp; omega)
    refine ⟨hrun, _, by rw [htrace, List.append_assoc], ?_⟩
    by_cases hc : st.count = 0 <;> simp [hc, hquit]

/-- C5: both signal sources run `sigint_handler` on one counter. Starting from
`count == 0`, a delivery that follows fewer than two earlier ones (the first
and the second, whichever signals they are) returns `G_SOURCE_CONTINUE`, and up
to and including it nothing has quit or stopped the main loop; a delivery that
follows two or more earlier ones (the third and any later one the handler gets)
returns `G_SOURCE_REMOVE` and does nothing but `g_main_loop_quit`: no stop
request, no output, counter unchanged. -/
theorem C5_third_signal_quits_main_loop (earlier : List Signal) (sig : Signal) (st : Cli)
    (h0 : st.count = 0) :
    (earlier.length < 2 →
      (signal_source sig (deliver_signals earlier st)).1 = G_SOURCE_CONTINUE ∧
      (signal_source sig (deliver_signals earlier st)).2.running = st.running ∧
      ∃ evs, (signal_source sig (deliver_signals earlier st)).2.trace = st.trace ++ evs ∧
        Event.main_loop_quit ∉ evs) ∧
    (2 ≤ earlier.length →
      (signal_source sig (deliver_signals earlier st)).1 = G_SOURCE_REMOVE ∧
      (signal_source sig (deliver_signals earlier st)).2.running = false ∧
      (signal_source sig (deliver_signals earlier st)).2.trace =
        (deliver_signals earlier st).trace ++ [Event.main_loop_quit] ∧
      (signal_source sig (deliver_signals earlier st)).2.count =
        (deliver_signals earlier st).count) := by
  have hcount := deliver_signals_count earlier st (by omega) (by omega)
  rw [h0, zero_add] at hcount
  constructor
  · intro hlen
    have hlt : (deliver_signals earlier st).count < 2 := by rw [hcount]; omega
    refine ⟨?_, ?_⟩
    · simp only [signal_source]
      rw [sigint_handler_below_two _ hlt]
    · rw [← deliver_signals_snoc]
      exact deliver_signals_no_quit (earlier ++ [sig]) st (by omega)
        (by rw [h0]; simp; omega)
  · intro hlen
    have hge : 2 ≤ (deliver_signals earlier st).count := by rw [hcount]; omega
    simp only [signal_source]
    rw [sigint_handler_from_two _ hge]
    exact ⟨rfl, rfl, rfl, rfl⟩

/-- C5 at a third delivery, `SIGINT` after a `SIGINT` and a `SIGTERM`, with the
trace of the three deliveries. -/
theorem C5_third_signal_quits_main_loop_witness :
    sample_cli.count = 0 ∧
    ((([Signal.SIGINT, Signal.SIGTERM] : List Signal).length < 2 →
        (signal_source .SIGINT (deliver_signals [.SIGINT, .SIGTERM] sample_cli)).1 =
          G_SOURCE_CONTINUE ∧
        (signal_source .SIGINT (deliver_signals [.SIGINT, .SIGTERM] sample_cli)).2.running =
          sample_cli.running ∧
        ∃ evs, (signal_source .SIGINT (deliver_signals [.SIGINT, .SIGTERM] sample_cli)).2.trace =
            sample_cli.trace ++ evs ∧
          Event.main_loop_quit ∉ evs) ∧
      (2 ≤ ([Signal.SIGINT, Signal.SIGTERM] : List Signal).length →
        (signal_source .SIGINT (deliver_signals [.SIGINT, .SIGTERM] sample_cli)).1 =
          G_SOURCE_REMOVE ∧
        (signal_source .SIGINT (deliver_signals [.SIGINT, .SIGTERM] sample_cli)).2.running =
          false ∧
        (signal_source .SIGINT (deliver_signals [.SIGINT, .SIGTERM] sample_cli)).2.trace =
          (deliver_signals [.SIGINT, .SIGTERM] sample_cli).trace ++ [Event.main_loop_quit] ∧
        (signal_source .SIGINT (deliver_signals [.SIGINT, .SIGTERM] sample_cli)).2.count =
          (deliver_signals [.SIGINT, .SIGTERM] sample_cli).count)) ∧
    (deliver_signals [.SIGINT, .SIGTERM, .SIGINT] sample_cli).trace =
      [Event.printerr "\n",
        Event.printerr "Stopping profiler. Press twice more ^C to force exit.\n",
        Event.stop_async (some { id := 7 }),
        Event.printerr "\n",
        Event.main_loop_quit] :=
  ⟨rfl, C5_third_signal_quits_main_loop [.SIGINT, .SIGTERM] .SIGINT sample_cli rfl, by decide⟩

/-- C6, refuted: with a recording active, the second interrupt adds a single
newline to the output; it neither requests stop nor prints the stopping notice,
both of which the first interrupt did. -/
theorem C6_second_interrupt_does_not_stop_again :
    (signal_source .SIGINT sample_cli).2.trace =
      [Event.printerr "\n",
        Event.printerr "Stopping profiler. Press twice more ^C to force exit.\n",
        Event.stop_async (some { id := 7 })] ∧
    (signal_source .SIGINT (signal_source .SIGINT sample_cli).2).2.trace =
      (signal_source .SIGINT sample_cli).2.trace ++ [Event.printerr "\n"] ∧
    ¬ (Event.stop_async (some { id := 7 }) ∈ [Event.printerr "\n"] ∧
      Event.printerr "Stopping profiler. Press twice more ^C to force exit.\n" ∈
        [Event.printerr "\n"]) := by
  decide

/-- C6, amended: stop is requested and the notice printed by the first
interrupt only (`count == 0`); the second interrupt (`count == 1`) prints a
newline, advances the counter to two and keeps the source, and does nothing
else. -/
theorem C6_only_first_interrupt_requests_stop (first second : Cli)
    (h1 : first.count = 0) (h2 : second.count = 1) :
    sigint_handler first =
      (G_SOURCE_CONTINUE,
        { first with
          count := 1
          trace := first.trace ++
            [Event.printerr "\n",
              Event.printerr "Stopping profiler. Press twice more ^C to force exit.\n",
              Event.stop_async first.active_recording] }) ∧
    sigint_handler second =
      (G_SOURCE_CONTINUE,
        { second with count := 2, trace := second.trace ++ [Event.printerr "\n"] }) := by
  constructor
  · rw [sigint_handler_below_two first (by omega)]
    simp [h1]
  · rw [sigint_handler_below_two second (by omega)]
    simp [h2]

/-- C6, amended, at the first and the second interrupt of a running session. -/
theorem C6_only_first_interrupt_requests_stop_witness :
    sample_cli.count = 0 ∧ (sigint_handler sample_cli).2.count = 1 ∧
    (sigint_handler sample_cli =
        (G_SOURCE_CONTINUE,
          { sample_cli with
            count := 1
            trace := sample_cli.trace ++
              [Event.printerr "\n",
                Event.printerr "Stopping profiler. Press twice more ^C to force exit.\n",
                Event.stop_async sample_cli.active_recording] }) ∧
      sigint_handler (sigint_handler sample_cli).2 =
        (G_SOURCE_CONTINUE,
          { (sigint_handler sample_cli).2 with
            count := 2
            trace := (sigint_handler sample_cli).2.trace ++ [Event.printerr "\n"] })) :=
  ⟨rfl, rfl,
    C6_only_first_interrupt_requests_stop sample_cli (sigint_handler sample_cli).2 rfl rfl⟩

/-! ### The environment of the spawned command -/

/-- The function `strchr` finds nothing exactly when the character does not
occur. -/
theorem strchr_from_none (l : List Char) (c : Char) : strchr_from l c = none ↔ c ∉ l := by
  induction l with
  | nil => simp [strchr_from]
  | cons x xs ih =>
    by_cases h : x = c
    · simp [strchr_from, h]
    · have h2 : ¬ c = x := fun e => h e.symm
      simp [strchr_from, h, h2, ih]

/-- The offset `strchr` returns splits the string at the first occurrence of
the character. -/
theorem strchr_from_some (l : List Char) (c : Char) (n : Nat) (h : strchr_from l c = some n) :
    l.take n ++ c :: l.drop (n + 1) = l ∧ c ∉ l.take n := by
  induction l generalizing n with
  | nil => simp [strchr_from] at h
  | cons x xs ih =>
    by_cases hx : x = c
    · simp only [strchr_from, hx, if_true, Option.some.injEq] at h
      subst h
      simp [hx]
    · simp only [strchr_from, hx, if_false, Option.map_eq_some'] at h
      obtain ⟨m, hm, rfl⟩ := h
      obtain ⟨h1, h2⟩ := ih m hm
      have h3 : ¬ c = x := fun e => hx e.symm
      simp [h1, h2, h3]

/-- After `sysprof_spawnable_setenv`, the variable holds the new value. -/
theorem getenv_setenv_same (sp : SysprofSpawnable) (key value : String) :
    (sysprof_spawnable_setenv sp key value).getenv key = some value := by
  have h : ∀ l : List (String × String),
      (l.filter (fun kv => kv.1 ≠ key) ++ [(key, value)]).find? (fun kv => kv.1 = key) =
        some (key, value) := by
    intro l
    induction l with
    | nil =>
      rw [List.filter_nil, List.nil_append, List.find?_cons_of_pos]
      exact decide_eq_true rfl
    | cons a l ih =>
      by_cases ha : a.1 = key
      · rw [List.filter_cons_of_neg (by simpa using ha)]
        exact ih
      · rw [List.filter_cons_of_pos (by simpa using ha), List.cons_append,
          List.find?_cons_of_neg _ (by simpa using ha)]
        exact ih
  simp only [SysprofSpawnable.getenv, sysprof_spawnable_setenv, h, Option.map_some']

/-- After `sysprof_spawnable_setenv`, every other variable is as before. -/
theorem getenv_setenv_other (sp : SysprofSpawnable) (key value other : String)
    (hne : key ≠ other) :
    (sysprof_spawnable_setenv sp key value).getenv other = sp.getenv other := by
  have h : ∀ l : List (String × String),
      (l.filter (fun kv => kv.1 ≠ key) ++ [(key, value)]).find? (fun kv => kv.1 = other) =
        l.find? (fun kv => kv.1 = other) := by
    intro l
    induction l with
    | nil =>
      rw [List.filter_nil, List.nil_append, List.find?_cons_of_neg _ (by simpa using hne)]
    | cons a l ih =>
      by_cases ha : a.1 = key
      · have hao : ¬ a.1 = other := by rw [ha]; exact hne
        rw [List.filter_cons_of_neg (by simpa using ha),
          List.find?_cons_of_neg _ (by simpa using hao)]
        exact ih
      · rw [List.filter_cons_of_pos (by simpa using ha), List.cons_append]
        by_cases hao : a.1 = other
        · rw [List.find?_cons_of_pos _ (by simpa using hao),
            List.find?_cons_of_pos _ (by simpa using hao)]
        · rw [List.find?_cons_of_neg _ (by simpa using hao),
            List.find?_cons_of_neg _ (by simpa using hao)]
          exact ih
  simp only [SysprofSpawnable.getenv, sysprof_spawnable_setenv, h]

/-- The loop body sets the name of the entry to the value of the entry. -/
theorem apply_env_entry_eq (sp : SysprofSpawnable) (entry : String) :
    apply_env_entry sp entry =
      sysprof_spawnable_setenv sp (env_entry_name entry) (env_entry_value entry) := by
  unfold apply_env_entry env_entry_name env_entry_value
  cases strchr entry '=' <;> rfl

/-- The loop over the entries, split at an entry. -/
theorem apply_envs_append (before after : List String) (sp : SysprofSpawnable) :
    apply_envs (before ++ after) sp = apply_envs after (apply_envs before sp) := by
  induction before generalizing sp with
  | nil => rfl
  | cons e es ih => exact ih (apply_env_entry sp e)

/-- Entries for other names leave a variable alone. -/
theorem apply_envs_getenv_other (envs : List String) (sp : SysprofSpawnable) (key : String)
    (h : ∀ e ∈ envs, env_entry_name e ≠ key) :
    (apply_envs envs sp).getenv key = sp.getenv key := by
  induction envs generalizing sp with
  | nil => rfl
  | cons e es ih =>
    rw [apply_envs, ih _ (fun x hx => h x (List.mem_cons_of_mem _ hx)), apply_env_entry_eq,
      getenv_setenv_other _ _ _ _ (h e (List.mem_cons_self _ _))]

/-- C7: for every `--env` entry, `main` sets the variable named by the entry
to the value of the entry, where an entry without `'='` names itself and has
the empty value, and an entry with `'='` is its name, `"="` and its value, the
name holding no `'='` (so the split is at the first one). The entries are
applied in their order on top of the inherited environment: the variable of an
entry holds that entry's value unless a later entry names it again, and a
variable no entry names holds its inherited value. -/
theorem C7_env_entries_overlay_in_order (cwd : String) (current_env : List (String × String))
    (child_argv : List String) (envs : List String) :
    (∀ sp entry, apply_env_entry sp entry =
      sysprof_spawnable_setenv sp (env_entry_name entry) (env_entry_value entry)) ∧
    (∀ entry : String, '=' ∉ entry.data →
      env_entry_name entry = entry ∧ env_entry_value entry = "") ∧
    (∀ entry : String, '=' ∈ entry.data →
      env_entry_name entry ++ "=" ++ env_entry_value entry = entry ∧
      '=' ∉ (env_entry_name entry).data) ∧
    (∀ sp, apply_envs envs sp = envs.foldl apply_env_entry sp) ∧
    (∀ before entry after, envs = before ++ entry :: after →
      (∀ e ∈ after, env_entry_name e ≠ env_entry_name entry) →
      (setup_spawnable cwd current_env child_argv (some envs)).getenv (env_entry_name entry) =
        some (env_entry_value entry)) ∧
    (∀ key, (∀ e ∈ envs, env_entry_name e ≠ key) →
      (setup_spawnable cwd current_env child_argv (some envs)).getenv key =
        (current_env.find? (fun kv => kv.1 = key)).map (fun kv => kv.2)) := by
  refine ⟨apply_env_entry_eq, ?_, ?_, ?_, ?_, ?_⟩
  · intro entry h
    have hnone : strchr entry '=' = none := (strchr_from_none _ _).2 h
    simp [env_entry_name, env_entry_value, hnone]
  · intro entry h
    cases hs : strchr entry '=' with
    | none => exact absurd h ((strchr_from_none _ _).1 hs)
    | some n =>
      obtain ⟨h1, h2⟩ := strchr_from_some _ _ _ hs
      simp only [env_entry_name, env_entry_value, hs, g_strndup, str_offset]
      refine ⟨?_, h2⟩
      apply String.ext
      simp only [String.data_append]
      simpa using h1
  · intro sp
    induction envs generalizing sp with
    | nil => rfl
    | cons e es ih => exact ih (apply_env_entry sp e)
  · intro before entry after henvs hlater
    simp only [setup_spawnable, henvs]
    rw [apply_envs_append, apply_envs, apply_envs_getenv_other _ _ _ hlater, apply_env_entry_eq,
      getenv_setenv_same]
  · intro key hkey
    simp only [setup_spawnable]
    rw [apply_envs_getenv_other _ _ _ hkey]
    rfl

/-- The entries `A=1`, `B`, `A=x=y` over an inherited `A=0`, `C=3`: the
environment the spawnable ends up with. -/
theorem env_overlay_sample_run :
    (setup_spawnable "/" [("A", "0"), ("C", "3")] ["true"]
        (some ["A=1", "B", "A=x=y"])).environ = [("C", "3"), ("B", ""), ("A", "x=y")] ∧
    env_entry_name "A=x=y" = "A" ∧ env_entry_value "A=x=y" = "x=y" ∧
    env_entry_name "B" = "B" ∧ env_entry_value "B" = "" := by
  decide

/-! ### Start-up of `main` -/

/-- Printing is no sink activity. -/
theorem noSinkActivity_printerr (st : Cli) (text : String) (h : NoSinkActivity st.trace) :
    NoSinkActivity (st.g_printerr text).trace := by
  intro e he
  simp only [Cli.g_printerr, List.mem_append, List.mem_singleton] at he
  rcases he with he | rfl
  · exact h e he
  · exact ⟨rfl, rfl⟩

/-- Printing the surplus arguments is no sink activity. -/
theorem noSinkActivity_foldl_printerr (args : List String) (st : Cli)
    (h : NoSinkActivity st.trace) :
    NoSinkActivity (args.foldl (fun st arg => st.g_printerr (" " ++ arg)) st).trace := by
  induction args generalizing st with
  | nil => exact h
  | cons a as ih => exact ih _ (noSinkActivity_printerr st _ h)

/-- The trace is empty when `main` starts. -/
theorem noSinkActivity_initial : NoSinkActivity Cli.initial.trace := by
  intro e he
  simp [Cli.initial] at he

/-- Under `O_CREAT | O_EXCL`, `g_open` refuses a path that exists and leaves
the file system alone. -/
theorem g_open_exclusive_refuses (refused : String → Bool) (fs : FileSystem)
    (filename : String) (h : g_file_test_exists fs filename = true) :
    g_open refused fs filename (open_flags false) = (-1, fs) := by
  unfold g_file_test_exists at h
  cases hn : fs filename with
  | none => simp [hn] at h
  | some node =>
    cases hr : refused filename with
    | true => simp [g_open, hr]
    | false => simp [g_open, hr, hn, open_flags]

/-- C8: on each configuration-error path of `main` (no `"--"` in `argv`; the
option parser fails; more than one positional argument is left; the target
exists and `--force` was not given) `main` exits with `EXIT_FAILURE`, which is
not zero, and its trace up to the exit holds no `g_open`, nothing for the
capture writer and no start of the profiler. Without `--force` the open flags
hold `O_EXCL`, under which `g_open` refuses an existing path: if the target
appears between the existence test and the open, the open fails, the file is
left as it is, and `main` exits with `EXIT_FAILURE` before the writer and the
profiler are reached. -/
theorem C8_configuration_errors_exit_before_sink (argv : List String) (host : Host) :
    (find_separator (argv.drop 1) 1 = none →
      (main argv host).outcome = .exited EXIT_FAILURE ∧
      NoSinkActivity (main argv host).st.trace) ∧
    (∀ i error, find_separator (argv.drop 1) 1 = some i →
      host.parse (argv.take i) = .error error →
      (main argv host).outcome = .exited EXIT_FAILURE ∧
      NoSinkActivity (main argv host).st.trace) ∧
    (∀ i opts, find_separator (argv.drop 1) 1 = some i →
      host.parse (argv.take i) = .ok opts → opts.version = false → 2 < opts.argv.length →
      (main argv host).outcome = .exited EXIT_FAILURE ∧
      NoSinkActivity (main argv host).st.trace) ∧
    (∀ i opts, find_separator (argv.drop 1) 1 = some i →
      host.parse (argv.take i) = .ok opts → opts.version = false → opts.argv.length ≤ 2 →
      opts.force = false →
      g_file_test_exists host.fs (capture_filename opts.argv) = true →
      (main argv host).outcome = .exited EXIT_FAILURE ∧
      NoSinkActivity (main argv host).st.trace) ∧
    EXIT_FAILURE ≠ 0 ∧
    OpenFlag.O_EXCL ∈ open_flags false ∧
    (∀ refused fs filename, g_file_test_exists fs filename = true →
      g_open refused fs filename (open_flags false) = (-1, fs)) ∧
    (∀ i opts, find_separator (argv.drop 1) 1 = some i →
      host.parse (argv.take i) = .ok opts → opts.version = false → opts.argv.length ≤ 2 →
      opts.force = false →
      g_file_test_exists host.fs (capture_filename opts.argv) = false →
      g_file_test_exists (host.interfere host.fs) (capture_filename opts.argv) = true →
      (main argv host).outcome = .exited EXIT_FAILURE ∧
      (main argv host).fs = host.interfere host.fs ∧
      (main argv host).st.trace =
        [Event.file_test (capture_filename opts.argv),
          Event.g_open (capture_filename opts.argv) (open_flags false) 0o640 (-1),
          Event.printerr ("Failed to open " ++ capture_filename opts.argv ++ "\n")]) := by
  refine ⟨?_, ?_, ?_, ?_, by decide, by decide, g_open_exclusive_refuses, ?_⟩
  · intro hsep
    simp only [main, hsep]
    refine ⟨trivial, ?_⟩
    intro e he
    simp only [Cli.initial, Cli.g_printerr, List.nil_append, List.mem_singleton] at he
    subst he
    exact ⟨rfl, rfl⟩
  · intro i error hsep hparse
    simp only [main, hsep, hparse]
    refine ⟨trivial, ?_⟩
    intro e he
    simp only [Cli.initial, Cli.g_printerr, List.nil_append, List.mem_singleton] at he
    subst he
    exact ⟨rfl, rfl⟩
  · intro i opts hsep hparse hversion hargc
    have hgt : opts.argv.length > 2 := hargc
    simp only [main, hsep, hparse, hversion, hgt, if_true, Bool.false_eq_true, if_false]
    refine ⟨trivial, ?_⟩
    exact noSinkActivity_printerr _ _ (noSinkActivity_foldl_printerr _ _
      (noSinkActivity_printerr _ _ noSinkActivity_initial))
  · intro i opts hsep hparse hversion hargc hforce hexists
    have hgt : ¬ opts.argv.length > 2 := by omega
    simp only [main, hsep, hparse, hversion, hgt, hforce, hexists, if_true,
      Bool.false_eq_true, if_false, Bool.not_false, Bool.and_self]
    refine ⟨trivial, ?_⟩
    intro e he
    simp only [Cli.initial, Cli.g_printerr, Cli.emit, List.nil_append, List.cons_append,
      List.mem_cons, List.mem_singleton, List.not_mem_nil, or_false] at he
    rcases he with rfl | rfl <;> exact ⟨rfl, rfl⟩
  · intro i opts hsep hparse hversion hargc hforce habsent hexists
    have hgt : ¬ opts.argv.length > 2 := by omega
    have hopen := g_open_exclusive_refuses host.open_refused _ _ hexists
    simp only [main, hsep, hparse, hversion, hgt, hforce, habsent, hopen, if_true,
      Bool.false_eq_true, if_false, Bool.not_false, Bool.and_false]
    exact ⟨trivial, trivial, rfl⟩

/-- Runs of `main` on concrete command lines, one for each error path and one
for the target appearing after the existence test. -/
theorem configuration_error_sample_runs :
    (main ["muprof", "out.syscap"] sample_host).outcome = .exited 1 ∧
    (main ["muprof", "out.syscap"] sample_host).st.trace =
      [Event.printerr "No child command passed"] ∧
    (main ["muprof", "--bogus", "--", "true"] sample_host).outcome = .exited 1 ∧
    (main ["muprof", "--bogus", "--", "true"] sample_host).st.trace =
      [Event.printerr "Unknown option --bogus\n"] ∧
    (main ["muprof", "a", "b", "--", "true"] sample_host).outcome = .exited 1 ∧
    (main ["muprof", "a", "b", "--", "true"] sample_host).st.trace =
      [Event.printerr "Too many arguments were passed to muprof:", Event.printerr " b",
        Event.printerr "\n"] ∧
    (main ["muprof", "--", "true"] sample_host_with_capture).outcome = .exited 1 ∧
    (main ["muprof", "--", "true"] sample_host_with_capture).st.trace =
      [Event.file_test "capture.syscap",
        Event.printerr "capture.syscap exists. Use --force to overwrite\n"] ∧
    (main ["muprof", "--", "true"] sample_host_with_race).outcome = .exited 1 ∧
    (main ["muprof", "--", "true"] sample_host_with_race).st.trace =
      [Event.file_test "capture.syscap",
        Event.g_open "capture.syscap"
          [OpenFlag.O_CREAT, OpenFlag.O_RDWR, OpenFlag.O_CLOEXEC, OpenFlag.O_EXCL] 0o640 (-1),
        Event.printerr "Failed to open capture.syscap\n"] ∧
    (main ["muprof", "--", "true"] sample_host_with_race).fs "capture.syscap" =
      some (.regular [1, 2, 3]) := by
  decide

/-! ### Opening over an existing capture, and the exit status -/

/-- The main loop ends by a quit, by an abort, or never. -/
theorem g_main_loop_run_error (cbs : List Callback) (st : Cli) (outcome : Outcome)
    (h : g_main_loop_run cbs st = .error outcome) :
    outcome = .blocked ∨ outcome = .aborted := by
  induction cbs generalizing st with
  | nil =>
    simp only [g_main_loop_run, Except.error.injEq] at h
    exact Or.inl h.symm
  | cons cb rest ih =>
    simp only [g_main_loop_run] at h
    split at h
    · simp only [Except.error.injEq] at h
      exact Or.inr h.symm
    · split at h
      · exact ih _ h
      · simp at h

/-- Once `main` has reached the main loop it exits with `EXIT_SUCCESS` if it
exits at all, and it does not touch the file system any more. -/
theorem main_loop_and_shutdown_spec (host : Host) (filename : String) (fs : FileSystem)
    (st : Cli) :
    ((main_loop_and_shutdown host filename fs st).outcome = .blocked ∨
      (main_loop_and_shutdown host filename fs st).outcome = .aborted ∨
      (main_loop_and_shutdown host filename fs st).outcome = .exited EXIT_SUCCESS) ∧
    (main_loop_and_shutdown host filename fs st).fs = fs := by
  unfold main_loop_and_shutdown
  simp only
  split
  · rename_i outcome hrun
    rcases g_main_loop_run_error _ _ _ hrun with h | h
    · exact ⟨Or.inl h, rfl⟩
    · exact ⟨Or.inr (Or.inl h), rfl⟩
  · split
    · exact ⟨Or.inr (Or.inl rfl), rfl⟩
    · exact ⟨Or.inr (Or.inr rfl), rfl⟩

/-- C9, refuted: with `--force` and an existing `capture.syscap` of three
bytes, the flags of the open are `O_CREAT | O_RDWR | O_CLOEXEC`, with no
`O_TRUNC` among them, and the open leaves the three bytes in place; the next
thing `main` does is to hand the descriptor to the capture writer, so `main`
removes and recreates nothing either. And the open need not succeed: when the
system refuses the existing target, `main` exits with `EXIT_FAILURE` after the
failed open and the three bytes remain. -/
theorem C9_force_open_neither_truncates_nor_always_succeeds :
    open_flags true = [OpenFlag.O_CREAT, OpenFlag.O_RDWR, OpenFlag.O_CLOEXEC] ∧
    OpenFlag.O_TRUNC ∉ open_flags true ∧
    sample_fs "capture.syscap" = some (.regular [1, 2, 3]) ∧
    (g_open sample_host_with_capture.open_refused sample_fs "capture.syscap"
      (open_flags true)).1 = 3 ∧
    (g_open sample_host_with_capture.open_refused sample_fs "capture.syscap"
      (open_flags true)).2 "capture.syscap" = some (.regular [1, 2, 3]) ∧
    (main ["muprof", "-f", "--", "true"] sample_host_with_capture).st.trace.take 2 =
      [Event.g_open "capture.syscap" [OpenFlag.O_CREAT, OpenFlag.O_RDWR, OpenFlag.O_CLOEXEC]
          0o640 3,
        Event.writer_new_from_fd 3 8388608] ∧
    g_file_test_exists sample_host_with_refused_capture.fs "capture.syscap" = true ∧
    (main ["muprof", "-f", "--", "true"] sample_host_with_refused_capture).outcome =
      .exited EXIT_FAILURE ∧
    (main ["muprof", "-f", "--", "true"] sample_host_with_refused_capture).st.trace =
      [Event.g_open "capture.syscap" [OpenFlag.O_CREAT, OpenFlag.O_RDWR, OpenFlag.O_CLOEXEC]
          0o640 (-1),
        Event.printerr "Failed to open capture.syscap\n"] ∧
    (main ["muprof", "-f", "--", "true"] sample_host_with_refused_capture).fs "capture.syscap" =
      some (.regular [1, 2, 3]) := by
  decide

/-- Without `O_EXCL` and `O_TRUNC`, `g_open` on a path that exists either fails
or returns a descriptor of a regular file; either way it leaves the file system
as it was. -/
theorem g_open_force_existing (refused : String → Bool) (fs : FileSystem) (filename : String)
    (h : g_file_test_exists fs filename = true) :
    g_open refused fs filename (open_flags true) = (-1, fs) ∨
    (g_open refused fs filename (open_flags true) = (3, fs) ∧
      ∃ content, fs filename = some (.regular content)) := by
  unfold g_file_test_exists at h
  cases hr : refused filename with
  | true => exact Or.inl (by simp [g_open, hr])
  | false =>
    cases hn : fs filename with
    | none => simp [hn] at h
    | some node =>
      cases node with
      | directory => exact Or.inl (by simp [g_open, hr, hn, open_flags])
      | regular content =>
        exact Or.inr ⟨by simp [g_open, hr, hn, open_flags], content, rfl⟩

/-- C9, amended: with `--force` and a target that exists, the open is not
exclusive: its flags are `O_CREAT | O_RDWR | O_CLOEXEC`, without `O_EXCL` and
without `O_TRUNC`, and the open itself changes nothing in the file system.
When the open returns a descriptor, `main` creates the capture writer from it
and goes on to start the profiler; the writer empties the target, so none of
the content found there remains, every other path is as before, and `main`
does not exit with `EXIT_FAILURE`. When the open fails, `main` reports it, exits
with `EXIT_FAILURE` and leaves the file system as it found it. -/
theorem C9_force_open_leaves_emptying_to_the_writer (argv : List String) (host : Host)
    (i : Nat) (opts : Options)
    (hsep : find_separator (argv.drop 1) 1 = some i)
    (hparse : host.parse (argv.take i) = .ok opts)
    (hversion : opts.version = false) (hargc : opts.argv.length ≤ 2)
    (hforce : opts.force = true)
    (hexists : g_file_test_exists host.fs (capture_filename opts.argv) = true) :
    open_flags opts.force = [OpenFlag.O_CREAT, OpenFlag.O_RDWR, OpenFlag.O_CLOEXEC] ∧
    (g_open host.open_refused host.fs (capture_filename opts.argv)
      (open_flags opts.force)).2 = host.fs ∧
    ((g_open host.open_refused host.fs (capture_filename opts.argv)
        (open_flags opts.force)).1 ≠ -1 →
      (∃ st, main argv host =
          main_loop_and_shutdown host (capture_filename opts.argv)
            (sysprof_capture_writer_new_from_fd host.fs (capture_filename opts.argv) 3) st ∧
        st.trace =
          [Event.g_open (capture_filename opts.argv) (open_flags opts.force) 0o640 3,
            Event.writer_new_from_fd 3 (DEFAULT_BUFFER_SIZE / host.pagesize * host.pagesize),
            Event.set_spawnable
              (setup_spawnable host.cwd host.environ (argv.drop (i + 1)) opts.envs),
            Event.record_async,
            Event.unix_signal_add .SIGINT,
            Event.unix_signal_add .SIGTERM,
            Event.printerr "Recording, press ^C to exit\n"]) ∧
      (main argv host).outcome ≠ .exited EXIT_FAILURE ∧
      (main argv host).fs (capture_filename opts.argv) = some (.regular []) ∧
      (∀ path, path ≠ capture_filename opts.argv → (main argv host).fs path = host.fs path)) ∧
    ((g_open host.open_refused host.fs (capture_filename opts.argv)
        (open_flags opts.force)).1 = -1 →
      (main argv host).outcome = .exited EXIT_FAILURE ∧
      (main argv host).fs = host.fs ∧
      (main argv host).st.trace =
        [Event.g_open (capture_filename opts.argv) (open_flags opts.force) 0o640 (-1),
          Event.printerr ("Failed to open " ++ capture_filename opts.argv ++ "\n")]) := by
  have hgt : ¬ opts.argv.length > 2 := by omega
  have hflags : open_flags true =
      [OpenFlag.O_CREAT, OpenFlag.O_RDWR, OpenFlag.O_CLOEXEC] := rfl
  rw [hforce]
  rcases g_open_force_existing host.open_refused host.fs (capture_filename opts.argv) hexists
    with hopen | ⟨hopen, content, hfile⟩
  · refine ⟨hflags, by rw [hopen], ?_, ?_⟩
    · intro hfd
      rw [hopen] at hfd
      exact absurd rfl hfd
    · intro _
      simp only [main, hsep, hparse, hversion, hgt, hforce, hopen, if_true,
        Bool.false_eq_true, if_false, Bool.not_true, Bool.false_and]
      exact ⟨trivial, trivial, rfl⟩
  · have hthree : ¬ (3 : Int) = -1 := by decide
    refine ⟨hflags, by rw [hopen], ?_, ?_⟩
    · intro _
      have hmain : ∃ st, main argv host =
          main_loop_and_shutdown host (capture_filename opts.argv)
            (sysprof_capture_writer_new_from_fd host.fs (capture_filename opts.argv) 3) st ∧
          st.trace =
            [Event.g_open (capture_filename opts.argv) (open_flags true) 0o640 3,
              Event.writer_new_from_fd 3 (DEFAULT_BUFFER_SIZE / host.pagesize * host.pagesize),
              Event.set_spawnable
                (setup_spawnable host.cwd host.environ (argv.drop (i + 1)) opts.envs),
              Event.record_async,
              Event.unix_signal_add .SIGINT,
              Event.unix_signal_add .SIGTERM,
              Event.printerr "Recording, press ^C to exit\n"] := by
        simp only [main, hsep, hparse, hversion, hgt, hforce, hopen, hthree, if_true,
          Bool.false_eq_true, if_false, Bool.not_true, Bool.false_and]
        exact ⟨_, rfl, rfl⟩
      have hwriter : sysprof_capture_writer_new_from_fd host.fs (capture_filename opts.argv) 3 =
          host.fs.put (capture_filename opts.argv) (.regular []) := by
        simp [sysprof_capture_writer_new_from_fd, hfile]
      obtain ⟨st, hrun, htrace⟩ := hmain
      obtain ⟨hout, hfs⟩ := main_loop_and_shutdown_spec host (capture_filename opts.argv)
        (sysprof_capture_writer_new_from_fd host.fs (capture_filename opts.argv) 3) st
      rw [← hrun] at hout hfs
      refine ⟨⟨st, hrun, htrace⟩, ?_, ?_, ?_⟩
      · rcases hout with h | h | h
        · rw [h]; simp
        · rw [h]; simp
        · rw [h]; simp [EXIT_SUCCESS, EXIT_FAILURE]
      · rw [hfs, hwriter]
        simp [FileSystem.put]
      · intro path hpath
        rw [hfs, hwriter]
        simp [FileSystem.put, hpath]
    · intro hfd
      rw [hopen] at hfd
      exact absurd hfd hthree

/-- C9, amended, at `--force` over the earlier capture of three bytes, where
the open returns a descriptor and the writer empties the file, and over the
same capture when the system refuses the open. -/
theorem C9_force_open_leaves_emptying_to_the_writer_witness :
    find_separator (["muprof", "-f", "--", "true"].drop 1) 1 = some 2 ∧
    sample_host_with_capture.parse (["muprof", "-f", "--", "true"].take 2) =
      .ok { argv := ["muprof"], envs := none, force := true, version := false } ∧
    g_file_test_exists sample_host_with_capture.fs (capture_filename ["muprof"]) = true ∧
    (g_open sample_host_with_capture.open_refused sample_host_with_capture.fs
      (capture_filename ["muprof"]) (open_flags true)).1 ≠ -1 ∧
    (open_flags true = [OpenFlag.O_CREAT, OpenFlag.O_RDWR, OpenFlag.O_CLOEXEC] ∧
      (g_open sample_host_with_capture.open_refused sample_host_with_capture.fs (capture_filename ["muprof"])
        (open_flags true)).2 = sample_host_with_capture.fs ∧
      ((g_open sample_host_with_capture.open_refused sample_host_with_capture.fs (capture_filename ["muprof"])
          (open_flags true)).1 ≠ -1 →
        (∃ st, main ["muprof", "-f", "--", "true"] sample_host_with_capture =
            main_loop_and_shutdown sample_host_with_capture (capture_filename ["muprof"])
              (sysprof_capture_writer_new_from_fd sample_host_with_capture.fs (capture_filename ["muprof"]) 3) st ∧
          st.trace =
            [Event.g_open (capture_filename ["muprof"]) (open_flags true) 0o640 3,
              Event.writer_new_from_fd 3 (DEFAULT_BUFFER_SIZE / sample_host_with_capture.pagesize * sample_host_with_capture.pagesize),
              Event.set_spawnable
                (setup_spawnable sample_host_with_capture.cwd sample_host_with_capture.environ
                  (["muprof", "-f", "--", "true"].drop (2 + 1)) none),
              Event.record_async,
              Event.unix_signal_add .SIGINT,
              Event.unix_signal_add .SIGTERM,
              Event.printerr "Recording, press ^C to exit\n"]) ∧
        (main ["muprof", "-f", "--", "true"] sample_host_with_capture).outcome ≠ .exited EXIT_FAILURE ∧
        (main ["muprof", "-f", "--", "true"] sample_host_with_capture).fs (capture_filename ["muprof"]) =
          some (.regular []) ∧
        (∀ path, path ≠ capture_filename ["muprof"] →
          (main ["muprof", "-f", "--", "true"] sample_host_with_capture).fs path = sample_host_with_capture.fs path)) ∧
      ((g_open sample_host_with_capture.open_refused sample_host_with_capture.fs (capture_filename ["muprof"])
          (open_flags true)).1 = -1 →
        (main ["muprof", "-f", "--", "true"] sample_host_with_capture).outcome = .exited EXIT_FAILURE ∧
        (main ["muprof", "-f", "--", "true"] sample_host_with_capture).fs = sample_host_with_capture.fs ∧
        (main ["muprof", "-f", "--", "true"] sample_host_with_capture).st.trace =
          [Event.g_open (capture_filename ["muprof"]) (open_flags true) 0o640 (-1),
            Event.printerr ("Failed to open " ++ capture_filename ["muprof"] ++ "\n")])) ∧
    find_separator (["muprof", "-f", "--", "true"].drop 1) 1 = some 2 ∧
    sample_host_with_refused_capture.parse (["muprof", "-f", "--", "true"].take 2) =
      .ok { argv := ["muprof"], envs := none, force := true, version := false } ∧
    g_file_test_exists sample_host_with_refused_capture.fs (capture_filename ["muprof"]) = true ∧
    (g_open sample_host_with_refused_capture.open_refused sample_host_with_refused_capture.fs
      (capture_filename ["muprof"]) (open_flags true)).1 = -1 ∧
    (open_flags true = [OpenFlag.O_CREAT, OpenFlag.O_RDWR, OpenFlag.O_CLOEXEC] ∧
      (g_open sample_host_with_refused_capture.open_refused sample_host_with_refused_capture.fs (capture_filename ["muprof"])
        (open_flags true)).2 = sample_host_with_refused_capture.fs ∧
      ((g_open sample_host_with_refused_capture.open_refused sample_host_with_refused_capture.fs (capture_filename ["muprof"])
          (open_flags true)).1 ≠ -1 →
        (∃ st, main ["muprof", "-f", "--", "true"] sample_host_with_refused_capture =
            main_loop_and_shutdown sample_host_with_refused_capture (capture_filename ["muprof"])
              (sysprof_capture_writer_new_from_fd sample_host_with_refused_capture.fs (capture_filename ["muprof"]) 3) st ∧
          st.trace =
            [Event.g_open (capture_filename ["muprof"]) (open_flags true) 0o640 3,
              Event.writer_new_from_fd 3 (DEFAULT_BUFFER_SIZE / sample_host_with_refused_capture.pagesize * sample_host_with_refused_capture.pagesize),
              Event.set_spawnable
                (setup_spawnable sample_host_with_refused_capture.cwd sample_host_with_refused_capture.environ
                  (["muprof", "-f", "--", "true"].drop (2 + 1)) none),
              Event.record_async,
              Event.unix_signal_add .SIGINT,
              Event.unix_signal_add .SIGTERM,
              Event.printerr "Recording, press ^C to exit\n"]) ∧
        (main ["muprof", "-f", "--", "true"] sample_host_with_refused_capture).outcome ≠ .exited EXIT_FAILURE ∧
        (main ["muprof", "-f", "--", "true"] sample_host_with_refused_capture).fs (capture_filename ["muprof"]) =
          some (.regular []) ∧
        (∀ path, path ≠ capture_filename ["muprof"] →
          (main ["muprof", "-f", "--", "true"] sample_host_with_refused_capture).fs path = sample_host_with_refused_capture.fs path)) ∧
      ((g_open sample_host_with_refused_capture.open_refused sample_host_with_refused_capture.fs (capture_filename ["muprof"])
          (open_flags true)).1 = -1 →
        (main ["muprof", "-f", "--", "true"] sample_host_with_refused_capture).outcome = .exited EXIT_FAILURE ∧
        (main ["muprof", "-f", "--", "true"] sample_host_with_refused_capture).fs = sample_host_with_refused_capture.fs ∧
        (main ["muprof", "-f", "--", "true"] sample_host_with_refused_capture).st.trace =
          [Event.g_open (capture_filename ["muprof"]) (open_flags true) 0o640 (-1),
            Event.printerr ("Failed to open " ++ capture_filename ["muprof"] ++ "\n")])) :=
  ⟨rfl, rfl, rfl, by decide,
    C9_force_open_leaves_emptying_to_the_writer ["muprof", "-f", "--", "true"]
      sample_host_with_capture 2
      { argv := ["muprof"], envs := none, force := true, version := false }
      rfl rfl rfl (by decide) rfl rfl,
    rfl, rfl, rfl, by decide,
    C9_force_open_leaves_emptying_to_the_writer ["muprof", "-f", "--", "true"]
      sample_host_with_refused_capture 2
      { argv := ["muprof"], envs := none, force := true, version := false }
      rfl rfl rfl (by decide) rfl rfl⟩

/-- C10, refuted: a run in which the recording starts and `wait()` then fails
with an error outside the spawn-exit domain: the wait callback reports the
failure, and `main` still exits with status 0. -/
theorem C10_failed_wait_exits_with_success :
    sample_session_error.domain ≠ G_SPAWN_EXIT_ERROR ∧
    (main ["muprof", "--", "true"] sample_host_with_failed_wait).outcome = .exited 0 ∧
    Event.printerr "Failed to complete recording: boom\n" ∈
      (main ["muprof", "--", "true"] sample_host_with_failed_wait).st.trace := by
  decide

/-- The loop of `diagnostics_items_changed_cb` does not touch the main loop. -/
theorem diagnostics_items_changed_loop_running (model : List SysprofDiagnostic)
    (position added fuel i : Nat) (st : Cli) :
    (diagnostics_items_changed_loop model position added fuel i st).running = st.running := by
  induction fuel generalizing i st with
  | zero => rfl
  | succ fuel ih =>
    simp only [diagnostics_items_changed_loop]
    split
    · rw [ih]; rfl
    · rfl

/-- The wait callback quits the main loop, whatever `wait()` reported. -/
theorem sysprof_cli_wait_cb_running (result : Except GError Unit) (st : Cli) :
    (sysprof_cli_wait_cb result st).running = false := by
  unfold sysprof_cli_wait_cb
  rfl

/-- A successful start of the recording leaves the main loop running. -/
theorem sysprof_cli_record_cb_running (recording : SysprofRecording)
    (diagnostics : List SysprofDiagnostic) (st : Cli) :
    ∃ st2, sysprof_cli_record_cb (.ok recording) diagnostics st = some st2 ∧
      st2.running = st.running := by
  refine ⟨_, rfl, ?_⟩
  simp only [Cli.emit, diagnostics_items_changed_cb, diagnostics_items_changed_loop_running]

/-- When the recording starts and `wait()` then finishes, in whatever way,
`main` gets out of the main loop and exits with `EXIT_SUCCESS`. -/
theorem main_loop_and_shutdown_after_wait (host : Host) (filename : String) (fs : FileSystem)
    (st : Cli) (recording : SysprofRecording) (diagnostics : List SysprofDiagnostic)
    (result : Except GError Unit)
    (hcb : host.callbacks =
      [.record_finished (.ok recording) diagnostics, .wait_finished result])
    (hpending : host.pending = []) :
    (main_loop_and_shutdown host filename fs st).outcome = .exited EXIT_SUCCESS := by
  obtain ⟨st2, hrec, hrun⟩ := sysprof_cli_record_cb_running recording diagnostics
    { st.emit .main_loop_run with running := true }
  have hrun2 : st2.running = true := hrun
  simp only [main_loop_and_shutdown, hcb, hpending, g_main_loop_run, dispatch, hrec, hrun2,
    if_true, sysprof_cli_wait_cb_running, Bool.false_eq_true, if_false, drain_pending]

/-- A run that passes its start-up continues in `main_loop_and_shutdown`. -/
theorem main_of_starts_recording (argv : List String) (host : Host)
    (h : StartsRecording argv host) :
    ∃ filename fs st, main argv host = main_loop_and_shutdown host filename fs st := by
  obtain ⟨i, opts, hsep, hparse, hversion, hargc, htarget, hopen⟩ := h
  have hgt : ¬ opts.argv.length > 2 := by omega
  cases hforce : opts.force with
  | true =>
    rw [hforce] at hopen
    simp only [Bool.not_true, Bool.false_eq_true, if_false] at hopen
    cases hg : g_open host.open_refused host.fs (capture_filename opts.argv)
        (open_flags true) with
    | mk fd fs2 =>
      rw [hg] at hopen
      have hfd : ¬ fd = -1 := hopen
      simp only [main, hsep, hparse, hversion, hgt, hforce, hg, hfd, if_true,
        Bool.false_eq_true, if_false, Bool.not_true, Bool.false_and]
      exact ⟨_, _, _, rfl⟩
  | false =>
    rw [hforce] at hopen htarget
    simp only [Bool.not_false, if_true] at hopen
    have habsent : g_file_test_exists host.fs (capture_filename opts.argv) = false := by
      rcases htarget with h | h
      · exact absurd h (by decide)
      · exact h
    cases hg : g_open host.open_refused (host.interfere host.fs) (capture_filename opts.argv)
        (open_flags false) with
    | mk fd fs2 =>
      rw [hg] at hopen
      have hfd : ¬ fd = -1 := hopen
      simp only [main, hsep, hparse, hversion, hgt, hforce, habsent, hg, hfd, if_true,
        Bool.false_eq_true, if_false, Bool.not_false, Bool.and_false]
      exact ⟨_, _, _, rfl⟩

/-- C10, amended: once `main` has passed its start-up, every exit is with
`EXIT_SUCCESS`, that is 0; in particular, when the recording starts and
`wait()` then resolves, `main` exits with 0 whether `wait()` resolved cleanly,
with a child-process-exit termination or with a genuine session error (which
the wait callback only reports on the error output). -/
theorem C10_exit_status_is_success_after_start_up (argv : List String) (host : Host)
    (h : StartsRecording argv host) :
    (∀ code, (main argv host).outcome = .exited code → code = EXIT_SUCCESS) ∧
    EXIT_SUCCESS = 0 ∧
    (∀ recording diagnostics result,
      host.callbacks = [.record_finished (.ok recording) diagnostics, .wait_finished result] →
      host.pending = [] →
      (main argv host).outcome = .exited EXIT_SUCCESS) := by
  obtain ⟨filename, fs, st, hmain⟩ := main_of_starts_recording argv host h
  refine ⟨?_, rfl, ?_⟩
  · intro code hcode
    rw [hmain] at hcode
    rcases (main_loop_and_shutdown_spec host filename fs st).1 with h1 | h1 | h1 <;>
      rw [h1] at hcode
    · simp at hcode
    · simp at hcode
    · simp only [Outcome.exited.injEq] at hcode
      exact hcode.symm
  · intro recording diagnostics result hcb hpending
    rw [hmain]
    exact main_loop_and_shutdown_after_wait host filename fs st recording diagnostics result
      hcb hpending

/-- The sample run with the failing `wait()` passes its start-up. -/
theorem sample_failed_wait_starts_recording :
    StartsRecording ["muprof", "--", "true"] sample_host_with_failed_wait :=
  ⟨1, { argv := ["muprof"], envs := none, force := false, version := false },
    rfl, rfl, rfl, by decide, Or.inr rfl, by decide⟩

/-- C10, amended, at the run in which `wait()` fails with a genuine session
error. -/
theorem C10_exit_status_is_success_after_start_up_witness :
    StartsRecording ["muprof", "--", "true"] sample_host_with_failed_wait ∧
    ((∀ code, (main ["muprof", "--", "true"] sample_host_with_failed_wait).outcome =
        .exited code → code = EXIT_SUCCESS) ∧
      EXIT_SUCCESS = 0 ∧
      (∀ recording diagnostics result,
        sample_host_with_failed_wait.callbacks =
          [.record_finished (.ok recording) diagnostics, .wait_finished result] →
        sample_host_with_failed_wait.pending = [] →
        (main ["muprof", "--", "true"] sample_host_with_failed_wait).outcome =
          .exited EXIT_SUCCESS)) :=
  ⟨sample_failed_wait_starts_recording,
    C10_exit_status_is_success_after_start_up ["muprof", "--", "true"]
      sample_host_with_failed_wait sample_failed_wait_starts_recording⟩

/-! ### The wait callback, policy acquisition and the record assertions -/

/-- C11: the wait callback prints the failure message exactly when `wait()`
failed with an error whose domain is not `G_SPAWN_EXIT_ERROR`; after a
successful `wait()` and after a failure in the spawn-exit domain it prints
nothing. In all three cases it calls `g_main_loop_quit` exactly once, as the
last thing it does, and touches neither the counter nor the active
recording. -/
theorem C11_wait_callback_reports_only_genuine_errors (result : Except GError Unit)
    (st : Cli) :
    ∃ evs, (sysprof_cli_wait_cb result st).trace = st.trace ++ evs ∧
      evs.count Event.main_loop_quit = 1 ∧
      ((∃ text, Event.printerr text ∈ evs) ↔
        ∃ error, result = .error error ∧ error.domain ≠ G_SPAWN_EXIT_ERROR) ∧
      (result = .ok () → evs = [Event.main_loop_quit]) ∧
      (∀ error, result = .error error → error.domain = G_SPAWN_EXIT_ERROR →
        evs = [Event.main_loop_quit]) ∧
      (∀ error, result = .error error → error.domain ≠ G_SPAWN_EXIT_ERROR →
        evs = [Event.printerr ("Failed to complete recording: " ++ error.message ++ "\n"),
          Event.main_loop_quit]) ∧
      (sysprof_cli_wait_cb result st).running = false ∧
      (sysprof_cli_wait_cb result st).count = st.count ∧
      (sysprof_cli_wait_cb result st).active_recording = st.active_recording := by
  cases result with
  | ok u =>
    refine ⟨[Event.main_loop_quit], ?_, by decide, ?_, ?_, ?_, ?_, rfl, rfl, rfl⟩
    · simp [sysprof_cli_wait_cb, Cli.g_main_loop_quit]
    · simp
    · intro _; rfl
    · intro error h; simp at h
    · intro error h; simp at h
  | error e =>
    by_cases hd : e.domain = G_SPAWN_EXIT_ERROR
    · refine ⟨[Event.main_loop_quit], ?_, by decide, ?_, ?_, ?_, ?_, rfl, ?_, ?_⟩
      · simp [sysprof_cli_wait_cb, Cli.g_main_loop_quit, hd]
      · simp [hd]
      · intro h; simp at h
      · intro error _ _; rfl
      · intro error h hne
        simp only [Except.error.injEq] at h
        subst h
        exact absurd hd hne
      · simp [sysprof_cli_wait_cb, Cli.g_main_loop_quit, hd]
      · simp [sysprof_cli_wait_cb, Cli.g_main_loop_quit, hd]
    · refine ⟨[Event.printerr ("Failed to complete recording: " ++ e.message ++ "\n"),
        Event.main_loop_quit], ?_, ?_, ?_, ?_, ?_, ?_, rfl, ?_, ?_⟩
      · simp [sysprof_cli_wait_cb, Cli.g_main_loop_quit, Cli.g_printerr, hd]
      · simp [List.count_cons]
      · simp [hd]
      · intro h; simp at h
      · intro error h heq
        simp only [Except.error.injEq] at h
        subst h
        exact absurd heq hd
      · intro error h _
        simp only [Except.error.injEq] at h
        subst h
        rfl
      · simp [sysprof_cli_wait_cb, Cli.g_main_loop_quit, Cli.g_printerr, hd]
      · simp [sysprof_cli_wait_cb, Cli.g_main_loop_quit, Cli.g_printerr, hd]

/-- The wait callback on the three kinds of result, from the state of a running
session. -/
theorem wait_callback_sample_runs :
    (sysprof_cli_wait_cb (.ok ()) sample_cli).trace = [Event.main_loop_quit] ∧
    (sysprof_cli_wait_cb
        (.error { domain := G_SPAWN_EXIT_ERROR, code := 1, message := "exited" })
        sample_cli).trace = [Event.main_loop_quit] ∧
    (sysprof_cli_wait_cb (.error sample_session_error) sample_cli).trace =
      [Event.printerr "Failed to complete recording: boom\n", Event.main_loop_quit] := by
  decide

/-- C12: on a non-`NULL` collection and a valid recording,
`_sysprof_instruments_acquire_policy` returns `dex_future_new_for_error` of
exactly the error the connect to the system bus failed with, and
`dex_future_new_for_boolean (TRUE)` when the connect succeeded; it dispatches
to no instrument (the log of dispatches is as before, and the state is the one
the connect left behind). -/
theorem C12_acquire_policy_propagates_connect_error {σ : Type}
    (bus_get : σ → Except GError GDBusConnection × σ)
    (instruments : Array (SysprofInstrument σ)) (recording : GPointer SysprofRecording)
    (w : World σ) (hrec : SYSPROF_IS_RECORDING recording = true) :
    (∀ error, (bus_get w.ext).1 = .error error →
      (_sysprof_instruments_acquire_policy bus_get (some instruments) recording w).1 =
        some (dex_future_new_for_error error)) ∧
    (∀ connection, (bus_get w.ext).1 = .ok connection →
      (_sysprof_instruments_acquire_policy bus_get (some instruments) recording w).1 =
        some (dex_future_new_for_boolean true)) ∧
    (_sysprof_instruments_acquire_policy bus_get (some instruments) recording w).2.calls =
      w.calls ∧
    (_sysprof_instruments_acquire_policy bus_get (some instruments) recording w).2.ext =
      (bus_get w.ext).2 := by
  simp only [_sysprof_instruments_acquire_policy, hrec, Bool.not_true, Bool.false_eq_true,
    if_false]
  cases hb : bus_get w.ext with
  | mk r s =>
    cases r with
    | error e =>
      refine ⟨?_, ?_, rfl, rfl⟩
      · intro error h
        simp only [Except.error.injEq] at h
        subst h
        rfl
      · intro connection h
        simp at h
    | ok c =>
      refine ⟨?_, ?_, rfl, rfl⟩
      · intro error h
        simp at h
      · intro connection _
        rfl

/-- C12 at the sample collection, once with an unreachable and once with a
reachable system bus. -/
theorem C12_acquire_policy_propagates_connect_error_witness :
    SYSPROF_IS_RECORDING sample_recording = true ∧
    ((∀ error, (failing_bus_get sample_world.ext).1 = .error error →
        (_sysprof_instruments_acquire_policy failing_bus_get (some sample_instruments)
          sample_recording sample_world).1 = some (dex_future_new_for_error error)) ∧
      (∀ connection, (failing_bus_get sample_world.ext).1 = .ok connection →
        (_sysprof_instruments_acquire_policy failing_bus_get (some sample_instruments)
          sample_recording sample_world).1 = some (dex_future_new_for_boolean true)) ∧
      (_sysprof_instruments_acquire_policy failing_bus_get (some sample_instruments)
        sample_recording sample_world).2.calls = sample_world.calls ∧
      (_sysprof_instruments_acquire_policy failing_bus_get (some sample_instruments)
        sample_recording sample_world).2.ext = (failing_bus_get sample_world.ext).2) ∧
    _sysprof_instruments_acquire_policy failing_bus_get (some sample_instruments)
        sample_recording sample_world =
      (some (DexFuture.for_error sample_bus_error), { calls := [], ext := 1 }) ∧
    _sysprof_instruments_acquire_policy working_bus_get (some sample_instruments)
        sample_recording sample_world =
      (some (DexFuture.for_boolean true), { calls := [], ext := 1 }) :=
  ⟨rfl,
    C12_acquire_policy_propagates_connect_error failing_bus_get sample_instruments
      sample_recording sample_world rfl,
    rfl, rfl⟩

/-- With a `NULL` cancellable, which the record fan-out lets through, the
dispatch to the first instrument of a non-empty collection fails its
assertion. -/
theorem record_fan_out_aborts_on_null_token {σ : Type}
    (instruments : Array (SysprofInstrument σ)) (recording : GPointer SysprofRecording)
    (w : World σ) (hne : 0 < instruments.size)
    (hrec : SYSPROF_IS_RECORDING recording = true) :
    _sysprof_instruments_record (some instruments) recording GPointer.null w = none := by
  have hsize : instruments.size = (instruments.size - 1) + 1 := by omega
  simp only [_sysprof_instruments_record, hrec, GPointer.isNull, Bool.not_true,
    Bool.false_eq_true, if_false, Bool.true_or]
  rw [hsize, fan_out_loop]
  simp [hne, _sysprof_instrument_record, g_assert, SYSPROF_IS_INSTRUMENT, hrec,
    G_IS_CANCELLABLE]

/-- C15, at the failing input: a collection of one instrument that overrides
nothing, a valid recording and a `NULL` cancellable. The checks of
`_sysprof_instruments_record` accept the token, the base-class default
`sysprof_instrument_real_record` accepts it too, but the assertion
`G_IS_CANCELLABLE (cancellable)` of `_sysprof_instrument_record` fails and the
fan-out aborts. -/
theorem C15_null_token_fails_the_record_assertion :
    ((GPointer.null : GPointer GCancellable).isNull || G_IS_CANCELLABLE GPointer.null) = true ∧
    SYSPROF_IS_RECORDING sample_recording = true ∧
    _sysprof_instrument_record plain_instrument sample_recording GPointer.null sample_world =
      none ∧
    _sysprof_instruments_record (some #[plain_instrument]) sample_recording GPointer.null
      sample_world = none ∧
    sysprof_instrument_real_record 3 sample_recording GPointer.null (0 : Nat) =
      some (DexFuture.for_boolean true, 0) := by
  refine ⟨rfl, rfl, rfl, rfl, rfl⟩

/-! ### The diagnostics feed -/

/-- The loop of `diagnostics_items_changed_cb` on a notification that lies
within the model: it prints the entries from `position + i` up to
`position + added`, in order, and changes nothing else. -/
theorem diagnostics_items_changed_loop_spec (model : List SysprofDiagnostic)
    (position added : Nat) (hlen : model.length < 2 ^ 32)
    (hrange : position + added ≤ model.length) :
    ∀ (fuel i : Nat) (st : Cli), added - i ≤ fuel → i ≤ added →
      diagnostics_items_changed_loop model position added fuel i st =
        { st with
          trace := st.trace ++
            ((model.drop (position + i)).take (added - i)).map diagnostic_report } := by
  intro fuel
  induction fuel with
  | zero =>
    intro i st hfuel hi
    have h0 : added - i = 0 := by omega
    simp [diagnostics_items_changed_loop, h0]
  | succ fuel ih =>
    intro i st hfuel hi
    by_cases hlt : i < added
    · have hpos : position + i < model.length := by omega
      have hmod : (position + i) % 2 ^ 32 = position + i := Nat.mod_eq_of_lt (by omega)
      have hstep : added - i = (added - (i + 1)) + 1 := by omega
      have hdrop : model.drop (position + i) =
          model[position + i] :: model.drop (position + (i + 1)) :=
        List.drop_eq_getElem_cons hpos
      simp only [diagnostics_items_changed_loop, hlt, if_true, hmod]
      rw [ih (i + 1) _ (by omega) (by omega), hstep, hdrop, List.take_succ_cons,
        List.map_cons, List.getElem?_eq_getElem hpos]
      simp [Cli.g_printerr, diagnostic_line, diagnostic_report]
    · have h0 : added - i = 0 := by omega
      simp [diagnostics_items_changed_loop, hlt, h0]

/-- C13: for a diagnostics model of N entries (N fits a `guint`) and a
notification that lies within it, `diagnostics_items_changed_cb` prints exactly
the `added` entries at `position`, `position + 1`, ..., `position + added - 1`,
each once and in this order, whatever `removed` is. When the recording has
started, `sysprof_cli_record_cb` connects the handler and calls it with
`(0, 0, N)`, which prints exactly the N entries the model already holds, before
it starts waiting. -/
theorem C13_notification_reports_added_entries (model : List SysprofDiagnostic)
    (position removed added : Nat) (recording : SysprofRecording) (st : Cli)
    (hlen : model.length < 2 ^ 32) (hrange : position + added ≤ model.length) :
    diagnostics_items_changed_cb model position removed added st =
      { st with
        trace := st.trace ++ ((model.drop position).take added).map diagnostic_report } ∧
    (∀ removed2, diagnostics_items_changed_cb model position removed2 added st =
      diagnostics_items_changed_cb model position removed added st) ∧
    sysprof_cli_record_cb (.ok recording) model st =
      some { (diagnostics_items_changed_cb model 0 0 model.length
          (st.emit .signal_connect_items_changed)).emit (.wait_async recording) with
        active_recording := some recording } ∧
    sysprof_cli_record_cb (.ok recording) model st =
      some { st with
        active_recording := some recording
        trace := st.trace ++ [Event.signal_connect_items_changed] ++
          model.map diagnostic_report ++ [Event.wait_async recording] } := by
  have hcb := diagnostics_items_changed_loop_spec model position added hlen hrange added 0 st
    (by omega) (by omega)
  have hinit := diagnostics_items_changed_loop_spec model 0 model.length hlen (by omega)
    model.length 0 (st.emit .signal_connect_items_changed) (by omega) (by omega)
  refine ⟨?_, fun _ => rfl, rfl, ?_⟩
  · simpa [diagnostics_items_changed_cb] using hcb
  · simp only [sysprof_cli_record_cb, diagnostics_items_changed_cb, hinit]
    simp [Cli.emit]

/-- C13 at a feed of three entries: a notification for the last two, and the
start of a recording whose feed already holds the three. -/
theorem C13_notification_reports_added_entries_witness :
    sample_diagnostics.length < 2 ^ 32 ∧ 1 + 2 ≤ sample_diagnostics.length ∧
    (diagnostics_items_changed_cb sample_diagnostics 1 5 2 sample_cli =
        { sample_cli with
          trace := sample_cli.trace ++
            ((sample_diagnostics.drop 1).take 2).map diagnostic_report } ∧
      (∀ removed2, diagnostics_items_changed_cb sample_diagnostics 1 removed2 2 sample_cli =
        diagnostics_items_changed_cb sample_diagnostics 1 5 2 sample_cli) ∧
      sysprof_cli_record_cb (.ok { id := 7 }) sample_diagnostics sample_cli =
        some { (diagnostics_items_changed_cb sample_diagnostics 0 0 sample_diagnostics.length
            (sample_cli.emit .signal_connect_items_changed)).emit (.wait_async { id := 7 }) with
          active_recording := some { id := 7 } } ∧
      sysprof_cli_record_cb (.ok { id := 7 }) sample_diagnostics sample_cli =
        some { sample_cli with
          active_recording := some { id := 7 }
          trace := sample_cli.trace ++ [Event.signal_connect_items_changed] ++
            sample_diagnostics.map diagnostic_report ++ [Event.wait_async { id := 7 }] }) ∧
    (diagnostics_items_changed_cb sample_diagnostics 1 5 2 sample_cli).trace =
      [Event.printerr "perf: no access\n", Event.printerr "domainB: late\n"] ∧
    (sysprof_cli_record_cb (.ok { id := 7 }) sample_diagnostics sample_cli).map
        (fun st => st.trace) =
      some [Event.signal_connect_items_changed, Event.printerr "domainA: ok\n",
        Event.printerr "perf: no access\n", Event.printerr "domainB: late\n",
        Event.wait_async { id := 7 }] :=
  ⟨by decide, by decide,
    C13_notification_reports_added_entries sample_diagnostics 1 5 2 { id := 7 } sample_cli
      (by decide) (by decide),
    by decide, by decide⟩

/-! ### Signals against the start of the recording -/

/-- The stop requests of a trace that was extended. -/
theorem stop_requests_append (xs ys : List Event) :
    stop_requests (xs ++ ys) = stop_requests xs ++ stop_requests ys := by
  induction xs with
  | nil => rfl
  | cons e es ih => cases e <;> simp [stop_requests, ih]

/-- The loop of `diagnostics_items_changed_cb` only prints. -/
theorem diagnostics_items_changed_loop_prints (model : List SysprofDiagnostic)
    (position added : Nat) :
    ∀ (fuel i : Nat) (st : Cli), ∃ texts : List String,
      diagnostics_items_changed_loop model position added fuel i st =
        { st with trace := st.trace ++ texts.map Event.printerr } := by
  intro fuel
  induction fuel with
  | zero => intro i st; exact ⟨[], by simp [diagnostics_items_changed_loop]⟩
  | succ fuel ih =>
    intro i st
    by_cases hlt : i < added
    · obtain ⟨texts, h⟩ := ih (i + 1)
        (st.g_printerr (diagnostic_line model[(position + i) % 2 ^ 32]?))
      refine ⟨diagnostic_line model[(position + i) % 2 ^ 32]? :: texts, ?_⟩
      simp only [diagnostics_items_changed_loop, hlt, if_true, h]
      simp [Cli.g_printerr]
    · exact ⟨[], by simp [diagnostics_items_changed_loop, hlt]⟩

/-- Printing requests no stop. -/
theorem stop_requests_printerr (texts : List String) :
    stop_requests (texts.map Event.printerr) = [] := by
  induction texts with
  | nil => rfl
  | cons t ts ih => simpa [stop_requests] using ih

/-- A callback that is not a signal requests no stop and leaves the counter of
the signal handler alone. -/
theorem dispatch_not_signal (cb : Callback) (st st2 : Cli) (hcb : cb.isSignal = false)
    (h : dispatch cb st = some st2) :
    st2.count = st.count ∧ stop_requests st2.trace = stop_requests st.trace := by
  cases cb with
  | signal sig => simp [Callback.isSignal] at hcb
  | record_finished result diagnostics =>
    cases result with
    | error e => simp [dispatch, sysprof_cli_record_cb] at h
    | ok recording =>
      obtain ⟨texts, hl⟩ := diagnostics_items_changed_loop_prints diagnostics 0
        diagnostics.length diagnostics.length 0 (st.emit .signal_connect_items_changed)
      simp only [dispatch, sysprof_cli_record_cb, diagnostics_items_changed_cb, hl,
        Option.some.injEq] at h
      subst h
      simp [Cli.emit, stop_requests_append, stop_requests_printerr, stop_requests]
  | wait_finished result =>
    simp only [dispatch, Option.some.injEq] at h
    subst h
    cases result with
    | ok u => simp [sysprof_cli_wait_cb, Cli.g_main_loop_quit, stop_requests_append,
        stop_requests]
    | error e =>
      by_cases hd : e.domain = G_SPAWN_EXIT_ERROR <;>
        simp [sysprof_cli_wait_cb, Cli.g_main_loop_quit, Cli.g_printerr, hd,
          stop_requests_append, stop_requests]
  | items_changed model position removed added =>
    obtain ⟨texts, hl⟩ := diagnostics_items_changed_loop_prints model position added added 0 st
    simp only [dispatch, diagnostics_items_changed_cb, hl, Option.some.injEq] at h
    subst h
    simp [stop_requests_append, stop_requests_printerr]

/-- A callback that is neither a signal nor the start of the recording leaves
the active recording alone. -/
theorem dispatch_keeps_active_recording (cb : Callback) (st st2 : Cli)
    (hsig : cb.isSignal = false) (hrec : cb.isRecordFinished = false)
    (h : dispatch cb st = some st2) : st2.active_recording = st.active_recording := by
  cases cb with
  | signal sig => simp [Callback.isSignal] at hsig
  | record_finished result diagnostics => simp [Callback.isRecordFinished] at hrec
  | wait_finished result =>
    simp only [dispatch, Option.some.injEq] at h
    subst h
    cases result with
    | ok u => rfl
    | error e =>
      by_cases hd : e.domain = G_SPAWN_EXIT_ERROR <;>
        simp [sysprof_cli_wait_cb, Cli.g_main_loop_quit, Cli.g_printerr, hd]
  | items_changed model position removed added =>
    obtain ⟨texts, hl⟩ := diagnostics_items_changed_loop_prints model position added added 0 st
    simp only [dispatch, diagnostics_items_changed_cb, hl, Option.some.injEq] at h
    subst h
    rfl

/-- The first signal: the handler requests stop on what `active_recording`
holds, and the counter goes to one. -/
theorem dispatch_first_signal (sig : Signal) (st st2 : Cli) (h0 : st.count = 0)
    (h : dispatch (.signal sig) st = some st2) :
    st2.count = 1 ∧
      stop_requests st2.trace = stop_requests st.trace ++ [st.active_recording] := by
  simp only [dispatch, signal_source, Option.some.injEq] at h
  subst h
  rw [sigint_handler_below_two st (by omega)]
  simp [h0, stop_requests_append, stop_requests]

/-- Once the counter has left zero, no callback requests stop and the counter
stays away from zero. -/
theorem dispatch_after_first_signal (cb : Callback) (st st2 : Cli) (h1 : 1 ≤ st.count)
    (h : dispatch cb st = some st2) :
    1 ≤ st2.count ∧ stop_requests st2.trace = stop_requests st.trace := by
  cases hcb : cb.isSignal with
  | false =>
    obtain ⟨hc, hs⟩ := dispatch_not_signal cb st st2 hcb h
    exact ⟨by omega, hs⟩
  | true =>
    cases cb with
    | signal sig =>
      simp only [dispatch, signal_source, Option.some.injEq] at h
      subst h
      by_cases hlt : st.count < 2
      · have hne : ¬ st.count = 0 := by omega
        rw [sigint_handler_below_two st hlt]
        simp only [hne, if_false]
        refine ⟨by simp; omega, ?_⟩
        simp [stop_requests_append, stop_requests]
      · rw [sigint_handler_from_two st (by omega)]
        refine ⟨by simpa [Cli.g_main_loop_quit] using h1, ?_⟩
        simp [Cli.g_main_loop_quit, stop_requests_append, stop_requests]
    | record_finished result diagnostics => simp [Callback.isSignal] at hcb
    | wait_finished result => simp [Callback.isSignal] at hcb
    | items_changed model position removed added => simp [Callback.isSignal] at hcb

/-- Dispatching a list of callbacks that was split in two. -/
theorem dispatch_all_append (xs ys : List Callback) (st : Cli) :
    dispatch_all (xs ++ ys) st = (dispatch_all xs st).bind (dispatch_all ys) := by
  induction xs generalizing st with
  | nil => rfl
  | cons cb rest ih =>
    simp only [List.cons_append, dispatch_all]
    cases dispatch cb st with
    | none => rfl
    | some st2 => exact ih st2

/-- Callbacks other than signals request no stop. -/
theorem dispatch_all_not_signal (cbs : List Callback) (st st2 : Cli)
    (hcbs : ∀ cb ∈ cbs, cb.isSignal = false) (h : dispatch_all cbs st = some st2) :
    st2.count = st.count ∧ stop_requests st2.trace = stop_requests st.trace := by
  induction cbs generalizing st with
  | nil =>
    simp only [dispatch_all, Option.some.injEq] at h
    subst h
    exact ⟨rfl, rfl⟩
  | cons cb rest ih =>
    simp only [dispatch_all] at h
    cases hd : dispatch cb st with
    | none => simp [hd] at h
    | some st1 =>
      rw [hd] at h
      obtain ⟨hc1, hs1⟩ := dispatch_not_signal cb st st1 (hcbs cb (List.mem_cons_self _ _)) hd
      obtain ⟨hc2, hs2⟩ := ih st1 (fun x hx => hcbs x (List.mem_cons_of_mem _ hx)) h
      exact ⟨by omega, by rw [hs2, hs1]⟩

/-- Callbacks other than signals and the start of the recording leave the
active recording alone. -/
theorem dispatch_all_keeps_active_recording (cbs : List Callback) (st st2 : Cli)
    (hcbs : ∀ cb ∈ cbs, cb.isSignal = false ∧ cb.isRecordFinished = false)
    (h : dispatch_all cbs st = some st2) : st2.active_recording = st.active_recording := by
  induction cbs generalizing st with
  | nil =>
    simp only [dispatch_all, Option.some.injEq] at h
    subst h
    rfl
  | cons cb rest ih =>
    simp only [dispatch_all] at h
    cases hd : dispatch cb st with
    | none => simp [hd] at h
    | some st1 =>
      rw [hd] at h
      have hcb := hcbs cb (List.mem_cons_self _ _)
      rw [ih st1 (fun x hx => hcbs x (List.mem_cons_of_mem _ hx)) h,
        dispatch_keeps_active_recording cb st st1 hcb.1 hcb.2 hd]

/-- After the first signal, no list of callbacks requests stop. -/
theorem dispatch_all_after_first_signal (cbs : List Callback) (st st2 : Cli)
    (h1 : 1 ≤ st.count) (h : dispatch_all cbs st = some st2) :
    stop_requests st2.trace = stop_requests st.trace := by
  induction cbs generalizing st with
  | nil =>
    simp only [dispatch_all, Option.some.injEq] at h
    subst h
    rfl
  | cons cb rest ih =>
    simp only [dispatch_all] at h
    cases hd : dispatch cb st with
    | none => simp [hd] at h
    | some st1 =>
      rw [hd] at h
      obtain ⟨hc1, hs1⟩ := dispatch_after_first_signal cb st st1 h1 hd
      rw [ih st1 hc1 h, hs1]

/-- A list of callbacks holds no signal, or it has a first one. -/
theorem first_signal_split (cbs : List Callback) :
    (∀ cb ∈ cbs, cb.isSignal = false) ∨
      ∃ before sig after, cbs = before ++ Callback.signal sig :: after ∧
        ∀ cb ∈ before, cb.isSignal = false := by
  induction cbs with
  | nil => exact Or.inl (by simp)
  | cons cb rest ih =>
    cases hcb : cb.isSignal with
    | true =>
      cases cb with
      | signal sig => exact Or.inr ⟨[], sig, rest, rfl, by simp⟩
      | record_finished result diagnostics => simp [Callback.isSignal] at hcb
      | wait_finished result => simp [Callback.isSignal] at hcb
      | items_changed model position removed added => simp [Callback.isSignal] at hcb
    | false =>
      rcases ih with h | ⟨before, sig, after, hsplit, hbefore⟩
      · refine Or.inl ?_
        intro x hx
        rcases List.mem_cons.1 hx with rfl | hx
        · exact hcb
        · exact h x hx
      · refine Or.inr ⟨cb :: before, sig, after, by rw [hsplit]; rfl, ?_⟩
        intro x hx
        rcases List.mem_cons.1 hx with rfl | hx
        · exact hcb
        · exact hbefore x hx

/-- What a run with a first signal requests stop on. -/
theorem stop_requests_with_first_signal (before after : List Callback) (sig : Signal)
    (st st2 : Cli) (h0 : st.count = 0) (hbefore : ∀ cb ∈ before, cb.isSignal = false)
    (hrun : dispatch_all (before ++ Callback.signal sig :: after) st = some st2) :
    ∃ mid, dispatch_all before st = some mid ∧
      stop_requests st2.trace = stop_requests st.trace ++ [mid.active_recording] := by
  rw [dispatch_all_append] at hrun
  cases hmid : dispatch_all before st with
  | none => simp [hmid] at hrun
  | some mid =>
    rw [hmid] at hrun
    simp only [Option.some_bind, dispatch_all] at hrun
    obtain ⟨hc, hs⟩ := dispatch_all_not_signal before st mid hbefore hmid
    cases hd : dispatch (.signal sig) mid with
    | none => simp [hd] at hrun
    | some st1 =>
      rw [hd] at hrun
      obtain ⟨hc1, hs1⟩ := dispatch_first_signal sig mid st1 (by omega) hd
      refine ⟨mid, rfl, ?_⟩
      rw [dispatch_all_after_first_signal after st1 st2 (by omega) hrun, hs1, hs]

/-- C16: take any sequence of callbacks (signals, the start of the recording,
the end of `wait`, diagnostics notifications) dispatched from a state in which
no signal has arrived yet. Stop is requested at most once; a run without a
signal requests none; a run with signals requests exactly one, at the first
signal, on what `active_recording` holds at that moment. So when the first
signal comes before the recording was stored (`active_recording` is `NULL`),
the one stop request is on `NULL`, and nothing later, neither the start of the
recording nor further signals, requests stop on the recording that becomes
active. -/
theorem C16_stop_requested_once_on_first_signal (cbs : List Callback) (st st2 : Cli)
    (h0 : st.count = 0) (hrun : dispatch_all cbs st = some st2) :
    (stop_requests st2.trace).length ≤ (stop_requests st.trace).length + 1 ∧
    ((∀ cb ∈ cbs, cb.isSignal = false) →
      stop_requests st2.trace = stop_requests st.trace) ∧
    (∀ before sig after, cbs = before ++ Callback.signal sig :: after →
      (∀ cb ∈ before, cb.isSignal = false) →
      ∃ mid, dispatch_all before st = some mid ∧
        stop_requests st2.trace = stop_requests st.trace ++ [mid.active_recording]) ∧
    (∀ before sig after, cbs = before ++ Callback.signal sig :: after →
      (∀ cb ∈ before, cb.isSignal = false ∧ cb.isRecordFinished = false) →
      st.active_recording = none →
      stop_requests st2.trace = stop_requests st.trace ++ [none]) := by
  have hsplit : ∀ before sig after, cbs = before ++ Callback.signal sig :: after →
      (∀ cb ∈ before, cb.isSignal = false) →
      ∃ mid, dispatch_all before st = some mid ∧
        stop_requests st2.trace = stop_requests st.trace ++ [mid.active_recording] := by
    intro before sig after hcbs hbefore
    rw [hcbs] at hrun
    exact stop_requests_with_first_signal before after sig st st2 h0 hbefore hrun
  refine ⟨?_, ?_, hsplit, ?_⟩
  · rcases first_signal_split cbs with h | ⟨before, sig, after, hcbs, hbefore⟩
    · rw [(dispatch_all_not_signal cbs st st2 h hrun).2]
      omega
    · obtain ⟨mid, _, hs⟩ := hsplit before sig after hcbs hbefore
      rw [hs]
      simp
  · intro h
    exact (dispatch_all_not_signal cbs st st2 h hrun).2
  · intro before sig after hcbs hbefore hnull
    obtain ⟨mid, hmid, hs⟩ := hsplit before sig after hcbs (fun cb hcb => (hbefore cb hcb).1)
    rw [hs, dispatch_all_keeps_active_recording before st mid hbefore hmid, hnull]

/-! ### The fences of `WPEBufferAndroid` -/

/-- C14: for a `WPEBufferAndroid` and each of its two fences: a new buffer
reads `-1`; after `set (fd)` the getter reads `fd`; `take` returns the stored
descriptor (which is `-1` when none is set), closes nothing, and leaves `-1`
for the getter; and `set (fd)` with the descriptor that is already stored
changes nothing: the buffer is as before and no descriptor is closed. -/
theorem C14_fence_accessors (b : WPEBufferAndroid) (ahb : Nat) (fd : Int) (closed : List Int) :
    (wpe_buffer_android_get_rendering_fence (.object (wpe_buffer_android_new_take ahb)) = -1 ∧
      wpe_buffer_android_get_rendering_fence
        (wpe_buffer_android_set_rendering_fence (.object b) fd closed).1 = fd ∧
      (wpe_buffer_android_take_rendering_fence (.object b)).1 =
        wpe_buffer_android_get_rendering_fence (.object b) ∧
      wpe_buffer_android_get_rendering_fence
        (wpe_buffer_android_take_rendering_fence (.object b)).2 = -1 ∧
      (wpe_buffer_android_get_rendering_fence (.object b) = fd →
        wpe_buffer_android_set_rendering_fence (.object b) fd closed = (.object b, closed))) ∧
    (wpe_buffer_android_get_release_fence (.object (wpe_buffer_android_new_take ahb)) = -1 ∧
      wpe_buffer_android_get_release_fence
        (wpe_buffer_android_set_release_fenc (.object b) fd closed).1 = fd ∧
      (wpe_buffer_android_take_release_fence (.object b)).1 =
        wpe_buffer_android_get_release_fence (.object b) ∧
      wpe_buffer_android_get_release_fence
        (wpe_buffer_android_take_release_fence (.object b)).2 = -1 ∧
      (wpe_buffer_android_get_release_fence (.object b) = fd →
        wpe_buffer_android_set_release_fenc (.object b) fd closed = (.object b, closed))) := by
  refine ⟨⟨rfl, ?_, rfl, rfl, ?_⟩, ⟨rfl, ?_, rfl, rfl, ?_⟩⟩
  · by_cases h : b.priv.renderingFence.m_value = fd
    · simp [wpe_buffer_android_set_rendering_fence, wpe_buffer_android_get_rendering_fence,
        UnixFileDescriptor.value, h]
    · simp [wpe_buffer_android_set_rendering_fence, wpe_buffer_android_get_rendering_fence, h,
        UnixFileDescriptor.assign, UnixFileDescriptor.adopt, UnixFileDescriptor.value]
  · intro h
    have h2 : b.priv.renderingFence.value = fd := h
    simp [wpe_buffer_android_set_rendering_fence, h2]
  · by_cases h : b.priv.releaseFence.m_value = fd
    · simp [wpe_buffer_android_set_release_fenc, wpe_buffer_android_get_release_fence,
        UnixFileDescriptor.value, h]
    · simp [wpe_buffer_android_set_release_fenc, wpe_buffer_android_get_release_fence, h,
        UnixFileDescriptor.assign, UnixFileDescriptor.adopt, UnixFileDescriptor.value]
  · intro h
    have h2 : b.priv.releaseFence.value = fd := h
    simp [wpe_buffer_android_set_release_fenc, h2]

/-- The rendering fence of a new buffer through set, set again, set another,
take: the values read and the descriptors closed on the way. -/
theorem fence_sample_run :
    wpe_buffer_android_set_rendering_fence (.object (wpe_buffer_android_new_take 1)) 7 [] =
      (.object sample_fenced_buffer, []) ∧
    wpe_buffer_android_set_rendering_fence
        (wpe_buffer_android_set_rendering_fence (.object (wpe_buffer_android_new_take 1))
          7 []).1 7 [] =
      wpe_buffer_android_set_rendering_fence (.object (wpe_buffer_android_new_take 1)) 7 [] ∧
    (wpe_buffer_android_set_rendering_fence
        (wpe_buffer_android_set_rendering_fence (.object (wpe_buffer_android_new_take 1))
          7 []).1 9 []).2 = [7] ∧
    wpe_buffer_android_take_rendering_fence
        (wpe_buffer_android_set_rendering_fence (.object (wpe_buffer_android_new_take 1))
          7 []).1 =
      (7, .object (wpe_buffer_android_new_take 1)) ∧
    wpe_buffer_android_take_rendering_fence (.object (wpe_buffer_android_new_take 1)) =
      (-1, .object (wpe_buffer_android_new_take 1)) := by
  decide

/-! ### The icon loading client -/

/-- The count of `finishedLoadingIcons` over a trace that was extended. -/
theorem finished_count_append (xs ys : List IconEvent) :
    finished_count (xs ++ ys) = finished_count xs + finished_count ys := by
  induction xs with
  | nil => simp [finished_count]
  | cons e es ih =>
    cases e <;> simp [finished_count, ih]
    omega

/-- The completion handler calls of a trace that was extended. -/
theorem completion_calls_append (xs ys : List IconEvent) :
    completion_calls (xs ++ ys) = completion_calls xs ++ completion_calls ys := by
  induction xs with
  | nil => rfl
  | cons e es ih => cases e <;> simp [completion_calls, ih]

/-- One call of `iconLoaded`: the identifier leaves the pending set, and
`finishedLoadingIcons` runs exactly when the set is empty then; no completion
handler is called. -/
theorem iconLoaded_spec (c : IconLoadingClient) (id : CallbackID) (icon : LinkIcon)
    (iconData : Nat) :
    (c.iconLoaded id icon iconData).m_pendingIcons = c.m_pendingIcons.erase id ∧
    finished_count (c.iconLoaded id icon iconData).trace =
      finished_count c.trace + (if c.m_pendingIcons.erase id = ∅ then 1 else 0) ∧
    completion_calls (c.iconLoaded id icon iconData).trace = completion_calls c.trace := by
  by_cases h : c.m_pendingIcons.erase id = ∅
  · simp [IconLoadingClient.iconLoaded, IconLoadingClient.emit,
      IconLoadingClient.finishedLoadingIcons, h, finished_count_append, finished_count,
      completion_calls_append, completion_calls]
  · simp [IconLoadingClient.iconLoaded, IconLoadingClient.emit, h, finished_count_append,
      finished_count, completion_calls_append, completion_calls]

/-- A sequence of `iconLoaded` calls with distinct identifiers out of a
non-empty pending set: the identifiers leave the set, `finishedLoadingIcons`
runs once if they are all of the set and not at all otherwise, and no
completion handler is called. -/
theorem iconsLoaded_spec (loads : List (CallbackID × LinkIcon × Nat)) (c : IconLoadingClient)
    (hne : c.m_pendingIcons ≠ ∅) (hnodup : (loads.map (fun l => l.1)).Nodup)
    (hmem : ∀ id ∈ loads.map (fun l => l.1), id ∈ c.m_pendingIcons) :
    (c.iconsLoaded loads).m_pendingIcons =
      c.m_pendingIcons \ (loads.map (fun l => l.1)).toFinset ∧
    finished_count (c.iconsLoaded loads).trace =
      finished_count c.trace +
        (if c.m_pendingIcons ⊆ (loads.map (fun l => l.1)).toFinset then 1 else 0) ∧
    completion_calls (c.iconsLoaded loads).trace = completion_calls c.trace := by
  induction loads generalizing c with
  | nil =>
    have h : ¬ c.m_pendingIcons ⊆ ∅ := fun hs => hne (Finset.subset_empty.1 hs)
    simp [IconLoadingClient.iconsLoaded, h]
  | cons l rest ih =>
    obtain ⟨id, icon, iconData⟩ := l
    obtain ⟨hp, hf, hc⟩ := iconLoaded_spec c id icon iconData
    simp only [List.map_cons, List.nodup_cons] at hnodup
    obtain ⟨hnotin, hrest⟩ := hnodup
    simp only [List.map_cons, List.mem_cons, forall_eq_or_imp] at hmem
    obtain ⟨hid, hmem⟩ := hmem
    simp only [IconLoadingClient.iconsLoaded, List.map_cons, List.toFinset_cons]
    by_cases hempty : c.m_pendingIcons.erase id = ∅
    · have hall : ∀ x ∈ c.m_pendingIcons, x = id := by
        intro x hx
        by_contra hxne
        have : x ∈ c.m_pendingIcons.erase id := Finset.mem_erase.2 ⟨hxne, hx⟩
        rw [hempty] at this
        exact absurd this (Finset.not_mem_empty x)
      have hrestnil : rest = [] := by
        cases rest with
        | nil => rfl
        | cons r rs =>
          exfalso
          apply hnotin
          have hr : r.1 ∈ c.m_pendingIcons := hmem r.1 (by simp)
          rw [← hall r.1 hr]
          simp
      subst hrestnil
      have hsub : c.m_pendingIcons ⊆ insert id (∅ : Finset CallbackID) := by
        intro x hx
        rw [hall x hx]
        simp
      simp only [IconLoadingClient.iconsLoaded, List.map_nil, List.toFinset_nil, hp, hf, hc,
        hempty, if_true, hsub]
      refine ⟨?_, trivial, trivial⟩
      apply Eq.symm
      apply Finset.sdiff_eq_empty_iff_subset.2 hsub
    · have hmem2 : ∀ x ∈ rest.map (fun l => l.1),
          x ∈ (c.iconLoaded id icon iconData).m_pendingIcons := by
        intro x hx
        rw [hp]
        refine Finset.mem_erase.2 ⟨?_, hmem x hx⟩
        intro hxid
        exact hnotin (hxid ▸ hx)
      obtain ⟨hp2, hf2, hc2⟩ := ih (c.iconLoaded id icon iconData) (by rw [hp]; exact hempty)
        hrest hmem2
      rw [hp2, hf2, hc2, hp, hf, hc]
      simp only [hempty, if_false, Nat.add_zero]
      refine ⟨?_, ?_, trivial⟩
      · ext x
        simp only [Finset.mem_sdiff, Finset.mem_erase, Finset.mem_insert, List.mem_toFinset]
        tauto
      · have hiff : c.m_pendingIcons.erase id ⊆ (rest.map (fun l => l.1)).toFinset ↔
            c.m_pendingIcons ⊆ insert id (rest.map (fun l => l.1)).toFinset :=
          Finset.subset_insert_iff.symm
        by_cases hs : c.m_pendingIcons ⊆ insert id (rest.map (fun l => l.1)).toFinset
        · simp [hs, hiff.2 hs]
        · have hs2 : ¬ c.m_pendingIcons.erase id ⊆ (rest.map (fun l => l.1)).toFinset :=
            fun h => hs (hiff.1 h)
          simp [hs, hs2]

/-- C17: with the web view alive, a load decision (the call of
`getLoadDecisionForIcons` and then its callback) with no identifier runs
`finishedLoadingIcons` once and leaves the pending set empty; a load decision
with a non-empty set `S` makes `S` the pending set and does not run it. Each
`iconLoaded` removes its identifier and runs `finishedLoadingIcons` exactly when
the pending set is empty then; so after the decision for `S`, a sequence of
`iconLoaded` calls with distinct identifiers of `S` runs it once when the
sequence holds all of `S`, on its last call and not before, and not at all
while identifiers of `S` are missing. The completion handler of the decision is
called exactly once, with the decided identifiers, and `iconLoaded` never calls
it. When the web view is gone, the callback changes nothing and calls no
completion handler. The callback on its own, from any state: for no identifier
it runs `finishedLoadingIcons` once and keeps the pending set, for `S` it
stores `S` and does not run it. -/
theorem C17_icon_loading_client_pending_set (client : IconLoadingClient)
    (icons : List (CallbackID × LinkIcon)) (handler : Nat) (S : Finset CallbackID)
    (loads : List (CallbackID × LinkIcon × Nat)) (hS : S ≠ ∅)
    (hnodup : (loads.map (fun l => l.1)).Nodup)
    (hmem : ∀ id ∈ loads.map (fun l => l.1), id ∈ S) :
    ((client.loadDecision icons handler true ∅).m_pendingIcons = ∅ ∧
      (client.loadDecision icons handler true ∅).trace =
        (client.getLoadDecisionForIcons icons handler).trace ++
          [IconEvent.log "WKILC::finishedLoadingIcons!",
            IconEvent.webkitWebViewUpdatePageIcons client.m_webView,
            IconEvent.completionHandler handler ∅]) ∧
    ((client.loadDecision icons handler true S).m_pendingIcons = S ∧
      (client.loadDecision icons handler true S).trace =
        (client.getLoadDecisionForIcons icons handler).trace ++
          [IconEvent.completionHandler handler S]) ∧
    (∀ (c : IconLoadingClient) id icon iconData,
      (c.iconLoaded id icon iconData).m_pendingIcons = c.m_pendingIcons.erase id ∧
      finished_count (c.iconLoaded id icon iconData).trace =
        finished_count c.trace + (if c.m_pendingIcons.erase id = ∅ then 1 else 0)) ∧
    (finished_count ((client.loadDecision icons handler true S).iconsLoaded loads).trace =
        finished_count (client.loadDecision icons handler true S).trace +
          (if S ⊆ (loads.map (fun l => l.1)).toFinset then 1 else 0) ∧
      ((client.loadDecision icons handler true S).iconsLoaded loads).m_pendingIcons =
        S \ (loads.map (fun l => l.1)).toFinset) ∧
    (∀ init last, loads = init ++ [last] →
      finished_count ((client.loadDecision icons handler true S).iconsLoaded init).trace =
        finished_count (client.loadDecision icons handler true S).trace) ∧
    (completion_calls (client.loadDecision icons handler true ∅).trace =
        completion_calls client.trace ++ [(handler, ∅)] ∧
      completion_calls ((client.loadDecision icons handler true S).iconsLoaded loads).trace =
        completion_calls client.trace ++ [(handler, S)]) ∧
    (∀ (c : IconLoadingClient) loadIdentifiers,
      (c.loadDecisionCallback handler false loadIdentifiers).m_pendingIcons =
        c.m_pendingIcons ∧
      (c.loadDecisionCallback handler false loadIdentifiers).trace =
        c.trace ++ [IconEvent.log "WKILC: weakWebView disappeared!"]) ∧
    (∀ c : IconLoadingClient,
      (c.loadDecisionCallback handler true ∅).m_pendingIcons = c.m_pendingIcons ∧
      finished_count (c.loadDecisionCallback handler true ∅).trace =
        finished_count c.trace + 1 ∧
      (c.loadDecisionCallback handler true S).m_pendingIcons = S ∧
      finished_count (c.loadDecisionCallback handler true S).trace =
        finished_count c.trace) := by
  have hpend : (client.loadDecision icons handler true S).m_pendingIcons = S := by
    simp [IconLoadingClient.loadDecision, IconLoadingClient.loadDecisionCallback,
      IconLoadingClient.emit, hS]
  have hseq := iconsLoaded_spec loads (client.loadDecision icons handler true S)
    (by rw [hpend]; exact hS) hnodup (by rw [hpend]; exact hmem)
  rw [hpend] at hseq
  obtain ⟨hp, hf, hc⟩ := hseq
  refine ⟨⟨?_, ?_⟩, ⟨hpend, ?_⟩, ?_, ⟨hf, hp⟩, ?_, ⟨?_, ?_⟩, ?_, ?_⟩
  · simp [IconLoadingClient.loadDecision, IconLoadingClient.loadDecisionCallback,
      IconLoadingClient.getLoadDecisionForIcons, IconLoadingClient.finishedLoadingIcons,
      IconLoadingClient.emit]
  · simp [IconLoadingClient.loadDecision, IconLoadingClient.loadDecisionCallback,
      IconLoadingClient.getLoadDecisionForIcons, IconLoadingClient.finishedLoadingIcons,
      IconLoadingClient.emit]
  · simp [IconLoadingClient.loadDecision, IconLoadingClient.loadDecisionCallback,
      IconLoadingClient.emit, hS]
  · intro c id icon iconData
    exact ⟨(iconLoaded_spec c id icon iconData).1, (iconLoaded_spec c id icon iconData).2.1⟩
  · intro init last hloads
    rw [hloads, List.map_append, List.nodup_append] at hnodup
    obtain ⟨hinit, _, hdisj⟩ := hnodup
    have hmeminit : ∀ id ∈ init.map (fun l => l.1), id ∈ S := by
      intro id hid
      apply hmem
      rw [hloads, List.map_append]
      exact List.mem_append_left _ hid
    have hlast : last.1 ∈ S := by
      apply hmem
      rw [hloads, List.map_append]
      exact List.mem_append_right _ (by simp)
    have hnot : ¬ S ⊆ (init.map (fun l => l.1)).toFinset := by
      intro hsub
      have h1 : last.1 ∈ init.map (fun l => l.1) := List.mem_toFinset.1 (hsub hlast)
      exact hdisj h1 (by simp)
    have hseq2 := iconsLoaded_spec init (client.loadDecision icons handler true S)
      (by rw [hpend]; exact hS) hinit (by rw [hpend]; exact hmeminit)
    rw [hpend] at hseq2
    rw [hseq2.2.1]
    simp [hnot]
  · simp [IconLoadingClient.loadDecision, IconLoadingClient.loadDecisionCallback,
      IconLoadingClient.getLoadDecisionForIcons, IconLoadingClient.finishedLoadingIcons,
      IconLoadingClient.emit, completion_calls_append, completion_calls]
  · rw [hc]
    simp [IconLoadingClient.loadDecision, IconLoadingClient.loadDecisionCallback,
      IconLoadingClient.getLoadDecisionForIcons, IconLoadingClient.emit, hS,
      completion_calls_append, completion_calls]
  · intro c loadIdentifiers
    simp [IconLoadingClient.loadDecisionCallback, IconLoadingClient.emit]
  · intro c
    simp [IconLoadingClient.loadDecisionCallback, IconLoadingClient.emit,
      IconLoadingClient.finishedLoadingIcons, hS, finished_count_append, finished_count]

/-- C16 at a run in which the first signal comes before the recording has
started: the one stop request is on `NULL`, although a recording becomes active
and two more signals follow. -/
theorem C16_stop_requested_once_on_first_signal_witness :
    Cli.initial.count = 0 ∧
    dispatch_all sample_early_signal Cli.initial = some sample_early_signal_end ∧
    ((stop_requests sample_early_signal_end.trace).length ≤ (stop_requests Cli.initial.trace).length + 1 ∧
      ((∀ cb ∈ sample_early_signal, cb.isSignal = false) →
        stop_requests sample_early_signal_end.trace = stop_requests Cli.initial.trace) ∧
      (∀ before sig after, sample_early_signal = before ++ Callback.signal sig :: after →
        (∀ cb ∈ before, cb.isSignal = false) →
        ∃ mid, dispatch_all before Cli.initial = some mid ∧
          stop_requests sample_early_signal_end.trace = stop_requests Cli.initial.trace ++ [mid.active_recording]) ∧
      (∀ before sig after, sample_early_signal = before ++ Callback.signal sig :: after →
        (∀ cb ∈ before, cb.isSignal = false ∧ cb.isRecordFinished = false) →
        Cli.initial.active_recording = none →
        stop_requests sample_early_signal_end.trace = stop_requests Cli.initial.trace ++ [none])) ∧
    stop_requests sample_early_signal_end.trace = [none] ∧
    sample_early_signal_end.active_recording = some { id := 7 } :=
  ⟨rfl, by decide,
    C16_stop_requested_once_on_first_signal sample_early_signal Cli.initial
      sample_early_signal_end rfl (by decide),
    by decide, rfl⟩

/-- C17 at a decision for two icons that are then loaded, the second first;
`finishedLoadingIcons` has not run after the first load and has run once after
the second. -/
theorem C17_icon_loading_client_pending_set_witness :
    sample_decided ≠ ∅ ∧
    (sample_loads.map (fun l => l.1)).Nodup ∧
    (∀ id ∈ sample_loads.map (fun l => l.1), id ∈ sample_decided) ∧
    (((sample_icon_client.loadDecision sample_icons 5 true ∅).m_pendingIcons = ∅ ∧
        (sample_icon_client.loadDecision sample_icons 5 true ∅).trace =
          (sample_icon_client.getLoadDecisionForIcons sample_icons 5).trace ++
            [IconEvent.log "WKILC::finishedLoadingIcons!",
              IconEvent.webkitWebViewUpdatePageIcons sample_icon_client.m_webView,
              IconEvent.completionHandler 5 ∅]) ∧
      ((sample_icon_client.loadDecision sample_icons 5 true sample_decided).m_pendingIcons = sample_decided ∧
        (sample_icon_client.loadDecision sample_icons 5 true sample_decided).trace =
          (sample_icon_client.getLoadDecisionForIcons sample_icons 5).trace ++
            [IconEvent.completionHandler 5 sample_decided]) ∧
      (∀ (c : IconLoadingClient) id icon iconData,
        (c.iconLoaded id icon iconData).m_pendingIcons = c.m_pendingIcons.erase id ∧
        finished_count (c.iconLoaded id icon iconData).trace =
          finished_count c.trace + (if c.m_pendingIcons.erase id = ∅ then 1 else 0)) ∧
      (finished_count ((sample_icon_client.loadDecision sample_icons 5 true sample_decided).iconsLoaded sample_loads).trace =
          finished_count (sample_icon_client.loadDecision sample_icons 5 true sample_decided).trace +
            (if sample_decided ⊆ (sample_loads.map (fun l => l.1)).toFinset then 1 else 0) ∧
        ((sample_icon_client.loadDecision sample_icons 5 true sample_decided).iconsLoaded sample_loads).m_pendingIcons =
          sample_decided \ (sample_loads.map (fun l => l.1)).toFinset) ∧
      (∀ init last, sample_loads = init ++ [last] →
        finished_count ((sample_icon_client.loadDecision sample_icons 5 true sample_decided).iconsLoaded init).trace =
          finished_count (sample_icon_client.loadDecision sample_icons 5 true sample_decided).trace) ∧
      (completion_calls (sample_icon_client.loadDecision sample_icons 5 true ∅).trace =
          completion_calls sample_icon_client.trace ++ [(5, ∅)] ∧
        completion_calls ((sample_icon_client.loadDecision sample_icons 5 true sample_decided).iconsLoaded sample_loads).trace =
          completion_calls sample_icon_client.trace ++ [(5, sample_decided)]) ∧
      (∀ (c : IconLoadingClient) loadIdentifiers,
        (c.loadDecisionCallback 5 false loadIdentifiers).m_pendingIcons =
          c.m_pendingIcons ∧
        (c.loadDecisionCallback 5 false loadIdentifiers).trace =
          c.trace ++ [IconEvent.log "WKILC: weakWebView disappeared!"]) ∧
      (∀ c : IconLoadingClient,
        (c.loadDecisionCallback 5 true ∅).m_pendingIcons = c.m_pendingIcons ∧
        finished_count (c.loadDecisionCallback 5 true ∅).trace =
          finished_count c.trace + 1 ∧
        (c.loadDecisionCallback 5 true sample_decided).m_pendingIcons = sample_decided ∧
        finished_count (c.loadDecisionCallback 5 true sample_decided).trace =
          finished_count c.trace)) ∧
    finished_count ((sample_icon_client.loadDecision sample_icons 5 true
      sample_decided).iconsLoaded (sample_loads.take 1)).trace = 0 ∧
    finished_count ((sample_icon_client.loadDecision sample_icons 5 true
      sample_decided).iconsLoaded sample_loads).trace = 1 ∧
    completion_calls ((sample_icon_client.loadDecision sample_icons 5 true
      sample_decided).iconsLoaded sample_loads).trace = [(5, sample_decided)] :=
  ⟨by decide, by decide, by decide,
    C17_icon_loading_client_pending_set sample_icon_client sample_icons 5 sample_decided
      sample_loads (by decide) (by decide) (by decide),
    by decide, by decide, by decide⟩

/-- The drain loop of `main` dispatches its callbacks one after the other. -/
theorem drain_pending_eq_dispatch_all (cbs : List Callback) (st : Cli) :
    drain_pending cbs st = dispatch_all cbs st := by
  induction cbs generalizing st with
  | nil => rfl
  | cons cb rest ih =>
    simp only [drain_pending, dispatch_all]
    cases dispatch cb st with
    | none => rfl
    | some st1 => exact ih st1

/-- When `g_main_loop_run` returns, it has dispatched the callbacks up to the
one that quit the loop, one after the other. -/
theorem g_main_loop_run_dispatches (cbs rest : List Callback) (st st2 : Cli)
    (h : g_main_loop_run cbs st = .ok (rest, st2)) :
    ∃ dispatched, cbs = dispatched ++ rest ∧ dispatch_all dispatched st = some st2 := by
  induction cbs generalizing st with
  | nil => simp [g_main_loop_run] at h
  | cons cb more ih =>
    simp only [g_main_loop_run] at h
    cases hd : dispatch cb st with
    | none => simp [hd] at h
    | some st1 =>
      rw [hd] at h
      simp only at h
      by_cases hrun : st1.running = true
      · simp only [hrun, if_true] at h
        obtain ⟨dispatched, hcbs, hall⟩ := ih st1 h
        refine ⟨cb :: dispatched, by rw [hcbs]; rfl, ?_⟩
        simp only [dispatch_all, hd]
        exact hall
      · simp only [hrun, Bool.false_eq_true, if_false, Except.ok.injEq, Prod.mk.injEq] at h
        obtain ⟨hrest, hst⟩ := h
        refine ⟨[cb], by rw [hrest]; rfl, ?_⟩
        simp only [dispatch_all, hd]
        rw [hst]

end Muprof
